import Mathlib

/-!
Verification development for the AirflowShaper core: a shallow embedding of
the flow-field noise, the obstacle surface model, the per-obstacle
interaction step and the particle integrator, over the real numbers,
together with theorems settling the specification claims.

The embedding follows the TypeScript source: `flowField.ts`
(hash-wave potentials, curl noise, wake decay), `obstacleInteraction.ts`
(obstacle field data, local signed distance and normal per shape kind,
the interaction step) and `particleSystem.ts` (lane recovery, off-path
deviation, respawn and the per-tick update loop).
-/

namespace Airflow

noncomputable section

open Real

/-- A 3-component vector of real numbers, mirroring the `Vector3` values the
source manipulates. -/
structure Vec3 where
  x : ℝ
  y : ℝ
  z : ℝ

namespace Vec3

/-- Componentwise addition. -/
def add (a b : Vec3) : Vec3 := ⟨a.x + b.x, a.y + b.y, a.z + b.z⟩

/-- Componentwise subtraction. -/
def sub (a b : Vec3) : Vec3 := ⟨a.x - b.x, a.y - b.y, a.z - b.z⟩

/-- Scalar multiple of a vector, as in `multiplyScalar`. -/
def smul (s : ℝ) (a : Vec3) : Vec3 := ⟨s * a.x, s * a.y, s * a.z⟩

instance : Add Vec3 := ⟨add⟩

instance : Sub Vec3 := ⟨sub⟩

instance : SMul ℝ Vec3 := ⟨smul⟩

/-- The zero vector. -/
def zero : Vec3 := ⟨0, 0, 0⟩

instance : Zero Vec3 := ⟨zero⟩

/-- Dot product, as in `Vector3.dot`. -/
def dot (a b : Vec3) : ℝ := a.x * b.x + a.y * b.y + a.z * b.z

/-- Squared length, as in `Vector3.lengthSq`. -/
def lengthSq (a : Vec3) : ℝ := a.x * a.x + a.y * a.y + a.z * a.z

/-- Euclidean length, as in `Vector3.length`. -/
def length (a : Vec3) : ℝ := Real.sqrt (a.lengthSq)

/-- Normalization as implemented by three.js: `divideScalar(length() || 1)`,
so the zero vector (the only vector of length zero) is left unchanged. -/
def normalize (a : Vec3) : Vec3 := smul (1 / (if a.length = 0 then 1 else a.length)) a

/-- The `addScaledVector` operation: `a + s * b`. -/
def addScaled (a b : Vec3) (s : ℝ) : Vec3 := a + smul s b

/-- Linear interpolation as implemented by three.js `Vector3.lerp`:
each component moves by `alpha` times the difference toward the target. -/
def lerp (a target : Vec3) (alpha : ℝ) : Vec3 := a + smul alpha (target - a)

@[simp] theorem add_def (a b : Vec3) : a + b = ⟨a.x + b.x, a.y + b.y, a.z + b.z⟩ := rfl

@[simp] theorem sub_def (a b : Vec3) : a - b = ⟨a.x - b.x, a.y - b.y, a.z - b.z⟩ := rfl

@[simp] theorem smul_def (s : ℝ) (a : Vec3) : s • a = ⟨s * a.x, s * a.y, s * a.z⟩ := rfl

theorem ext_iff {a b : Vec3} : a = b ↔ a.x = b.x ∧ a.y = b.y ∧ a.z = b.z := by
  cases a; cases b; simp

end Vec3

/-- A 3-by-3 matrix in row-major fields, standing for a three.js `Matrix3`. -/
structure Mat3 where
  m00 : ℝ
  m01 : ℝ
  m02 : ℝ
  m10 : ℝ
  m11 : ℝ
  m12 : ℝ
  m20 : ℝ
  m21 : ℝ
  m22 : ℝ

/-- Applying a `Matrix3` to a vector (`Vector3.applyMatrix3`). -/
def applyMat3 (m : Mat3) (v : Vec3) : Vec3 :=
  ⟨m.m00 * v.x + m.m01 * v.y + m.m02 * v.z,
   m.m10 * v.x + m.m11 * v.y + m.m12 * v.z,
   m.m20 * v.x + m.m21 * v.y + m.m22 * v.z⟩

/-- The identity `Matrix3`. -/
def idMat3 : Mat3 := ⟨1, 0, 0, 0, 1, 0, 0, 0, 1⟩

/-- A 4-by-4 matrix in row-major fields, standing for a three.js `Matrix4`. -/
structure Mat4 where
  m00 : ℝ
  m01 : ℝ
  m02 : ℝ
  m03 : ℝ
  m10 : ℝ
  m11 : ℝ
  m12 : ℝ
  m13 : ℝ
  m20 : ℝ
  m21 : ℝ
  m22 : ℝ
  m23 : ℝ
  m30 : ℝ
  m31 : ℝ
  m32 : ℝ
  m33 : ℝ

/-- Applying a `Matrix4` to a point (`Vector3.applyMatrix4`), including the
perspective divide by the resulting homogeneous coordinate that three.js
performs. -/
def applyMat4 (m : Mat4) (v : Vec3) : Vec3 :=
  let w := 1 / (m.m30 * v.x + m.m31 * v.y + m.m32 * v.z + m.m33)
  ⟨(m.m00 * v.x + m.m01 * v.y + m.m02 * v.z + m.m03) * w,
   (m.m10 * v.x + m.m11 * v.y + m.m12 * v.z + m.m13) * w,
   (m.m20 * v.x + m.m21 * v.y + m.m22 * v.z + m.m23) * w⟩

/-- The identity `Matrix4`. -/
def idMat4 : Mat4 := ⟨1, 0, 0, 0, 0, 1, 0, 0, 0, 0, 1, 0, 0, 0, 0, 1⟩

/-! ## Flow field: hash-wave potentials, curl noise and wake decay -/

/-- The finite-difference step used by the curl estimate (`EPSILON`). -/
def noiseEps : ℝ := 0.05

/-- First fixed skewed axis (`AXIS_A`). -/
def axisA : Vec3 := ⟨12.9898, 78.233, 37.719⟩

/-- Second fixed skewed axis (`AXIS_B`). -/
def axisB : Vec3 := ⟨39.3468, 11.135, 83.155⟩

/-- Third fixed skewed axis (`AXIS_C`). -/
def axisC : Vec3 := ⟨73.156, 52.235, 9.151⟩

/-- One sine-cosine hash wave along a fixed axis (`hashWave`). -/
def hashWave (x y z : ℝ) (axis : Vec3) (time : ℝ) : ℝ :=
  let d := x * axis.x + y * axis.y + z * axis.z + time * 0.65
  Real.sin d * Real.cos (d * 1.37 + 3.1)

/-- First scalar potential (`potentialA`). -/
def potentialA (x y z time : ℝ) : ℝ :=
  hashWave x y z axisA time + hashWave x y z axisB (time * 0.65)

/-- Second scalar potential (`potentialB`). -/
def potentialB (x y z time : ℝ) : ℝ :=
  hashWave x y z axisB time + hashWave x y z axisC (time * 0.72)

/-- Third scalar potential (`potentialC`). -/
def potentialC (x y z time : ℝ) : ℝ :=
  hashWave x y z axisC time + hashWave x y z axisA (time * 0.59)

/-- The raw central finite-difference curl vector computed inside
`sampleCurlNoise`, before the normalization guard. -/
def curlRaw (position : Vec3) (time scale : ℝ) : Vec3 :=
  let s := max 1e-4 scale
  let x := position.x * s
  let y := position.y * s
  let z := position.z * s
  let aY1 := potentialA x (y + noiseEps) z time
  let aY0 := potentialA x (y - noiseEps) z time
  let aZ1 := potentialA x y (z + noiseEps) time
  let aZ0 := potentialA x y (z - noiseEps) time
  let bX1 := potentialB (x + noiseEps) y z time
  let bX0 := potentialB (x - noiseEps) y z time
  let bZ1 := potentialB x y (z + noiseEps) time
  let bZ0 := potentialB x y (z - noiseEps) time
  let cX1 := potentialC (x + noiseEps) y z time
  let cX0 := potentialC (x - noiseEps) y z time
  let cY1 := potentialC x (y + noiseEps) z time
  let cY0 := potentialC x (y - noiseEps) z time
  let dAdY := (aY1 - aY0) / (2 * noiseEps)
  let dAdZ := (aZ1 - aZ0) / (2 * noiseEps)
  let dBdX := (bX1 - bX0) / (2 * noiseEps)
  let dBdZ := (bZ1 - bZ0) / (2 * noiseEps)
  let dCdX := (cX1 - cX0) / (2 * noiseEps)
  let dCdY := (cY1 - cY0) / (2 * noiseEps)
  ⟨dCdY - dBdZ, dAdZ - dCdX, dBdX - dAdY⟩

/-- The curl-noise sample (`sampleCurlNoise`): the raw finite-difference curl,
scaled to unit length when its length exceeds `1e-5` and returned unchanged
otherwise. -/
def sampleCurlNoise (position : Vec3) (time scale : ℝ) : Vec3 :=
  let target := curlRaw position time scale
  if target.length > 1e-5 then Vec3.smul (1 / target.length) target else target

/-- The wake-decay attenuation (`computeWakeDecay`): zero at or upstream of the
obstacle, otherwise a Gaussian lateral falloff times an exponential
downstream falloff. -/
def computeWakeDecay (downstreamDistance lateralDistance radius : ℝ) : ℝ :=
  if downstreamDistance ≤ 0 then 0
  else
    let safeRadius := max 1e-4 radius
    Real.exp (-(lateralDistance * lateralDistance) / (safeRadius * safeRadius)) *
      Real.exp (-downstreamDistance / (safeRadius * 5.5))

/-! ## Obstacle surface model -/

/-- The five obstacle shape kinds. -/
inductive ObstacleShapeKind
  | plane
  | box
  | sphere
  | pyramid
  | torus
deriving DecidableEq

/-- The per-obstacle cached field data (`ObstacleFieldData`): shape kind,
world-space center and axes, cached world matrices, per-axis scales, local
half extents, bounding radius, shape radii, influence radius and wake
strength. -/
structure ObstacleFieldData where
  shapeKind : ObstacleShapeKind
  center : Vec3
  normal : Vec3
  xAxis : Vec3
  yAxis : Vec3
  worldMatrix : Mat4
  inverseWorldMatrix : Mat4
  worldNormalMatrix : Mat3
  scaleX : ℝ
  scaleY : ℝ
  scaleZ : ℝ
  halfWidth : ℝ
  halfHeight : ℝ
  halfDepth : ℝ
  boundingRadius : ℝ
  sphereRadius : ℝ
  torusMajorRadius : ℝ
  torusMinorRadius : ℝ
  influenceRadius : ℝ
  wakeStrength : ℝ

/-- Clamp as implemented in the source: `Math.max(min, Math.min(max, value))`. -/
def clamp (value lo hi : ℝ) : ℝ := max lo (min hi value)

/-- The value of `Math.sign(x) || 1`: the sign of `x`, with zero replaced by
one. -/
def signOrOne (x : ℝ) : ℝ := if x > 0 then 1 else if x < 0 then -1 else 1

/-- Result of the local surface query: the value returned by
`computeLocalSurfaceDistanceAndNormal` together with the two scratch vectors
it writes (the local surface normal and the nearest local surface point). -/
structure SurfaceQuery where
  signedDistance : ℝ
  normalLocal : Vec3
  nearestLocal : Vec3

/-- The local signed-distance-and-normal computation
(`computeLocalSurfaceDistanceAndNormal`), specialized per shape kind and
evaluated on local coordinates. -/
def computeLocalSurfaceDistanceAndNormal (shapeKind : ObstacleShapeKind)
    (localX localY localZ : ℝ) (obstacle : ObstacleFieldData) : SurfaceQuery :=
  if shapeKind = ObstacleShapeKind.sphere then
    let radius := max 1e-4 obstacle.sphereRadius
    let invRadiusSq := 1 / (radius * radius)
    let f := (localX * localX + localY * localY + localZ * localZ) * invRadiusSq - 1
    let gx := 2 * localX * invRadiusSq
    let gy := 2 * localY * invRadiusSq
    let gz := 2 * localZ * invRadiusSq
    let gradLength := Real.sqrt (gx * gx + gy * gy + gz * gz)
    let normalLocal : Vec3 :=
      if gradLength > 1e-6 then ⟨gx / gradLength, gy / gradLength, gz / gradLength⟩
      else ⟨0, 0, 1⟩
    let signedDistance := if gradLength > 1e-6 then f / gradLength else radius
    let nearestLocal : Vec3 :=
      ⟨localX - normalLocal.x * signedDistance,
       localY - normalLocal.y * signedDistance,
       localZ - normalLocal.z * signedDistance⟩
    ⟨signedDistance, normalLocal, nearestLocal⟩
  else if shapeKind = ObstacleShapeKind.torus then
    let major := max 1e-4 obstacle.torusMajorRadius
    let minor := max 1e-4 obstacle.torusMinorRadius
    let xy := Real.sqrt (localX * localX + localY * localY)
    let qx := xy - major
    let qy := localZ
    let qLength := Real.sqrt (qx * qx + qy * qy)
    let signedDistance := qLength - minor
    let normalLocal : Vec3 :=
      if xy > 1e-6 ∧ qLength > 1e-6 then
        let radialX := localX / xy
        let radialY := localY / xy
        let tangentFactor := qx / qLength
        Vec3.normalize ⟨radialX * tangentFactor, radialY * tangentFactor, qy / qLength⟩
      else ⟨0, 0, 1⟩
    let nearestLocal : Vec3 :=
      ⟨localX - normalLocal.x * signedDistance,
       localY - normalLocal.y * signedDistance,
       localZ - normalLocal.z * signedDistance⟩
    ⟨signedDistance, normalLocal, nearestLocal⟩
  else if shapeKind = ObstacleShapeKind.pyramid then
    let halfWidth := max 1e-4 obstacle.halfWidth
    let halfHeight := max 1e-4 obstacle.halfHeight
    let halfDepth := max 1e-4 obstacle.halfDepth
    let zClamped := clamp localZ (-halfDepth) halfDepth
    let sectionScale := clamp ((halfDepth - zClamped) / (2 * halfDepth)) 0 1
    let allowedX := max 1e-5 (halfWidth * sectionScale)
    let allowedY := max 1e-5 (halfHeight * sectionScale)
    let nearestX := clamp localX (-allowedX) allowedX
    let nearestY := clamp localY (-allowedY) allowedY
    let nearestClamped : Vec3 := ⟨nearestX, nearestY, zClamped⟩
    let signedDelta : Vec3 := ⟨localX - nearestX, localY - nearestY, localZ - zClamped⟩
    let outsideDistance := signedDelta.length
    let inside :=
      localZ ≥ -halfDepth ∧ localZ ≤ halfDepth ∧ |localX| ≤ allowedX ∧ |localY| ≤ allowedY
    if inside then
      let sideX := allowedX - |localX|
      let sideY := allowedY - |localY|
      let top := halfDepth - localZ
      let base := localZ + halfDepth
      let insideDepth := min (min (min sideX sideY) top) base
      let normalLocal : Vec3 :=
        if insideDepth = top then ⟨0, 0, 1⟩
        else if insideDepth = base then ⟨0, 0, -1⟩
        else if insideDepth = sideX then
          Vec3.normalize ⟨signOrOne localX, 0, halfWidth / (2 * halfDepth)⟩
        else Vec3.normalize ⟨0, signOrOne localY, halfHeight / (2 * halfDepth)⟩
      let nearestLocal : Vec3 :=
        ⟨localX - normalLocal.x * insideDepth,
         localY - normalLocal.y * insideDepth,
         localZ - normalLocal.z * insideDepth⟩
      ⟨-insideDepth, normalLocal, nearestLocal⟩
    else
      let normalLocal : Vec3 :=
        if outsideDistance > 1e-6 then Vec3.normalize signedDelta else ⟨0, 0, 1⟩
      ⟨outsideDistance, normalLocal, nearestClamped⟩
  else
    let halfWidth := max 1e-4 obstacle.halfWidth
    let halfHeight := max 1e-4 obstacle.halfHeight
    let halfDepth :=
      if shapeKind = ObstacleShapeKind.plane then max 1e-4 (obstacle.influenceRadius * 0.25)
      else max 1e-4 obstacle.halfDepth
    let nearestX := clamp localX (-halfWidth) halfWidth
    let nearestY := clamp localY (-halfHeight) halfHeight
    let nearestZ := clamp localZ (-halfDepth) halfDepth
    let nearestClamped : Vec3 := ⟨nearestX, nearestY, nearestZ⟩
    let signedDelta : Vec3 := ⟨localX - nearestX, localY - nearestY, localZ - nearestZ⟩
    let outsideDistance := signedDelta.length
    if outsideDistance > 1e-6 then
      ⟨outsideDistance, Vec3.normalize signedDelta, nearestClamped⟩
    else
      let insideX := halfWidth - |localX|
      let insideY := halfHeight - |localY|
      let insideZ := halfDepth - |localZ|
      if insideX ≤ insideY ∧ insideX ≤ insideZ then
        ⟨-insideX, ⟨signOrOne localX, 0, 0⟩, nearestClamped⟩
      else if insideY ≤ insideX ∧ insideY ≤ insideZ then
        ⟨-insideY, ⟨0, signOrOne localY, 0⟩, nearestClamped⟩
      else
        ⟨-insideZ, ⟨0, 0, signOrOne localZ⟩, nearestClamped⟩

/-- Result of one obstacle interaction step: the updated position and
velocity, and whether the particle is near (touching) the surface. -/
structure InteractionResult where
  position : Vec3
  velocity : Vec3
  touched : Bool

/-- The world surface normal the interaction step derives for a query
position: the local surface normal mapped through the obstacle's world
normal matrix and normalized. -/
def worldSurfaceNormal (obstacle : ObstacleFieldData) (position : Vec3) : Vec3 :=
  let localPosition := applyMat4 obstacle.inverseWorldMatrix position
  let q := computeLocalSurfaceDistanceAndNormal obstacle.shapeKind
    localPosition.x localPosition.y localPosition.z obstacle
  Vec3.normalize (applyMat3 obstacle.worldNormalMatrix q.normalLocal)

/-- The nearest world surface point the interaction step derives for a query
position: the nearest local surface point mapped through the obstacle's world
matrix. -/
def nearestWorldPoint (obstacle : ObstacleFieldData) (position : Vec3) : Vec3 :=
  let localPosition := applyMat4 obstacle.inverseWorldMatrix position
  let q := computeLocalSurfaceDistanceAndNormal obstacle.shapeKind
    localPosition.x localPosition.y localPosition.z obstacle
  applyMat4 obstacle.worldMatrix q.nearestLocal

/-- The world-space signed distance the interaction step computes for a query
position: the offset from the nearest world surface point, projected on the
world surface normal. -/
def worldSignedDistance (obstacle : ObstacleFieldData) (position : Vec3) : ℝ :=
  (position - nearestWorldPoint obstacle position).dot (worldSurfaceNormal obstacle position)

/-- The clamped influence radius used by the interaction step. -/
def influenceOf (obstacle : ObstacleFieldData) : ℝ := max 0.01 obstacle.influenceRadius

/-- The barrier shell thickness used by the hard non-penetration push-out. -/
def barrierThicknessOf (obstacle : ObstacleFieldData) : ℝ :=
  min 0.05 (influenceOf obstacle * 0.35)

/-- The per-shape wake radius used in the wake decay query of the
interaction step. -/
def wakeRadiusOf (obstacle : ObstacleFieldData) : ℝ :=
  let influence := influenceOf obstacle
  if obstacle.shapeKind = ObstacleShapeKind.torus then
    max (max ((obstacle.torusMajorRadius + obstacle.torusMinorRadius) * obstacle.scaleX)
      ((obstacle.torusMajorRadius + obstacle.torusMinorRadius) * obstacle.scaleY))
      (obstacle.torusMinorRadius * obstacle.scaleZ) + influence
  else if obstacle.shapeKind = ObstacleShapeKind.sphere then
    max (max (obstacle.sphereRadius * obstacle.scaleX) (obstacle.sphereRadius * obstacle.scaleY))
      (obstacle.sphereRadius * obstacle.scaleZ) + influence
  else
    max (max (obstacle.halfWidth * obstacle.scaleX) (obstacle.halfHeight * obstacle.scaleY))
      (obstacle.halfDepth * obstacle.scaleZ) + influence

/-- The wake-turbulence injection step of the interaction: sample the curl
noise at the (possibly pushed-out) position, remove the component along the
flow direction, renormalize, and add it to the velocity scaled by the wake
factor, the obstacle wake strength and the turbulence amount. -/
def wakeInjection (position velocity flowDirection : Vec3)
    (time turbulenceScale wakeFactor wakeStrength turbulenceAmount : ℝ) : Vec3 :=
  let wake := sampleCurlNoise position time turbulenceScale
  let wake2 := wake.addScaled flowDirection (-(wake.dot flowDirection))
  let wakeLengthSq := wake2.lengthSq
  if wakeLengthSq > 1e-6 then
    (velocity.addScaled (Vec3.smul (1 / Real.sqrt wakeLengthSq) wake2)
      (wakeFactor * wakeStrength * turbulenceAmount))
  else velocity

/-- One obstacle interaction step (`applyObstacleInteraction`): transform to
the obstacle's local frame, query the surface, apply the barrier push-out,
remove the normal velocity component, add bypass and forward-tangent
steering, then downstream of the obstacle apply direction recovery toward
the flow and wake-turbulence injection. -/
def applyObstacleInteraction (position velocity : Vec3) (obstacle : ObstacleFieldData)
    (flowDirection : Vec3) (time turbulenceScale turbulenceStrength : ℝ) :
    InteractionResult :=
  let toCenter := position - obstacle.center
  let influence := influenceOf obstacle
  let surfaceNormalWorld := worldSurfaceNormal obstacle position
  let signedDistance := worldSignedDistance obstacle position
  let nearSurface := signedDistance ≤ influence
  let position1 :=
    if nearSurface ∧ signedDistance < barrierThicknessOf obstacle then
      position.addScaled surfaceNormalWorld
        (barrierThicknessOf obstacle - signedDistance + 1e-4)
    else position
  let velocity1 :=
    if nearSurface then
      let vA := velocity.addScaled surfaceNormalWorld (-(velocity.dot surfaceNormalWorld))
      let radial := toCenter.addScaled surfaceNormalWorld (-(toCenter.dot surfaceNormalWorld))
      let vB :=
        if radial.lengthSq > 1e-6 then
          vA.addScaled radial.normalize
            (0.65 * (1 - clamp (signedDistance / influence) 0 1))
        else vA
      let forwardPull := clamp (signedDistance / influence) 0 1
      let flowTangent :=
        flowDirection.addScaled surfaceNormalWorld (-(flowDirection.dot surfaceNormalWorld))
      if flowTangent.lengthSq > 1e-6 then
        vB.addScaled flowTangent.normalize (0.35 * (1 - forwardPull))
      else vB
    else velocity
  let downstream := toCenter.dot flowDirection - obstacle.boundingRadius
  let velocityFinal :=
    if downstream ≤ 0 then velocity1
    else
      let projectedAlongFlow := toCenter.dot flowDirection
      let lateral := toCenter - Vec3.smul projectedAlongFlow flowDirection
      let lateralDistance := lateral.length
      let wakeFactor := computeWakeDecay downstream lateralDistance (wakeRadiusOf obstacle)
      if wakeFactor ≤ 1e-5 then velocity1
      else
        let velocity2 :=
          if ¬nearSurface ∧ downstream > influence * 0.35 then
            let currentSpeed := velocity1.length
            if currentSpeed > 1e-5 then
              velocity1.lerp (Vec3.smul currentSpeed flowDirection)
                (clamp (wakeFactor * 0.22) 0 0.2)
            else velocity1
          else velocity1
        let turbulenceAmount := max 0 turbulenceStrength
        if turbulenceAmount > 1e-5 then
          wakeInjection position1 velocity2 flowDirection time turbulenceScale
            wakeFactor obstacle.wakeStrength turbulenceAmount
        else velocity2
  ⟨position1, velocityFinal, decide nearSurface⟩

/-! ## Particle integrator, lane recovery and off-path deviation -/

/-- The scalar flow configuration consumed by the integrator
(`flowConfig`). -/
structure FlowConfig where
  drag : ℝ
  turbulenceStrength : ℝ
  turbulenceScale : ℝ
  recoveryLength : ℝ
  obstacleInfluenceRadius : ℝ
  wakeStrength : ℝ

/-- One particle slot: position, velocity, age, lifetime, the fixed lane ray
assigned at spawn, the cached off-path deviation and the impact-turbulence
weight. -/
structure Particle where
  position : Vec3
  velocity : Vec3
  age : ℝ
  lifetime : ℝ
  laneOrigin : Vec3
  laneDirection : Vec3
  offPath : ℝ
  impactTurbulence : ℝ

instance : Inhabited Particle :=
  ⟨⟨0, 0, 0, 0, 0, Vec3.mk 0 0 1, 0, 0⟩⟩

/-- The per-tick environment: emitter basis and spawn vertices, emitter
configuration scalars, the obstacle snapshot list and the flow
configuration. -/
structure SimEnv where
  emitterNormal : Vec3
  emitterRight : Vec3
  emitterUp : Vec3
  emitterWorldVertices : List Vec3
  initialSpeed : ℝ
  particleLifetime : ℝ
  spawnRate : ℝ
  flowLength : ℝ
  maxParticles : ℕ
  obstacles : List ObstacleFieldData
  cfg : FlowConfig

/-- The fixed reference lateral distance mapping off-path deviation to one
(`OFF_PATH_DISTANCE_FOR_MAX_COLOR`). -/
def offPathDistanceForMaxColor : ℝ := 0.9

/-- The lower clamp on the configured flow length (`FLOW_LENGTH_MIN`). -/
def flowLengthMin : ℝ := 0.1

/-- The deterministic per-particle pseudo-random unit value (`randomUnit`):
the fractional part of a scaled sine. -/
def randomUnit (simTime : ℝ) (index channel : ℕ) : ℝ :=
  let raw := Real.sin (((index : ℝ) + 1) * 12.9898 + (channel : ℝ) * 78.233 + simTime * 0.7) *
    43758.5453
  raw - ↑⌊raw⌋

/-- The normalized off-lane deviation (`computeNormalizedOffPath`): zero
behind the spawn point, otherwise the lateral distance to the projected lane
point divided by the fixed reference distance, clamped to the unit
interval. -/
def computeNormalizedOffPath (laneOrigin laneDirection worldPosition : Vec3) : ℝ :=
  let forwardDistance := (worldPosition - laneOrigin).dot laneDirection
  if forwardDistance ≤ 0 then 0
  else
    let laneTarget := (Vec3.smul forwardDistance laneDirection) + laneOrigin
    let lateralDistance := (worldPosition - laneTarget).length
    let normalized := lateralDistance / offPathDistanceForMaxColor
    min 1 (max 0 normalized)

/-- The lane-recovery steering step (`applyLaneRecovery`): when the particle
is not near an obstacle surface and is ahead of its spawn point, add the
lateral error toward the projected lane point scaled by the capped recovery
step. -/
def applyLaneRecovery (laneOrigin laneDirection position velocity : Vec3)
    (dt recoveryLength : ℝ) (nearObstacleSurface : Bool) : Vec3 :=
  if nearObstacleSurface then velocity
  else
    let forwardDistance := (position - laneOrigin).dot laneDirection
    if forwardDistance ≤ 0 then velocity
    else
      let laneTarget := (Vec3.smul forwardDistance laneDirection) + laneOrigin
      let steering := laneTarget - position
      let lateralError := steering.length
      if lateralError ≤ 1e-4 then velocity
      else
        let recoveryDistance := max 0.1 recoveryLength
        let forwardSpeed := max 0.2 |velocity.dot laneDirection|
        let recoveryRate := forwardSpeed / recoveryDistance * 1.2
        let recoveryStep := min 0.35 (recoveryRate * dt)
        velocity.addScaled steering recoveryStep

/-- The respawn of one particle slot at the next round-robin emitter vertex
(`respawnParticleAtEmitter` together with `ParticleTrailSystem.respawnParticle`):
jittered initial velocity along the emitter basis, age reset to zero, a
randomized lifetime at least `0.05` scaled by the square root of the
configured flow length, the lane ray fixed at the spawn point, and the
off-path and impact-turbulence values cleared. When the emitter vertex list
is empty the slot is returned unchanged. -/
def respawnParticleAtEmitter (env : SimEnv) (simTime : ℝ) (index cursor : ℕ)
    (old : Particle) : Particle × ℕ :=
  let vertexCount := env.emitterWorldVertices.length
  if vertexCount = 0 then (old, cursor)
  else
    let vertexIndex := cursor % vertexCount
    let spawnPos := env.emitterWorldVertices.getD vertexIndex 0
    let jitterA := (randomUnit simTime index 0 - 0.5) * 0.3
    let jitterB := (randomUnit simTime index 1 - 0.5) * 0.3
    let vel := ((Vec3.smul env.initialSpeed env.emitterNormal).addScaled env.emitterRight
      jitterA).addScaled env.emitterUp jitterB
    let flowLengthScale := (max flowLengthMin env.flowLength) ^ (0.5 : ℝ)
    let lifeScale := (0.72 + randomUnit simTime index 2 * 0.55) * flowLengthScale
    (⟨spawnPos, vel, 0, max 0.05 (env.particleLifetime * lifeScale), spawnPos,
      env.emitterNormal, 0, 0⟩, cursor + 1)

/-- The sequential application of every obstacle interaction to one particle
during a tick, exactly as the integrator performs it: each obstacle is
applied with the emitter normal as flow direction and a turbulence strength
argument of zero, and the touched flags are or-combined (the integrator
accumulates the same or-combination into both of its
`nearObstacleSurface` and `impactedThisFrame` locals). -/
def obstaclePass (obstacles : List ObstacleFieldData) (flowDirection : Vec3)
    (simTime turbulenceScale : ℝ) (position velocity : Vec3) :
    Vec3 × Vec3 × Bool :=
  obstacles.foldl
    (fun state ob =>
      let r := applyObstacleInteraction state.1 state.2.1 ob flowDirection simTime
        turbulenceScale 0
      (r.position, r.velocity, state.2.2 || r.touched))
    (position, velocity, false)

/-- One particle slot update inside the integrator loop (`simulate`, per
index): age the particle and respawn it when its lifetime is exceeded;
otherwise relax toward the base flow, run every obstacle interaction, inject
impact turbulence, apply lane recovery, apply drag, integrate the position
and refresh the off-path deviation and impact-turbulence weight. -/
def updateSlot (env : SimEnv) (dt simTime dragScale : ℝ) (index cursor : ℕ)
    (old : Particle) : Particle × ℕ :=
  let age1 := old.age + dt
  if age1 ≥ old.lifetime then
    respawnParticleAtEmitter env simTime index cursor { old with age := age1 }
  else
    let baseFlow := Vec3.smul env.initialSpeed env.emitterNormal
    let v1 := old.velocity.addScaled (baseFlow - old.velocity) (min 1 (dt * 1.4))
    let pass := obstaclePass env.obstacles env.emitterNormal simTime
      env.cfg.turbulenceScale old.position v1
    let p2 := pass.1
    let v2 := pass.2.1
    let near := pass.2.2
    let weight0 : ℝ := if near then 1 else old.impactTurbulence
    let v3 :=
      if weight0 > 1e-4 ∧ env.cfg.turbulenceStrength > 1e-5 then
        let turb := sampleCurlNoise p2 simTime env.cfg.turbulenceScale
        let turb2 := turb.addScaled env.emitterNormal (-(turb.dot env.emitterNormal))
        if turb2.lengthSq > 1e-6 then
          v2.addScaled (Vec3.smul (1 / Real.sqrt turb2.lengthSq) turb2)
            (env.cfg.turbulenceStrength * weight0 * dt * 2.25)
        else v2
      else v2
    let v4 := applyLaneRecovery old.laneOrigin old.laneDirection p2 v3 dt
      env.cfg.recoveryLength near
    let v5 := Vec3.smul dragScale v4
    let p3 := p2.addScaled v5 dt
    let offPath := computeNormalizedOffPath old.laneOrigin old.laneDirection p3
    let weight1 : ℝ :=
      if near then 1
      else if weight0 > 0 then
        let targetWeight := min 1 (offPath * 2)
        let recoveryDistance := max 0.1 env.cfg.recoveryLength
        let blend := min 1 (dt * (1.2 + 2.8 / recoveryDistance))
        let relaxed := weight0 + (targetWeight - weight0) * blend
        if relaxed < 0.02 ∧ offPath < 0.01 then 0 else relaxed
      else weight0
    (⟨p3, v5, age1, old.lifetime, old.laneOrigin, old.laneDirection, offPath, weight1⟩,
      cursor)

/-- The effective spawn rate of a tick (`getEffectiveSpawnRate`). -/
def getEffectiveSpawnRate (env : SimEnv) : ℝ :=
  max 8 (min ((env.maxParticles : ℝ) * 8) (env.spawnRate / max flowLengthMin env.flowLength))

/-- The spawn loop at the start of a tick: respawn `count` particles at the
advancing round-robin cursors. -/
def spawnLoop (env : SimEnv) (simTime : ℝ) :
    ℕ → List Particle → ℕ → ℕ → List Particle × ℕ × ℕ
  | 0, particles, particleCursor, vertexCursor => (particles, particleCursor, vertexCursor)
  | n + 1, particles, particleCursor, vertexCursor =>
    let r := respawnParticleAtEmitter env simTime particleCursor vertexCursor
      (particles.getD particleCursor default)
    spawnLoop env simTime n (particles.set particleCursor r.1)
      ((particleCursor + 1) % env.maxParticles) r.2

/-- The per-index integrator loop of a tick, threading the spawn vertex
cursor through the respawns it performs. -/
def updateLoop (env : SimEnv) (dt simTime dragScale : ℝ) :
    List Particle → ℕ → ℕ → List Particle × ℕ
  | [], _, vertexCursor => ([], vertexCursor)
  | p :: rest, index, vertexCursor =>
    let r := updateSlot env dt simTime dragScale index vertexCursor p
    let rest1 := updateLoop env dt simTime dragScale rest (index + 1) r.2
    (r.1 :: rest1.1, rest1.2)

/-- The mutable simulation state carried across ticks. -/
structure SimState where
  particles : List Particle
  simTime : ℝ
  spawnAccumulator : ℝ
  spawnParticleCursor : ℕ
  spawnVertexCursor : ℕ

/-- One full simulation tick (`simulate`): advance the clock, run the spawn
accumulator loop, then update every particle slot in index order. -/
def simulateTick (env : SimEnv) (st : SimState) (dt : ℝ) : SimState :=
  let simTime1 := st.simTime + dt
  let acc1 := st.spawnAccumulator + dt * getEffectiveSpawnRate env
  let spawnCount := ⌊acc1⌋₊
  let spawned := spawnLoop env simTime1 spawnCount st.particles st.spawnParticleCursor
    st.spawnVertexCursor
  let dragScale := Real.exp (-env.cfg.drag * dt)
  let updated := updateLoop env dt simTime1 dragScale spawned.1 0 spawned.2.2
  ⟨updated.1, simTime1, acc1 - (spawnCount : ℝ), spawned.2.1, updated.2⟩

/-! ## Claim C8: wake decay is zero upstream and monotonically non-increasing -/

/-- C8: `computeWakeDecay d l r` equals `0` for every downstream distance
`d ≤ 0`, and for `d > 0`, `r > 0` it is monotonically non-increasing in the
downstream distance and in the absolute lateral distance. -/
theorem c8_wakeDecay_zero_upstream_and_monotone :
    (∀ d l r : ℝ, d ≤ 0 → computeWakeDecay d l r = 0) ∧
    (∀ d₁ d₂ l r : ℝ, 0 < d₁ → 0 < r → d₁ ≤ d₂ →
      computeWakeDecay d₂ l r ≤ computeWakeDecay d₁ l r) ∧
    (∀ d l₁ l₂ r : ℝ, 0 < d → 0 < r → |l₁| ≤ |l₂| →
      computeWakeDecay d l₂ r ≤ computeWakeDecay d l₁ r) := by
  refine ⟨fun d l r hd => ?_, fun d₁ d₂ l r hd₁ _ hle => ?_, fun d l₁ l₂ r hd _ hle => ?_⟩
  · simp [computeWakeDecay, hd]
  · have hd₂ : 0 < d₂ := lt_of_lt_of_le hd₁ hle
    have hr : (0 : ℝ) < max 1e-4 r := lt_max_of_lt_left (by norm_num)
    rw [computeWakeDecay, computeWakeDecay, if_neg (not_le.mpr hd₁), if_neg (not_le.mpr hd₂)]
    have hmono : Real.exp (-d₂ / (max 1e-4 r * 5.5)) ≤ Real.exp (-d₁ / (max 1e-4 r * 5.5)) := by
      apply Real.exp_le_exp.mpr
      apply div_le_div_of_nonneg_right (by linarith) (by positivity)
    exact mul_le_mul_of_nonneg_left hmono (Real.exp_nonneg _)
  · rw [computeWakeDecay, computeWakeDecay, if_neg (not_le.mpr hd), if_neg (not_le.mpr hd)]
    have hsq : l₁ * l₁ ≤ l₂ * l₂ := by
      have := mul_self_le_mul_self (abs_nonneg l₁) hle
      simpa [abs_mul_abs_self] using this
    have hmono : Real.exp (-(l₂ * l₂) / (max 1e-4 r * max 1e-4 r)) ≤
        Real.exp (-(l₁ * l₁) / (max 1e-4 r * max 1e-4 r)) := by
      apply Real.exp_le_exp.mpr
      apply div_le_div_of_nonneg_right (by linarith) (by positivity)
    exact mul_le_mul_of_nonneg_right hmono (Real.exp_nonneg _)

/-- Witness for C8 at concrete inputs. -/
theorem c8_wakeDecay_witness :
    computeWakeDecay (-1) 3 2 = 0 ∧
    computeWakeDecay 2 0 1 ≤ computeWakeDecay 1 0 1 ∧
    computeWakeDecay 1 2 1 ≤ computeWakeDecay 1 1 1 :=
  ⟨c8_wakeDecay_zero_upstream_and_monotone.1 (-1) 3 2 (by norm_num),
   c8_wakeDecay_zero_upstream_and_monotone.2.1 1 2 0 1 (by norm_num) (by norm_num) (by norm_num),
   c8_wakeDecay_zero_upstream_and_monotone.2.2 1 1 2 1 (by norm_num) (by norm_num) (by
     rw [abs_one, abs_two]; norm_num)⟩

/-! ## Claim C9: off-lane deviation formula -/

/-- C9: the off-lane deviation is zero when the forward projection onto the
lane ray is not positive, and otherwise is the lateral distance to the
projected lane point divided by the reference distance `0.9`, clamped to
`[0, 1]`. -/
theorem c9_offPath_zero_behind_else_clamped_ratio (o d p : Vec3) :
    ((p - o).dot d ≤ 0 → computeNormalizedOffPath o d p = 0) ∧
    (0 < (p - o).dot d →
      computeNormalizedOffPath o d p =
        min 1 (max 0 ((p - (Vec3.smul ((p - o).dot d) d + o)).length / 0.9))) := by
  constructor
  · intro h
    rw [computeNormalizedOffPath, if_pos h]
  · intro h
    rw [computeNormalizedOffPath, if_neg (not_le.mpr h)]
    rfl

/-- Witness for C9 at concrete inputs: one point behind the spawn plane and
one point one unit off a lane along the z-axis. -/
theorem c9_offPath_witness :
    computeNormalizedOffPath ⟨0, 0, 0⟩ ⟨0, 0, 1⟩ ⟨0, 0, -1⟩ = 0 ∧
    computeNormalizedOffPath ⟨0, 0, 0⟩ ⟨0, 0, 1⟩ ⟨3, 0, 2⟩ =
      min 1 (max 0 ((Vec3.mk 3 0 2 - (Vec3.smul ((Vec3.mk 3 0 2 -
        Vec3.mk 0 0 0).dot ⟨0, 0, 1⟩) ⟨0, 0, 1⟩ + Vec3.mk 0 0 0)).length / 0.9)) := by
  constructor
  · exact (c9_offPath_zero_behind_else_clamped_ratio ⟨0, 0, 0⟩ ⟨0, 0, 1⟩ ⟨0, 0, -1⟩).1 (by
      simp [Vec3.dot])
  · exact (c9_offPath_zero_behind_else_clamped_ratio ⟨0, 0, 0⟩ ⟨0, 0, 1⟩ ⟨3, 0, 2⟩).2 (by
      simp [Vec3.dot])

/-! ## Claim C6: lane recovery steering step -/

/-- C6: when the particle is not touching a surface this tick and its forward
projection onto the lane ray is positive (and the lateral error is above the
dead-band guard), lane recovery adds the lateral error vector toward the
projected lane point scaled by `min 0.35 (forwardSpeed / recoveryLength * 1.2 * dt)`,
where the forward speed is floored at `0.2` and the recovery length at
`0.1`. -/
theorem c6_laneRecovery_adds_capped_error_step (o d p v : Vec3) (dt rl : ℝ)
    (hfwd : 0 < (p - o).dot d)
    (herr : 1e-4 < ((Vec3.smul ((p - o).dot d) d + o) - p).length) :
    applyLaneRecovery o d p v dt rl false =
      v.addScaled ((Vec3.smul ((p - o).dot d) d + o) - p)
        (min 0.35 (max 0.2 |v.dot d| / max 0.1 rl * 1.2 * dt)) := by
  rw [applyLaneRecovery]
  simp only [Bool.false_eq_true, if_false]
  rw [if_neg (not_le.mpr hfwd), if_neg (not_le.mpr herr)]

/-- Witness for C6: a particle one unit off a z-axis lane, two units ahead of
the spawn point, with zero velocity. -/
theorem c6_laneRecovery_witness :
    applyLaneRecovery ⟨0, 0, 0⟩ ⟨0, 0, 1⟩ ⟨1, 0, 2⟩ ⟨0, 0, 0⟩ 1 1 false =
      Vec3.addScaled ⟨0, 0, 0⟩ ((Vec3.smul ((Vec3.mk 1 0 2 - Vec3.mk 0 0 0).dot ⟨0, 0, 1⟩)
        ⟨0, 0, 1⟩ + Vec3.mk 0 0 0) - ⟨1, 0, 2⟩)
        (min 0.35 (max 0.2 |(Vec3.mk 0 0 0).dot ⟨0, 0, 1⟩| / max 0.1 1 * 1.2 * 1)) := by
  apply c6_laneRecovery_adds_capped_error_step
  · simp [Vec3.dot]
  · have h1 : ((Vec3.smul ((Vec3.mk 1 0 2 - Vec3.mk 0 0 0).dot ⟨0, 0, 1⟩) ⟨0, 0, 1⟩ +
        Vec3.mk 0 0 0) - ⟨1, 0, 2⟩).length = 1 := by
      simp [Vec3.smul, Vec3.dot, Vec3.length, Vec3.lengthSq]
    rw [h1]; norm_num

/-! ## Concrete obstacle fixtures -/

/-- A concrete obstacle fixture: the default field data of
`createObstacleFieldData` with an identity world transform and unit
scales. -/
def baseObstacle : ObstacleFieldData where
  shapeKind := ObstacleShapeKind.plane
  center := ⟨0, 0, 0⟩
  normal := ⟨0, 0, 1⟩
  xAxis := ⟨1, 0, 0⟩
  yAxis := ⟨0, 1, 0⟩
  worldMatrix := idMat4
  inverseWorldMatrix := idMat4
  worldNormalMatrix := idMat3
  scaleX := 1
  scaleY := 1
  scaleZ := 1
  halfWidth := 0.5
  halfHeight := 0.5
  halfDepth := 0.01
  boundingRadius := Real.sqrt (0.5 * 0.5 + 0.5 * 0.5 + 0.01 * 0.01)
  sphereRadius := 0.5
  torusMajorRadius := 0.34
  torusMinorRadius := 0.16
  influenceRadius := 0.45
  wakeStrength := 0.8

/-- A unit-radius sphere obstacle at the origin with an identity world
transform. -/
def unitSphereObstacle : ObstacleFieldData :=
  { baseObstacle with shapeKind := ObstacleShapeKind.sphere, sphereRadius := 1 }

/-! ## Claim C4: the sphere branch of the signed-distance computation -/

/-- C4 counterexample: at the local query point `(2, 0, 0)` of a unit sphere
the sphere branch returns `3 / 4`, while the claimed value
`length p - radius` is `1`, so the claimed exact formula fails. -/
theorem c4_sphere_distance_counterexample :
    (computeLocalSurfaceDistanceAndNormal ObstacleShapeKind.sphere 2 0 0
      unitSphereObstacle).signedDistance = 3 / 4 ∧
    Vec3.length ⟨2, 0, 0⟩ - max 1e-4 unitSphereObstacle.sphereRadius = 1 ∧
    (3 / 4 : ℝ) ≠ 1 := by
  have hmax : max (1e-4 : ℝ) unitSphereObstacle.sphereRadius = 1 := by
    rw [show unitSphereObstacle.sphereRadius = 1 from rfl]
    rw [max_eq_right]; norm_num
  have h16 : Real.sqrt 16 = 4 := by
    rw [show (16 : ℝ) = 4 ^ 2 by norm_num]
    exact Real.sqrt_sq (by norm_num)
  refine ⟨?_, ?_, by norm_num⟩
  · rw [computeLocalSurfaceDistanceAndNormal]
    simp only [reduceIte, hmax]
    norm_num
    rw [h16]
    norm_num
  · rw [hmax, Vec3.length, Vec3.lengthSq]
    rw [show (2 : ℝ) * 2 + 0 * 0 + 0 * 0 = 2 ^ 2 by norm_num,
      Real.sqrt_sq (by norm_num : (0 : ℝ) ≤ 2)]
    norm_num

/-- C4 amended: on the sphere branch, whenever the gradient-length guard
passes, the returned signed distance is the implicit-function value
`(x² + y² + z² - r²) / (2 length p)` (which agrees with `length p - r`
exactly on the surface and to first order near it), and the returned local
normal is the normalized radial vector. -/
theorem c4_amended_sphere_gradient_distance (o : ObstacleFieldData) (x y z : ℝ)
    (h : 1e-6 < 2 * Real.sqrt (x * x + y * y + z * z) /
      (max 1e-4 o.sphereRadius * max 1e-4 o.sphereRadius)) :
    (computeLocalSurfaceDistanceAndNormal ObstacleShapeKind.sphere x y z o).signedDistance =
      (x * x + y * y + z * z - max 1e-4 o.sphereRadius * max 1e-4 o.sphereRadius) /
        (2 * Real.sqrt (x * x + y * y + z * z)) ∧
    (computeLocalSurfaceDistanceAndNormal ObstacleShapeKind.sphere x y z o).normalLocal =
      Vec3.smul (1 / Real.sqrt (x * x + y * y + z * z)) ⟨x, y, z⟩ := by
  have hr0 : (0 : ℝ) < max 1e-4 o.sphereRadius := lt_max_of_lt_left (by norm_num)
  have hs0 : (0 : ℝ) ≤ x * x + y * y + z * z :=
    add_nonneg (add_nonneg (mul_self_nonneg x) (mul_self_nonneg y)) (mul_self_nonneg z)
  set r := max 1e-4 o.sphereRadius with hr_def
  set s := x * x + y * y + z * z with hs_def
  have hr : (0 : ℝ) < r := hr0
  have hs : (0 : ℝ) ≤ s := hs0
  set n := Real.sqrt s with hn_def
  have hn0 : 0 ≤ n := Real.sqrt_nonneg s
  have hnpos : 0 < n := by
    rcases lt_or_eq_of_le hn0 with hlt | heq
    · exact hlt
    · exfalso; rw [← heq] at h; simp at h; linarith
  have hnn : n * n = s := Real.mul_self_sqrt hs
  have hgrad : Real.sqrt (2 * x * (1 / (r * r)) * (2 * x * (1 / (r * r))) +
      2 * y * (1 / (r * r)) * (2 * y * (1 / (r * r))) +
      2 * z * (1 / (r * r)) * (2 * z * (1 / (r * r)))) = 2 * n / (r * r) := by
    rw [show 2 * x * (1 / (r * r)) * (2 * x * (1 / (r * r))) +
        2 * y * (1 / (r * r)) * (2 * y * (1 / (r * r))) +
        2 * z * (1 / (r * r)) * (2 * z * (1 / (r * r))) = (2 * n / (r * r)) ^ 2 by
      field_simp
      nlinarith [hnn]]
    exact Real.sqrt_sq (div_nonneg (by linarith) (le_of_lt (mul_pos hr hr)))
  rw [computeLocalSurfaceDistanceAndNormal]
  simp only [reduceIte]
  rw [hgrad]
  rw [if_pos (by exact h), if_pos (by exact h)]
  constructor
  · field_simp
  · rw [Vec3.smul]
    refine Vec3.ext_iff.mpr ⟨?_, ?_, ?_⟩ <;> field_simp <;> ring

/-- Witness for the amended C4 at the local point `(2, 0, 0)` of a unit
sphere: the guard holds and the distance evaluates to `3 / 4` with radial
normal `(1, 0, 0)`. -/
theorem c4_amended_witness :
    (computeLocalSurfaceDistanceAndNormal ObstacleShapeKind.sphere 2 0 0
      unitSphereObstacle).signedDistance =
      (2 * 2 + 0 * 0 + 0 * 0 - max 1e-4 unitSphereObstacle.sphereRadius *
        max 1e-4 unitSphereObstacle.sphereRadius) /
        (2 * Real.sqrt (2 * 2 + 0 * 0 + 0 * 0)) ∧
    (computeLocalSurfaceDistanceAndNormal ObstacleShapeKind.sphere 2 0 0
      unitSphereObstacle).normalLocal =
      Vec3.smul (1 / Real.sqrt (2 * 2 + 0 * 0 + 0 * 0)) ⟨2, 0, 0⟩ := by
  apply c4_amended_sphere_gradient_distance
  rw [show (2 : ℝ) * 2 + 0 * 0 + 0 * 0 = 2 ^ 2 by norm_num,
    Real.sqrt_sq (by norm_num : (0 : ℝ) ≤ 2)]
  rw [show max (1e-4 : ℝ) unitSphereObstacle.sphereRadius = 1 by
    rw [show unitSphereObstacle.sphereRadius = 1 from rfl]; rw [max_eq_right]; norm_num]
  norm_num

/-! ## Claim C10: the age-below-lifetime invariant of the tick -/

/-- Any slot leaving the integrator loop body satisfies `age < lifetime`,
provided the emitter vertex list is nonempty (so a due respawn can run). -/
theorem updateSlot_age_lt_lifetime (env : SimEnv) (dt simTime dragScale : ℝ)
    (index cursor : ℕ) (old : Particle) (hv : env.emitterWorldVertices ≠ []) :
    (updateSlot env dt simTime dragScale index cursor old).1.age <
      (updateSlot env dt simTime dragScale index cursor old).1.lifetime := by
  have hv0 : ¬ env.emitterWorldVertices.length = 0 := by
    simpa [List.length_eq_zero] using hv
  rw [updateSlot]
  by_cases hage : old.age + dt ≥ old.lifetime
  · rw [if_pos hage, respawnParticleAtEmitter, if_neg hv0]
    show (0 : ℝ) < max 0.05 _
    exact lt_max_of_lt_left (by norm_num)
  · rw [if_neg hage]
    exact not_le.mp hage

/-- Every slot produced by the integrator loop satisfies `age < lifetime`,
provided the emitter vertex list is nonempty. -/
theorem updateLoop_age_lt_lifetime (env : SimEnv) (dt simTime dragScale : ℝ)
    (hv : env.emitterWorldVertices ≠ []) :
    ∀ (ps : List Particle) (index vertexCursor : ℕ),
      ∀ p ∈ (updateLoop env dt simTime dragScale ps index vertexCursor).1,
        p.age < p.lifetime := by
  intro ps
  induction ps with
  | nil => intro i c p hp; simp [updateLoop] at hp
  | cons head tail ih =>
    intro i c p hp
    rw [updateLoop] at hp
    rcases List.mem_cons.mp hp with h | h
    · rw [h]; exact updateSlot_age_lt_lifetime env dt simTime dragScale i c head hv
    · exact ih (i + 1) _ p h

/-- C10: after a full simulation tick every particle slot satisfies
`age < lifetime`; moreover a slot whose incremented age reaches or exceeds
its lifetime is not integrated but handed to the emitter respawn, which
resets its age to `0` and assigns a lifetime of at least `0.05`. -/
theorem c10_age_lt_lifetime_after_tick (env : SimEnv) (st : SimState) (dt : ℝ)
    (hv : env.emitterWorldVertices ≠ []) :
    (∀ p ∈ (simulateTick env st dt).particles, p.age < p.lifetime) ∧
    (∀ (simTime dragScale : ℝ) (index cursor : ℕ) (old : Particle),
      old.age + dt ≥ old.lifetime →
        updateSlot env dt simTime dragScale index cursor old =
          respawnParticleAtEmitter env simTime index cursor { old with age := old.age + dt } ∧
        (updateSlot env dt simTime dragScale index cursor old).1.age = 0 ∧
        0.05 ≤ (updateSlot env dt simTime dragScale index cursor old).1.lifetime) := by
  have hv0 : ¬ env.emitterWorldVertices.length = 0 := by
    simpa [List.length_eq_zero] using hv
  constructor
  · intro p hp
    exact updateLoop_age_lt_lifetime env dt _ _ hv _ 0 _ p hp
  · intro simTime dragScale index cursor old hage
    refine ⟨by rw [updateSlot, if_pos hage], ?_, ?_⟩
    · rw [updateSlot, if_pos hage, respawnParticleAtEmitter, if_neg hv0]
    · rw [updateSlot, if_pos hage, respawnParticleAtEmitter, if_neg hv0]
      exact le_max_left _ _

/-- Witness for C10: a one-slot environment whose particle is past its
lifetime is respawned at the emitter on the next slot update, with age zero
and lifetime at least `0.05`. -/
theorem c10_witness :
    updateSlot
        ⟨⟨0, 0, 1⟩, ⟨1, 0, 0⟩, ⟨0, 1, 0⟩, [⟨0, 0, 0⟩], 1, 1, 0, 1, 1, [],
          ⟨0.8, 0, 0.35, 1, 0.1, 1.05⟩⟩ 1 0 0 0 0
        ⟨⟨0, 0, 0⟩, ⟨0, 0, 0⟩, 2, 1, ⟨0, 0, 0⟩, ⟨0, 0, 1⟩, 0, 0⟩ =
      respawnParticleAtEmitter
        ⟨⟨0, 0, 1⟩, ⟨1, 0, 0⟩, ⟨0, 1, 0⟩, [⟨0, 0, 0⟩], 1, 1, 0, 1, 1, [],
          ⟨0.8, 0, 0.35, 1, 0.1, 1.05⟩⟩ 0 0 0
        { (⟨⟨0, 0, 0⟩, ⟨0, 0, 0⟩, 2, 1, ⟨0, 0, 0⟩, ⟨0, 0, 1⟩, 0, 0⟩ : Particle) with
          age := (⟨⟨0, 0, 0⟩, ⟨0, 0, 0⟩, 2, 1, ⟨0, 0, 0⟩, ⟨0, 0, 1⟩, 0, 0⟩ : Particle).age + 1 } ∧
    (updateSlot
        ⟨⟨0, 0, 1⟩, ⟨1, 0, 0⟩, ⟨0, 1, 0⟩, [⟨0, 0, 0⟩], 1, 1, 0, 1, 1, [],
          ⟨0.8, 0, 0.35, 1, 0.1, 1.05⟩⟩ 1 0 0 0 0
        ⟨⟨0, 0, 0⟩, ⟨0, 0, 0⟩, 2, 1, ⟨0, 0, 0⟩, ⟨0, 0, 1⟩, 0, 0⟩).1.age = 0 ∧
    0.05 ≤ (updateSlot
        ⟨⟨0, 0, 1⟩, ⟨1, 0, 0⟩, ⟨0, 1, 0⟩, [⟨0, 0, 0⟩], 1, 1, 0, 1, 1, [],
          ⟨0.8, 0, 0.35, 1, 0.1, 1.05⟩⟩ 1 0 0 0 0
        ⟨⟨0, 0, 0⟩, ⟨0, 0, 0⟩, 2, 1, ⟨0, 0, 0⟩, ⟨0, 0, 1⟩, 0, 0⟩).1.lifetime := by
  exact (c10_age_lt_lifetime_after_tick
      ⟨⟨0, 0, 1⟩, ⟨1, 0, 0⟩, ⟨0, 1, 0⟩, [⟨0, 0, 0⟩], 1, 1, 0, 1, 1, [],
        ⟨0.8, 0, 0.35, 1, 0.1, 1.05⟩⟩
      ⟨[⟨⟨0, 0, 0⟩, ⟨0, 0, 0⟩, 2, 1, ⟨0, 0, 0⟩, ⟨0, 0, 1⟩, 0, 0⟩], 0, 0, 0, 0⟩
      1 (by simp)).2 0 0 0 0
      ⟨⟨0, 0, 0⟩, ⟨0, 0, 0⟩, 2, 1, ⟨0, 0, 0⟩, ⟨0, 0, 1⟩, 0, 0⟩
      (by norm_num : (2 : ℝ) + 1 ≥ 1)

/-! ## Claim C3: the integrator passes zero wake-turbulence strength -/

/-- The interaction step with the final wake-turbulence injection branch
removed, used to state that the zero turbulence-strength argument the
integrator passes makes that branch a no-op. -/
def applyObstacleInteractionNoWake (position velocity : Vec3)
    (obstacle : ObstacleFieldData) (flowDirection : Vec3)
    (time turbulenceScale : ℝ) : InteractionResult :=
  let toCenter := position - obstacle.center
  let influence := influenceOf obstacle
  let surfaceNormalWorld := worldSurfaceNormal obstacle position
  let signedDistance := worldSignedDistance obstacle position
  let nearSurface := signedDistance ≤ influence
  let position1 :=
    if nearSurface ∧ signedDistance < barrierThicknessOf obstacle then
      position.addScaled surfaceNormalWorld
        (barrierThicknessOf obstacle - signedDistance + 1e-4)
    else position
  let velocity1 :=
    if nearSurface then
      let vA := velocity.addScaled surfaceNormalWorld (-(velocity.dot surfaceNormalWorld))
      let radial := toCenter.addScaled surfaceNormalWorld (-(toCenter.dot surfaceNormalWorld))
      let vB :=
        if radial.lengthSq > 1e-6 then
          vA.addScaled radial.normalize
            (0.65 * (1 - clamp (signedDistance / influence) 0 1))
        else vA
      let forwardPull := clamp (signedDistance / influence) 0 1
      let flowTangent :=
        flowDirection.addScaled surfaceNormalWorld (-(flowDirection.dot surfaceNormalWorld))
      if flowTangent.lengthSq > 1e-6 then
        vB.addScaled flowTangent.normalize (0.35 * (1 - forwardPull))
      else vB
    else velocity
  let downstream := toCenter.dot flowDirection - obstacle.boundingRadius
  let velocityFinal :=
    if downstream ≤ 0 then velocity1
    else
      let projectedAlongFlow := toCenter.dot flowDirection
      let lateral := toCenter - Vec3.smul projectedAlongFlow flowDirection
      let lateralDistance := lateral.length
      let wakeFactor := computeWakeDecay downstream lateralDistance (wakeRadiusOf obstacle)
      if wakeFactor ≤ 1e-5 then velocity1
      else
        if ¬nearSurface ∧ downstream > influence * 0.35 then
          let currentSpeed := velocity1.length
          if currentSpeed > 1e-5 then
            velocity1.lerp (Vec3.smul currentSpeed flowDirection)
              (clamp (wakeFactor * 0.22) 0 0.2)
          else velocity1
        else velocity1
  ⟨position1, velocityFinal, decide nearSurface⟩

/-- C3: the interaction step invoked with turbulence strength `0` — exactly
what the integrator passes for every obstacle of every tick — coincides with
the step whose wake-injection branch is removed; consequently the whole
per-tick obstacle pass never injects wake turbulence, and a configured
turbulence strength cannot change a slot update whose impact-turbulence
path is gated off. -/
theorem c3_integrator_zero_wake_turbulence :
    (∀ (p v : Vec3) (o : ObstacleFieldData) (f : Vec3) (t sc : ℝ),
      applyObstacleInteraction p v o f t sc 0 = applyObstacleInteractionNoWake p v o f t sc) ∧
    (∀ (obstacles : List ObstacleFieldData) (f : Vec3) (t sc : ℝ) (p v : Vec3),
      obstaclePass obstacles f t sc p v =
        obstacles.foldl
          (fun state ob =>
            let r := applyObstacleInteractionNoWake state.1 state.2.1 ob f t sc
            (r.position, r.velocity, state.2.2 || r.touched))
          (p, v, false)) ∧
    (∀ (env : SimEnv) (dt simTime dragScale : ℝ) (index cursor : ℕ) (old : Particle)
      (s₁ s₂ : ℝ),
      (obstaclePass env.obstacles env.emitterNormal simTime env.cfg.turbulenceScale
        old.position (old.velocity.addScaled
          (Vec3.smul env.initialSpeed env.emitterNormal - old.velocity)
          (min 1 (dt * 1.4)))).2.2 = false →
      old.impactTurbulence ≤ 1e-4 →
      updateSlot { env with cfg := { env.cfg with turbulenceStrength := s₁ } }
          dt simTime dragScale index cursor old =
        updateSlot { env with cfg := { env.cfg with turbulenceStrength := s₂ } }
          dt simTime dragScale index cursor old) := by
  have hbranch : ∀ (p v : Vec3) (o : ObstacleFieldData) (f : Vec3) (t sc : ℝ),
      applyObstacleInteraction p v o f t sc 0 = applyObstacleInteractionNoWake p v o f t sc := by
    intro p v o f t sc
    rw [applyObstacleInteraction, applyObstacleInteractionNoWake]
    norm_num
  refine ⟨hbranch, ?_, ?_⟩
  · intro obstacles f t sc p v
    rw [obstaclePass]
    congr 1
    funext state ob
    rw [hbranch]
  · intro env dt simTime dragScale index cursor old s₁ s₂ hpass hweight
    rw [updateSlot, updateSlot]
    by_cases hage : old.age + dt ≥ old.lifetime
    · rw [if_pos hage, if_pos hage]
      rfl
    · rw [if_neg hage, if_neg hage]
      simp only [hpass, Bool.false_eq_true, if_false]
      rw [if_neg (fun hand : old.impactTurbulence > 1e-4 ∧ s₁ > 1e-5 =>
          absurd hand.1 (not_lt.mpr hweight)),
        if_neg (fun hand : old.impactTurbulence > 1e-4 ∧ s₂ > 1e-5 =>
          absurd hand.1 (not_lt.mpr hweight))]

/-- Witness for C3 at concrete inputs: an obstacle-free environment with a
fresh particle, compared across turbulence strengths `0` and `7`. -/
theorem c3_witness :
    updateSlot ⟨⟨0, 0, 1⟩, ⟨1, 0, 0⟩, ⟨0, 1, 0⟩, [⟨0, 0, 0⟩], 1, 1, 0, 1, 1, [],
        ⟨0.8, 0, 0.35, 1, 0.1, 1.05⟩⟩ 0.01 0 1 0 0
        ⟨⟨0, 0, 0⟩, ⟨0, 0, 0⟩, 0, 1, ⟨0, 0, 0⟩, ⟨0, 0, 1⟩, 0, 0⟩ =
      updateSlot ⟨⟨0, 0, 1⟩, ⟨1, 0, 0⟩, ⟨0, 1, 0⟩, [⟨0, 0, 0⟩], 1, 1, 0, 1, 1, [],
        ⟨0.8, 7, 0.35, 1, 0.1, 1.05⟩⟩ 0.01 0 1 0 0
        ⟨⟨0, 0, 0⟩, ⟨0, 0, 0⟩, 0, 1, ⟨0, 0, 0⟩, ⟨0, 0, 1⟩, 0, 0⟩ := by
  exact c3_integrator_zero_wake_turbulence.2.2
    ⟨⟨0, 0, 1⟩, ⟨1, 0, 0⟩, ⟨0, 1, 0⟩, [⟨0, 0, 0⟩], 1, 1, 0, 1, 1, [],
      ⟨0.8, 0, 0.35, 1, 0.1, 1.05⟩⟩ 0.01 0 1 0 0
    ⟨⟨0, 0, 0⟩, ⟨0, 0, 0⟩, 0, 1, ⟨0, 0, 0⟩, ⟨0, 0, 1⟩, 0, 0⟩ 0 7
    (by rw [obstaclePass]; rfl) (by norm_num)

/-! ## Claim C1: the hard non-penetration push-out -/

/-- Applying the identity world matrix is the identity. -/
theorem applyMat4_id (v : Vec3) : applyMat4 idMat4 v = v := by
  rw [applyMat4, idMat4]
  refine Vec3.ext_iff.mpr ⟨?_, ?_, ?_⟩ <;> simp

/-- Applying the identity normal matrix is the identity. -/
theorem applyMat3_id (v : Vec3) : applyMat3 idMat3 v = v := by
  rw [applyMat3, idMat3]
  refine Vec3.ext_iff.mpr ⟨?_, ?_, ?_⟩ <;> simp

/-- Normalizing the local unit z vector returns it unchanged. -/
theorem normalize_unitZ : Vec3.normalize ⟨0, 0, 1⟩ = ⟨0, 0, 1⟩ := by
  have hl : (Vec3.mk 0 0 1).length = 1 := by
    rw [Vec3.length, Vec3.lengthSq]
    norm_num
  rw [Vec3.normalize, hl]
  norm_num [Vec3.smul]

/-- The position returned by the interaction step: the input position pushed
out along the world surface normal by the barrier penetration plus epsilon
when the particle is inside the barrier shell, and unchanged otherwise. -/
theorem applyObstacleInteraction_position (p v : Vec3) (o : ObstacleFieldData)
    (f : Vec3) (t sc ts : ℝ) :
    (applyObstacleInteraction p v o f t sc ts).position =
      if worldSignedDistance o p ≤ influenceOf o ∧
          worldSignedDistance o p < barrierThicknessOf o then
        p.addScaled (worldSurfaceNormal o p)
          (barrierThicknessOf o - worldSignedDistance o p + 1e-4)
      else p := by
  rw [applyObstacleInteraction]

/-- C1 amended: whenever the computed world signed distance is below the
barrier thickness (and the mapped world normal is a unit vector, true for
every nondegenerate world transform), the interaction step pushes the
particle along the outward world surface normal by the barrier penetration
amount plus the epsilon `1e-4`, and the corrected position lies strictly
outside the computed support plane: its offset from the computed nearest
surface point along the world surface normal equals
`barrierThickness + 1e-4 > 0`. The re-evaluated signed distance at the
corrected position can nevertheless be negative, see the counterexample. -/
theorem c1_amended_pushout_outside_support_plane (o : ObstacleFieldData)
    (p v f : Vec3) (t sc ts : ℝ)
    (hn : (worldSurfaceNormal o p).length = 1)
    (hsd : worldSignedDistance o p < barrierThicknessOf o) :
    (applyObstacleInteraction p v o f t sc ts).position =
      p.addScaled (worldSurfaceNormal o p)
        (barrierThicknessOf o - worldSignedDistance o p + 1e-4) ∧
    ((applyObstacleInteraction p v o f t sc ts).position -
        nearestWorldPoint o p).dot (worldSurfaceNormal o p) =
      barrierThicknessOf o + 1e-4 ∧
    0 < barrierThicknessOf o + 1e-4 := by
  have hinf : (0.01 : ℝ) ≤ influenceOf o := le_max_left _ _
  have hbar_le : barrierThicknessOf o ≤ influenceOf o := by
    rw [barrierThicknessOf]
    calc min 0.05 (influenceOf o * 0.35) ≤ influenceOf o * 0.35 := min_le_right _ _
    _ ≤ influenceOf o := by nlinarith
  have hnear : worldSignedDistance o p ≤ influenceOf o := le_trans (le_of_lt hsd) hbar_le
  have hbar_pos : 0 < barrierThicknessOf o := by
    rw [barrierThicknessOf]
    exact lt_min (by norm_num) (by nlinarith)
  have hpos : (applyObstacleInteraction p v o f t sc ts).position =
      p.addScaled (worldSurfaceNormal o p)
        (barrierThicknessOf o - worldSignedDistance o p + 1e-4) := by
    rw [applyObstacleInteraction_position, if_pos ⟨hnear, hsd⟩]
  have hunit : (worldSurfaceNormal o p).dot (worldSurfaceNormal o p) = 1 := by
    have h1 : Real.sqrt ((worldSurfaceNormal o p).lengthSq) = 1 := hn
    have h2 : (worldSurfaceNormal o p).lengthSq = 1 := by
      have h0 : 0 ≤ (worldSurfaceNormal o p).lengthSq := by
        rw [Vec3.lengthSq]
        exact add_nonneg (add_nonneg (mul_self_nonneg _) (mul_self_nonneg _))
          (mul_self_nonneg _)
      have := Real.sq_sqrt h0
      rw [h1] at this
      nlinarith [this]
    rw [Vec3.dot, ← h2, Vec3.lengthSq]
  refine ⟨hpos, ?_, by linarith⟩
  rw [hpos]
  have hdelta : worldSignedDistance o p =
      (p - nearestWorldPoint o p).dot (worldSurfaceNormal o p) := rfl
  rw [Vec3.addScaled]
  set n := worldSurfaceNormal o p
  set q := nearestWorldPoint o p
  have expand : ((p + Vec3.smul (barrierThicknessOf o - worldSignedDistance o p + 1e-4) n) -
      q).dot n = (p - q).dot n +
        (barrierThicknessOf o - worldSignedDistance o p + 1e-4) * (n.dot n) := by
    simp [Vec3.dot, Vec3.smul]
    ring
  rw [expand, hunit, ← hdelta]
  ring

/-- For an obstacle with identity world matrices, the world surface normal is
the normalized local query normal at the point itself. -/
theorem worldSurfaceNormal_id (o : ObstacleFieldData) (p : Vec3)
    (hMi : o.inverseWorldMatrix = idMat4) (hN : o.worldNormalMatrix = idMat3) :
    worldSurfaceNormal o p =
      Vec3.normalize
        (computeLocalSurfaceDistanceAndNormal o.shapeKind p.x p.y p.z o).normalLocal := by
  rw [worldSurfaceNormal, hMi, hN, applyMat4_id, applyMat3_id]

/-- For an obstacle with identity world matrices, the nearest world surface
point is the local one. -/
theorem nearestWorldPoint_id (o : ObstacleFieldData) (p : Vec3)
    (hM : o.worldMatrix = idMat4) (hMi : o.inverseWorldMatrix = idMat4) :
    nearestWorldPoint o p =
      (computeLocalSurfaceDistanceAndNormal o.shapeKind p.x p.y p.z o).nearestLocal := by
  rw [nearestWorldPoint, hM, hMi, applyMat4_id, applyMat4_id]

/-- The local surface query of the default plane obstacle fixture at the local
point `(0, 0, 0.13)`: distance `0.0175` to the barrier shell plane at
`z = 0.1125`, with outward normal `(0, 0, 1)`. -/
theorem baseObstacle_query_eval :
    computeLocalSurfaceDistanceAndNormal ObstacleShapeKind.plane 0 0 0.13 baseObstacle =
      ⟨0.0175, ⟨0, 0, 1⟩, ⟨0, 0, 0.1125⟩⟩ := by
  have hsqrt : Real.sqrt ((0.13 - 0.1125) * (0.13 - 0.1125)) = 0.0175 := by
    rw [show ((0.13 - 0.1125) * (0.13 - 0.1125) : ℝ) = 0.0175 ^ 2 by norm_num]
    exact Real.sqrt_sq (by norm_num)
  rw [computeLocalSurfaceDistanceAndNormal,
    if_neg (by decide : ¬(ObstacleShapeKind.plane = ObstacleShapeKind.sphere)),
    if_neg (by decide : ¬(ObstacleShapeKind.plane = ObstacleShapeKind.torus)),
    if_neg (by decide : ¬(ObstacleShapeKind.plane = ObstacleShapeKind.pyramid)),
    if_pos (rfl : ObstacleShapeKind.plane = ObstacleShapeKind.plane)]
  rw [show baseObstacle.halfWidth = 0.5 from rfl, show baseObstacle.halfHeight = 0.5 from rfl,
    show baseObstacle.influenceRadius = 0.45 from rfl]
  rw [show max (1e-4 : ℝ) 0.5 = 0.5 by rw [max_eq_right]; norm_num,
    show max (1e-4 : ℝ) (0.45 * 0.25) = 0.1125 by
      rw [max_eq_right (by norm_num : (1e-4 : ℝ) ≤ 0.45 * 0.25)]; norm_num]
  simp only []
  rw [show clamp 0 (-0.5) 0.5 = 0 by rw [clamp]; norm_num,
    show clamp 0.13 (-0.1125) 0.1125 = 0.1125 by rw [clamp]; norm_num]
  have hlen : Vec3.length ⟨0 - 0, 0 - 0, 0.13 - 0.1125⟩ = 0.0175 := by
    rw [Vec3.length, Vec3.lengthSq]
    simpa using hsqrt
  rw [hlen]
  rw [if_pos (by norm_num : (0.0175 : ℝ) > 1e-6)]
  have hnorm : Vec3.normalize ⟨0 - 0, 0 - 0, 0.13 - 0.1125⟩ = ⟨0, 0, 1⟩ := by
    rw [Vec3.normalize, hlen, if_neg (by norm_num : (0.0175 : ℝ) ≠ 0), Vec3.smul]
    refine Vec3.ext_iff.mpr ⟨?_, ?_, ?_⟩ <;> norm_num
  rw [hnorm]

/-- The world surface normal of the plane fixture at `(0, 0, 0.13)` is the
world z axis. -/
theorem baseObstacle_normal_eval :
    worldSurfaceNormal baseObstacle ⟨0, 0, 0.13⟩ = ⟨0, 0, 1⟩ := by
  rw [worldSurfaceNormal_id baseObstacle ⟨0, 0, 0.13⟩ rfl rfl]
  rw [show (Vec3.mk 0 0 0.13).x = 0 from rfl, show (Vec3.mk 0 0 0.13).y = 0 from rfl,
    show (Vec3.mk 0 0 0.13).z = 0.13 from rfl,
    show baseObstacle.shapeKind = ObstacleShapeKind.plane from rfl, baseObstacle_query_eval]
  exact normalize_unitZ

/-- The computed world signed distance of the plane fixture at
`(0, 0, 0.13)` is `0.0175`. -/
theorem baseObstacle_sd_eval :
    worldSignedDistance baseObstacle ⟨0, 0, 0.13⟩ = 0.0175 := by
  rw [worldSignedDistance, baseObstacle_normal_eval,
    nearestWorldPoint_id baseObstacle ⟨0, 0, 0.13⟩ rfl rfl]
  rw [show (Vec3.mk 0 0 0.13).x = 0 from rfl, show (Vec3.mk 0 0 0.13).y = 0 from rfl,
    show (Vec3.mk 0 0 0.13).z = 0.13 from rfl,
    show baseObstacle.shapeKind = ObstacleShapeKind.plane from rfl, baseObstacle_query_eval]
  rw [Vec3.dot]
  norm_num

/-- Witness for the amended C1: the plane fixture with a particle at
`(0, 0, 0.13)`, inside the barrier shell of thickness `0.05`. -/
theorem c1_amended_witness :
    (applyObstacleInteraction ⟨0, 0, 0.13⟩ ⟨0, 0, 0⟩ baseObstacle ⟨0, 0, 1⟩ 0 0 0).position =
      Vec3.addScaled ⟨0, 0, 0.13⟩ (worldSurfaceNormal baseObstacle ⟨0, 0, 0.13⟩)
        (barrierThicknessOf baseObstacle - worldSignedDistance baseObstacle ⟨0, 0, 0.13⟩ +
          1e-4) ∧
    ((applyObstacleInteraction ⟨0, 0, 0.13⟩ ⟨0, 0, 0⟩ baseObstacle ⟨0, 0, 1⟩ 0 0 0).position -
        nearestWorldPoint baseObstacle ⟨0, 0, 0.13⟩).dot
      (worldSurfaceNormal baseObstacle ⟨0, 0, 0.13⟩) =
      barrierThicknessOf baseObstacle + 1e-4 ∧
    0 < barrierThicknessOf baseObstacle + 1e-4 := by
  apply c1_amended_pushout_outside_support_plane
  · rw [baseObstacle_normal_eval, Vec3.length, Vec3.lengthSq]
    norm_num
  · rw [baseObstacle_sd_eval, barrierThicknessOf, influenceOf]
    rw [show baseObstacle.influenceRadius = 0.45 from rfl]
    rw [show max (0.01 : ℝ) 0.45 = 0.45 by rw [max_eq_right]; norm_num]
    rw [show min (0.05 : ℝ) (0.45 * 0.35) = 0.05 by rw [min_eq_left] <;> norm_num]
    norm_num

/-- A degenerate torus obstacle: major radius collapsed to the minimum
`1e-4`, minor radius `0.3`, influence radius `0.1`, identity world
transform. -/
def needleTorusObstacle : ObstacleFieldData :=
  { baseObstacle with
    shapeKind := ObstacleShapeKind.torus
    torusMajorRadius := 1e-4
    torusMinorRadius := 0.3
    influenceRadius := 0.1 }

/-- The local surface query of the degenerate torus on its axis: the
hard-coded fallback normal `(0, 0, 1)` regardless of which side of the
center the point lies on. -/
theorem needleTorus_query_eval (z : ℝ) :
    computeLocalSurfaceDistanceAndNormal ObstacleShapeKind.torus 0 0 z
      needleTorusObstacle =
      ⟨Real.sqrt (1e-8 + z * z) - 0.3, ⟨0, 0, 1⟩,
        ⟨0, 0, z - (Real.sqrt (1e-8 + z * z) - 0.3)⟩⟩ := by
  have hxy : Real.sqrt ((0 : ℝ) * 0 + 0 * 0) = 0 := by
    norm_num
  rw [computeLocalSurfaceDistanceAndNormal,
    if_neg (by decide : ¬(ObstacleShapeKind.torus = ObstacleShapeKind.sphere)),
    if_pos (rfl : ObstacleShapeKind.torus = ObstacleShapeKind.torus)]
  rw [show needleTorusObstacle.torusMajorRadius = 1e-4 from rfl,
    show needleTorusObstacle.torusMinorRadius = 0.3 from rfl]
  rw [show max (1e-4 : ℝ) 1e-4 = 1e-4 from max_self _,
    show max (1e-4 : ℝ) 0.3 = 0.3 by rw [max_eq_right]; norm_num]
  rw [hxy]
  simp only []
  rw [if_neg (by norm_num : ¬((0 : ℝ) > 1e-6 ∧
    Real.sqrt ((0 - 1e-4) * (0 - 1e-4) + z * z) > 1e-6))]
  have harg : ((0 : ℝ) - 1e-4) * (0 - 1e-4) + z * z = 1e-8 + z * z := by norm_num
  rw [harg]
  simp only [SurfaceQuery.mk.injEq, Vec3.mk.injEq]
  norm_num

/-- The computed world signed distance of the degenerate torus on its axis. -/
theorem needleTorus_sd_eval (z : ℝ) :
    worldSignedDistance needleTorusObstacle ⟨0, 0, z⟩ =
      Real.sqrt (1e-8 + z * z) - 0.3 := by
  rw [worldSignedDistance, worldSurfaceNormal_id needleTorusObstacle ⟨0, 0, z⟩ rfl rfl,
    nearestWorldPoint_id needleTorusObstacle ⟨0, 0, z⟩ rfl rfl]
  rw [show (Vec3.mk 0 0 z).x = 0 from rfl, show (Vec3.mk 0 0 z).y = 0 from rfl,
    show (Vec3.mk 0 0 z).z = z from rfl,
    show needleTorusObstacle.shapeKind = ObstacleShapeKind.torus from rfl,
    needleTorus_query_eval, normalize_unitZ]
  rw [Vec3.dot]
  simp only [Vec3.sub_def]
  ring

/-- The world surface normal of the degenerate torus on its axis is the
world z axis, independently of the side of the center. -/
theorem needleTorus_normal_eval (z : ℝ) :
    worldSurfaceNormal needleTorusObstacle ⟨0, 0, z⟩ = ⟨0, 0, 1⟩ := by
  rw [worldSurfaceNormal_id needleTorusObstacle ⟨0, 0, z⟩ rfl rfl]
  rw [show (Vec3.mk 0 0 z).x = 0 from rfl, show (Vec3.mk 0 0 z).y = 0 from rfl,
    show (Vec3.mk 0 0 z).z = z from rfl,
    show needleTorusObstacle.shapeKind = ObstacleShapeKind.torus from rfl,
    needleTorus_query_eval]
  exact normalize_unitZ

/-- The barrier thickness of the degenerate torus fixture. -/
theorem needleTorus_barrier : barrierThicknessOf needleTorusObstacle = 0.035 := by
  rw [barrierThicknessOf, influenceOf,
    show needleTorusObstacle.influenceRadius = 0.1 from rfl,
    max_eq_right (by norm_num : (0.01 : ℝ) ≤ 0.1),
    min_eq_right (by norm_num : (0.1 * 0.35 : ℝ) ≤ 0.05)]
  norm_num

/-- C1 counterexample: on the degenerate torus fixture, a particle on the
torus axis below the center starts inside the barrier shell (signed distance
below the barrier thickness), yet the push-out — which follows the
hard-coded fallback normal `(0, 0, 1)` — moves it deeper inside: the
re-evaluated signed distance at the corrected position is negative. -/
theorem c1_counterexample_push_into_surface :
    worldSignedDistance needleTorusObstacle ⟨0, 0, -0.29⟩ <
      barrierThicknessOf needleTorusObstacle ∧
    worldSignedDistance needleTorusObstacle
      (applyObstacleInteraction ⟨0, 0, -0.29⟩ ⟨0, 0, 0⟩ needleTorusObstacle
        ⟨0, 0, 1⟩ 0 0 0).position < 0 := by
  have harg : (1e-8 : ℝ) + -0.29 * -0.29 = 0.08410001 := by norm_num
  have hQub : Real.sqrt 0.08410001 < 0.2900001 := by
    rw [Real.sqrt_lt' (by norm_num)]
    norm_num
  have hQlb : (0.29 : ℝ) < Real.sqrt 0.08410001 := by
    rw [Real.lt_sqrt (by norm_num)]
    norm_num
  have hsd : worldSignedDistance needleTorusObstacle ⟨0, 0, -0.29⟩ =
      Real.sqrt 0.08410001 - 0.3 := by
    rw [needleTorus_sd_eval, harg]
  refine ⟨by rw [hsd, needleTorus_barrier]; linarith, ?_⟩
  have hcond : worldSignedDistance needleTorusObstacle ⟨0, 0, -0.29⟩ ≤
      influenceOf needleTorusObstacle ∧
      worldSignedDistance needleTorusObstacle ⟨0, 0, -0.29⟩ <
      barrierThicknessOf needleTorusObstacle := by
    constructor
    · rw [hsd, influenceOf, show needleTorusObstacle.influenceRadius = 0.1 from rfl,
        max_eq_right (by norm_num : (0.01 : ℝ) ≤ 0.1)]
      linarith
    · rw [hsd, needleTorus_barrier]; linarith
  rw [applyObstacleInteraction_position, if_pos hcond, needleTorus_normal_eval, hsd,
    needleTorus_barrier]
  have hpt : Vec3.addScaled ⟨0, 0, -0.29⟩ ⟨0, 0, 1⟩
      (0.035 - (Real.sqrt 0.08410001 - 0.3) + 1e-4) =
      ⟨0, 0, 0.0451 - Real.sqrt 0.08410001⟩ := by
    rw [Vec3.addScaled, Vec3.smul]
    refine Vec3.ext_iff.mpr ⟨?_, ?_, ?_⟩ <;> simp <;> ring
  rw [hpt, needleTorus_sd_eval]
  have h2 : Real.sqrt (1e-8 + (0.0451 - Real.sqrt 0.08410001) *
      (0.0451 - Real.sqrt 0.08410001)) < 0.3 := by
    rw [Real.sqrt_lt' (by norm_num)]
    nlinarith [hQub, hQlb]
  linarith

/-! ## Claim C5: downstream recovery blend -/

/-- Squared length is nonnegative. -/
theorem Vec3.lengthSq_nonneg (a : Vec3) : 0 ≤ a.lengthSq :=
  add_nonneg (add_nonneg (mul_self_nonneg _) (mul_self_nonneg _)) (mul_self_nonneg _)

/-- Length is nonnegative. -/
theorem Vec3.length_nonneg (a : Vec3) : 0 ≤ a.length := Real.sqrt_nonneg _

/-- The square of the length is the squared length. -/
theorem Vec3.sq_length (a : Vec3) : a.length * a.length = a.lengthSq :=
  Real.mul_self_sqrt a.lengthSq_nonneg

/-- The Cauchy-Schwarz inequality for the embedded 3-vectors. -/
theorem Vec3.dot_le_mul_length (a b : Vec3) : a.dot b ≤ a.length * b.length := by
  have hcs : (a.dot b) ^ 2 ≤ a.lengthSq * b.lengthSq := by
    rw [Vec3.dot, Vec3.lengthSq, Vec3.lengthSq]
    nlinarith [sq_nonneg (a.x * b.y - a.y * b.x), sq_nonneg (a.x * b.z - a.z * b.x),
      sq_nonneg (a.y * b.z - a.z * b.y)]
  have h1 : a.length * b.length = Real.sqrt (a.lengthSq * b.lengthSq) := by
    rw [Vec3.length, Vec3.length, ← Real.sqrt_mul a.lengthSq_nonneg]
  rw [h1]
  calc a.dot b ≤ |a.dot b| := le_abs_self _
  _ = Real.sqrt ((a.dot b) ^ 2) := (Real.sqrt_sq_eq_abs _).symm
  _ ≤ Real.sqrt (a.lengthSq * b.lengthSq) := Real.sqrt_le_sqrt hcs

/-- Linearly interpolating a vector toward an equal-length target along a
unit direction cannot increase its length. -/
theorem lerp_toward_equal_speed_le (v f : Vec3) (b : ℝ) (hb0 : 0 ≤ b) (hb1 : b ≤ 1)
    (hf : f.length = 1) :
    (v.lerp (Vec3.smul v.length f) b).length ≤ v.length := by
  have hs0 : 0 ≤ v.length := v.length_nonneg
  have hfsq : f.lengthSq = 1 := by
    have := f.sq_length
    rw [hf] at this
    linarith
  have hvsq : v.lengthSq = v.length * v.length := v.sq_length.symm
  have hvf : v.dot f ≤ v.length := by
    have := Vec3.dot_le_mul_length v f
    rw [hf] at this
    linarith
  have hexpand : (v.lerp (Vec3.smul v.length f) b).lengthSq =
      (1 - b) ^ 2 * v.lengthSq + 2 * (1 - b) * b * v.length * (v.dot f) +
        b ^ 2 * v.length ^ 2 * f.lengthSq := by
    rw [Vec3.lerp, Vec3.lengthSq, Vec3.lengthSq, Vec3.lengthSq, Vec3.dot]
    simp only [Vec3.add_def, Vec3.sub_def, Vec3.smul]
    ring
  have hkey : 0 ≤ b * (1 - b) * v.length * (v.length - v.dot f) :=
    mul_nonneg (mul_nonneg (mul_nonneg hb0 (by linarith)) hs0) (by linarith)
  have hsq : (v.lerp (Vec3.smul v.length f) b).lengthSq ≤ v.length * v.length := by
    rw [hexpand, hfsq, hvsq]
    nlinarith [hkey]
  calc (v.lerp (Vec3.smul v.length f) b).length
      = Real.sqrt ((v.lerp (Vec3.smul v.length f) b).lengthSq) := rfl
  _ ≤ Real.sqrt (v.length * v.length) := Real.sqrt_le_sqrt hsq
  _ = v.length := Real.sqrt_mul_self hs0

/-- The velocity returned by the interaction step for a particle outside the
influence shell, sufficiently far downstream, with a non-negligible wake
factor, a non-negligible speed and the wake injection disabled: the linear
interpolation of the velocity toward the flow direction scaled by the
current speed, with blend factor `clamp (wakeFactor * 0.22) 0 0.2`. -/
theorem applyObstacleInteraction_velocity_recovery (o : ObstacleFieldData)
    (p v f : Vec3) (t sc ts : ℝ)
    (hnear : ¬ worldSignedDistance o p ≤ influenceOf o)
    (hdown : (p - o.center).dot f - o.boundingRadius > influenceOf o * 0.35)
    (hwake : 1e-5 < computeWakeDecay ((p - o.center).dot f - o.boundingRadius)
      ((p - o.center) - Vec3.smul ((p - o.center).dot f) f).length (wakeRadiusOf o))
    (hspeed : v.length > 1e-5) (hts : ts ≤ 1e-5) :
    (applyObstacleInteraction p v o f t sc ts).velocity =
      v.lerp (Vec3.smul v.length f)
        (clamp (computeWakeDecay ((p - o.center).dot f - o.boundingRadius)
          ((p - o.center) - Vec3.smul ((p - o.center).dot f) f).length
          (wakeRadiusOf o) * 0.22) 0 0.2) := by
  have hinf : (0.01 : ℝ) ≤ influenceOf o := le_max_left _ _
  have hdown0 : ¬ ((p - o.center).dot f - o.boundingRadius ≤ 0) := by nlinarith
  rw [applyObstacleInteraction]
  simp only []
  rw [if_neg hnear, if_neg hdown0, if_neg (not_le.mpr hwake),
    if_neg (not_lt.mpr (max_le (by norm_num) hts)), if_pos ⟨hnear, hdown⟩,
    if_pos hspeed]

/-- A wide thin box obstacle fixture at the origin with an identity world
transform, influence radius `0.1` and unit wake strength. -/
def wakeBoxObstacle : ObstacleFieldData :=
  { baseObstacle with
    shapeKind := ObstacleShapeKind.box
    halfWidth := 1
    halfHeight := 1
    halfDepth := 0.01
    boundingRadius := Real.sqrt 2.0001
    influenceRadius := 0.1 }

/-- The local surface query of the wake box fixture straight downstream at
`(0, 0, 3)`. -/
theorem wakeBox_query_eval :
    computeLocalSurfaceDistanceAndNormal ObstacleShapeKind.box 0 0 3 wakeBoxObstacle =
      ⟨2.99, ⟨0, 0, 1⟩, ⟨0, 0, 0.01⟩⟩ := by
  have hsqrt : Real.sqrt ((3 - 0.01) * (3 - 0.01)) = 2.99 := by
    rw [show ((3 - 0.01) * (3 - 0.01) : ℝ) = 2.99 ^ 2 by norm_num]
    exact Real.sqrt_sq (by norm_num)
  rw [computeLocalSurfaceDistanceAndNormal,
    if_neg (by decide : ¬(ObstacleShapeKind.box = ObstacleShapeKind.sphere)),
    if_neg (by decide : ¬(ObstacleShapeKind.box = ObstacleShapeKind.torus)),
    if_neg (by decide : ¬(ObstacleShapeKind.box = ObstacleShapeKind.pyramid)),
    if_neg (by decide : ¬(ObstacleShapeKind.box = ObstacleShapeKind.plane))]
  rw [show wakeBoxObstacle.halfWidth = 1 from rfl, show wakeBoxObstacle.halfHeight = 1 from rfl,
    show wakeBoxObstacle.halfDepth = 0.01 from rfl]
  rw [show max (1e-4 : ℝ) 1 = 1 by rw [max_eq_right]; norm_num,
    show max (1e-4 : ℝ) 0.01 = 0.01 by rw [max_eq_right]; norm_num]
  simp only []
  rw [show clamp 0 (-1) 1 = 0 by rw [clamp]; norm_num,
    show clamp 3 (-0.01) 0.01 = 0.01 by rw [clamp]; norm_num]
  have hlen : Vec3.length ⟨0 - 0, 0 - 0, 3 - 0.01⟩ = 2.99 := by
    rw [Vec3.length, Vec3.lengthSq]
    simpa using hsqrt
  rw [hlen]
  rw [if_pos (by norm_num : (2.99 : ℝ) > 1e-6)]
  have hnorm : Vec3.normalize ⟨0 - 0, 0 - 0, 3 - 0.01⟩ = ⟨0, 0, 1⟩ := by
    rw [Vec3.normalize, hlen, if_neg (by norm_num : (2.99 : ℝ) ≠ 0), Vec3.smul]
    refine Vec3.ext_iff.mpr ⟨?_, ?_, ?_⟩ <;> norm_num
  rw [hnorm]

/-- The computed world signed distance of the wake box fixture at
`(0, 0, 3)` is `2.99`. -/
theorem wakeBox_sd_eval : worldSignedDistance wakeBoxObstacle ⟨0, 0, 3⟩ = 2.99 := by
  have hnormal : worldSurfaceNormal wakeBoxObstacle ⟨0, 0, 3⟩ = ⟨0, 0, 1⟩ := by
    rw [worldSurfaceNormal_id wakeBoxObstacle ⟨0, 0, 3⟩ rfl rfl]
    rw [show (Vec3.mk 0 0 3).x = 0 from rfl, show (Vec3.mk 0 0 3).y = 0 from rfl,
      show (Vec3.mk 0 0 3).z = 3 from rfl,
      show wakeBoxObstacle.shapeKind = ObstacleShapeKind.box from rfl, wakeBox_query_eval]
    exact normalize_unitZ
  rw [worldSignedDistance, hnormal, nearestWorldPoint_id wakeBoxObstacle ⟨0, 0, 3⟩ rfl rfl]
  rw [show (Vec3.mk 0 0 3).x = 0 from rfl, show (Vec3.mk 0 0 3).y = 0 from rfl,
    show (Vec3.mk 0 0 3).z = 3 from rfl,
    show wakeBoxObstacle.shapeKind = ObstacleShapeKind.box from rfl, wakeBox_query_eval]
  rw [Vec3.dot]
  simp only [Vec3.sub_def]
  norm_num

/-- The wake radius of the wake box fixture. -/
theorem wakeBox_wakeRadius_eval : wakeRadiusOf wakeBoxObstacle = 1.1 := by
  rw [wakeRadiusOf, show wakeBoxObstacle.shapeKind = ObstacleShapeKind.box from rfl,
    if_neg (by decide : ¬(ObstacleShapeKind.box = ObstacleShapeKind.torus)),
    if_neg (by decide : ¬(ObstacleShapeKind.box = ObstacleShapeKind.sphere))]
  rw [show wakeBoxObstacle.halfWidth = 1 from rfl, show wakeBoxObstacle.halfHeight = 1 from rfl,
    show wakeBoxObstacle.halfDepth = 0.01 from rfl, show wakeBoxObstacle.scaleX = 1 from rfl,
    show wakeBoxObstacle.scaleY = 1 from rfl, show wakeBoxObstacle.scaleZ = 1 from rfl,
    influenceOf, show wakeBoxObstacle.influenceRadius = 0.1 from rfl]
  rw [max_eq_right (by norm_num : (0.01 : ℝ) ≤ 0.1)]
  norm_num

/-- Bounds for the bounding radius of the wake box fixture. -/
theorem sqrt_twoPlus_bounds : 1.4142 < Real.sqrt 2.0001 ∧ Real.sqrt 2.0001 < 1.4143 := by
  constructor
  · rw [Real.lt_sqrt (by norm_num)]; norm_num
  · rw [Real.sqrt_lt' (by norm_num)]; norm_num

/-- The influence radius of the wake box fixture after clamping. -/
theorem wakeBox_influence_eval : influenceOf wakeBoxObstacle = 0.1 := by
  rw [influenceOf, show wakeBoxObstacle.influenceRadius = 0.1 from rfl,
    max_eq_right (by norm_num : (0.01 : ℝ) ≤ 0.1)]

/-- The downstream distance of the wake box fixture query point. -/
theorem wakeBox_downstream_eval :
    (Vec3.mk 0 0 3 - wakeBoxObstacle.center).dot ⟨0, 0, 1⟩ -
      wakeBoxObstacle.boundingRadius = 3 - Real.sqrt 2.0001 := by
  rw [show wakeBoxObstacle.center = Vec3.mk 0 0 0 from rfl,
    show wakeBoxObstacle.boundingRadius = Real.sqrt 2.0001 from rfl, Vec3.dot]
  simp only [Vec3.sub_def]
  norm_num

/-- The lateral distance of the wake box fixture query point is zero. -/
theorem wakeBox_lateral_eval :
    (Vec3.mk 0 0 3 - wakeBoxObstacle.center -
      Vec3.smul ((Vec3.mk 0 0 3 - wakeBoxObstacle.center).dot ⟨0, 0, 1⟩) ⟨0, 0, 1⟩).length =
      0 := by
  rw [show wakeBoxObstacle.center = Vec3.mk 0 0 0 from rfl]
  rw [Vec3.length, Vec3.lengthSq, Vec3.dot]
  simp only [Vec3.sub_def, Vec3.smul]
  norm_num

/-- The wake factor of the wake box fixture query point as a single
exponential. -/
theorem wakeBox_wf_eval :
    computeWakeDecay (3 - Real.sqrt 2.0001) 0 1.1 =
      Real.exp (-(3 - Real.sqrt 2.0001) / 6.05) := by
  have hbr := sqrt_twoPlus_bounds
  rw [computeWakeDecay, if_neg (by nlinarith [hbr.2] : ¬(3 - Real.sqrt 2.0001 ≤ 0))]
  rw [show max (1e-4 : ℝ) 1.1 = 1.1 by rw [max_eq_right]; norm_num]
  simp only []
  rw [show (-(0 * 0) / ((1.1 : ℝ) * 1.1)) = 0 by norm_num, Real.exp_zero, one_mul]
  norm_num

/-- Bounds for the wake factor of the wake box fixture query point. -/
theorem wakeBox_wf_bounds :
    0.737 ≤ Real.exp (-(3 - Real.sqrt 2.0001) / 6.05) ∧
      Real.exp (-(3 - Real.sqrt 2.0001) / 6.05) ≤ 0.7924 := by
  have hbr := sqrt_twoPlus_bounds
  have hX1 : (0.26209 : ℝ) < (3 - Real.sqrt 2.0001) / 6.05 := by
    rw [lt_div_iff (by norm_num : (0 : ℝ) < 6.05)]
    nlinarith [hbr.2]
  have hX2 : (3 - Real.sqrt 2.0001) / 6.05 < 0.26213 := by
    rw [div_lt_iff (by norm_num : (0 : ℝ) < 6.05)]
    nlinarith [hbr.1]
  have hxX : (-(3 - Real.sqrt 2.0001)) / 6.05 = -((3 - Real.sqrt 2.0001) / 6.05) := by
    ring
  constructor
  · have h := Real.add_one_le_exp (-((3 - Real.sqrt 2.0001) / 6.05))
    rw [hxX]
    linarith [h, hX2]
  · rw [hxX, Real.exp_neg]
    have hexp : (1.26209 : ℝ) < Real.exp ((3 - Real.sqrt 2.0001) / 6.05) := by
      have h := Real.add_one_le_exp ((3 - Real.sqrt 2.0001) / 6.05)
      linarith [hX1]
    have hinv : (Real.exp ((3 - Real.sqrt 2.0001) / 6.05))⁻¹ ≤ (1.26209 : ℝ)⁻¹ := by
      apply inv_le_inv_of_le (by norm_num) (le_of_lt hexp)
    calc (Real.exp ((3 - Real.sqrt 2.0001) / 6.05))⁻¹ ≤ (1.26209 : ℝ)⁻¹ := hinv
    _ ≤ 0.7924 := by norm_num

/-- C5 amended: for a particle outside the influence shell, sufficiently far
downstream, with non-negligible wake factor and speed (and the
wake-turbulence injection disabled), the interaction step replaces the
velocity by its linear interpolation toward the flow direction scaled by the
current speed, with blend factor `wakeFactor * 0.22` clamped to `[0, 0.2]`;
for a unit flow direction the blend cannot increase the speed (the target
has equal magnitude), but it does not leave the speed unchanged in
general. -/
theorem c5_amended_recovery_blend_caps_speed (o : ObstacleFieldData) (p v f : Vec3)
    (t sc ts : ℝ)
    (hnear : ¬ worldSignedDistance o p ≤ influenceOf o)
    (hdown : (p - o.center).dot f - o.boundingRadius > influenceOf o * 0.35)
    (hwake : 1e-5 < computeWakeDecay ((p - o.center).dot f - o.boundingRadius)
      (p - o.center - Vec3.smul ((p - o.center).dot f) f).length (wakeRadiusOf o))
    (hspeed : v.length > 1e-5) (hts : ts ≤ 1e-5) (hf : f.length = 1) :
    (applyObstacleInteraction p v o f t sc ts).velocity =
      v.lerp (Vec3.smul v.length f)
        (clamp (computeWakeDecay ((p - o.center).dot f - o.boundingRadius)
          (p - o.center - Vec3.smul ((p - o.center).dot f) f).length
          (wakeRadiusOf o) * 0.22) 0 0.2) ∧
    ((applyObstacleInteraction p v o f t sc ts).velocity).length ≤ v.length := by
  have heq := applyObstacleInteraction_velocity_recovery o p v f t sc ts hnear hdown
    hwake hspeed hts
  refine ⟨heq, ?_⟩
  rw [heq]
  apply lerp_toward_equal_speed_le v f _ ?_ ?_ hf
  · exact le_max_left 0 _
  · rw [clamp]
    exact max_le (by norm_num) (le_trans (min_le_left _ _) (by norm_num))

/-- Witness for the amended C5: the wake box fixture with a unit cross-flow
velocity at `(0, 0, 3)` and zero turbulence strength. -/
theorem c5_amended_witness :
    (applyObstacleInteraction ⟨0, 0, 3⟩ ⟨1, 0, 0⟩ wakeBoxObstacle ⟨0, 0, 1⟩ 0 0 0).velocity =
      Vec3.lerp ⟨1, 0, 0⟩ (Vec3.smul (Vec3.length ⟨1, 0, 0⟩) ⟨0, 0, 1⟩)
        (clamp (computeWakeDecay
          ((Vec3.mk 0 0 3 - wakeBoxObstacle.center).dot ⟨0, 0, 1⟩ -
            wakeBoxObstacle.boundingRadius)
          (Vec3.mk 0 0 3 - wakeBoxObstacle.center -
            Vec3.smul ((Vec3.mk 0 0 3 - wakeBoxObstacle.center).dot ⟨0, 0, 1⟩)
              ⟨0, 0, 1⟩).length
          (wakeRadiusOf wakeBoxObstacle) * 0.22) 0 0.2) ∧
    ((applyObstacleInteraction ⟨0, 0, 3⟩ ⟨1, 0, 0⟩ wakeBoxObstacle
        ⟨0, 0, 1⟩ 0 0 0).velocity).length ≤ Vec3.length ⟨1, 0, 0⟩ := by
  have hlen1 : Vec3.length ⟨1, 0, 0⟩ = 1 := by
    rw [Vec3.length, Vec3.lengthSq]
    norm_num
  apply c5_amended_recovery_blend_caps_speed
  · rw [wakeBox_sd_eval, wakeBox_influence_eval]
    norm_num
  · rw [wakeBox_downstream_eval, wakeBox_influence_eval]
    nlinarith [sqrt_twoPlus_bounds.2]
  · rw [wakeBox_downstream_eval, wakeBox_lateral_eval, wakeBox_wakeRadius_eval,
      wakeBox_wf_eval]
    linarith [wakeBox_wf_bounds.1]
  · rw [hlen1]; norm_num
  · norm_num
  · rw [Vec3.length, Vec3.lengthSq]; norm_num

/-- C5 counterexample: on the wake box fixture, a particle straight
downstream with unit cross-flow velocity satisfies every condition of the
recovery-blend branch, yet the blend strictly decreases its speed — the
velocity magnitude is not preserved. -/
theorem c5_counterexample_blend_changes_speed :
    (¬ worldSignedDistance wakeBoxObstacle ⟨0, 0, 3⟩ ≤ influenceOf wakeBoxObstacle) ∧
    ((Vec3.mk 0 0 3 - wakeBoxObstacle.center).dot ⟨0, 0, 1⟩ -
      wakeBoxObstacle.boundingRadius > influenceOf wakeBoxObstacle * 0.35) ∧
    (1e-5 < computeWakeDecay
      ((Vec3.mk 0 0 3 - wakeBoxObstacle.center).dot ⟨0, 0, 1⟩ -
        wakeBoxObstacle.boundingRadius)
      (Vec3.mk 0 0 3 - wakeBoxObstacle.center -
        Vec3.smul ((Vec3.mk 0 0 3 - wakeBoxObstacle.center).dot ⟨0, 0, 1⟩)
          ⟨0, 0, 1⟩).length
      (wakeRadiusOf wakeBoxObstacle)) ∧
    ((applyObstacleInteraction ⟨0, 0, 3⟩ ⟨1, 0, 0⟩ wakeBoxObstacle
        ⟨0, 0, 1⟩ 0 0 0).velocity).length < Vec3.length ⟨1, 0, 0⟩ := by
  have hlen1 : Vec3.length ⟨1, 0, 0⟩ = 1 := by
    rw [Vec3.length, Vec3.lengthSq]
    norm_num
  have hnear : ¬ worldSignedDistance wakeBoxObstacle ⟨0, 0, 3⟩ ≤
      influenceOf wakeBoxObstacle := by
    rw [wakeBox_sd_eval, wakeBox_influence_eval]
    norm_num
  have hdown : (Vec3.mk 0 0 3 - wakeBoxObstacle.center).dot ⟨0, 0, 1⟩ -
      wakeBoxObstacle.boundingRadius > influenceOf wakeBoxObstacle * 0.35 := by
    rw [wakeBox_downstream_eval, wakeBox_influence_eval]
    nlinarith [sqrt_twoPlus_bounds.2]
  have hwake : 1e-5 < computeWakeDecay
      ((Vec3.mk 0 0 3 - wakeBoxObstacle.center).dot ⟨0, 0, 1⟩ -
        wakeBoxObstacle.boundingRadius)
      (Vec3.mk 0 0 3 - wakeBoxObstacle.center -
        Vec3.smul ((Vec3.mk 0 0 3 - wakeBoxObstacle.center).dot ⟨0, 0, 1⟩)
          ⟨0, 0, 1⟩).length
      (wakeRadiusOf wakeBoxObstacle) := by
    rw [wakeBox_downstream_eval, wakeBox_lateral_eval, wakeBox_wakeRadius_eval,
      wakeBox_wf_eval]
    linarith [wakeBox_wf_bounds.1]
  refine ⟨hnear, hdown, hwake, ?_⟩
  have heq := applyObstacleInteraction_velocity_recovery wakeBoxObstacle ⟨0, 0, 3⟩
    ⟨1, 0, 0⟩ ⟨0, 0, 1⟩ 0 0 0 hnear hdown hwake (by rw [hlen1]; norm_num) (by norm_num)
  rw [heq, hlen1]
  set b := clamp (computeWakeDecay
      ((Vec3.mk 0 0 3 - wakeBoxObstacle.center).dot ⟨0, 0, 1⟩ -
        wakeBoxObstacle.boundingRadius)
      (Vec3.mk 0 0 3 - wakeBoxObstacle.center -
        Vec3.smul ((Vec3.mk 0 0 3 - wakeBoxObstacle.center).dot ⟨0, 0, 1⟩)
          ⟨0, 0, 1⟩).length
      (wakeRadiusOf wakeBoxObstacle) * 0.22) 0 0.2 with hb_def
  have hbval : b = Real.exp (-(3 - Real.sqrt 2.0001) / 6.05) * 0.22 := by
    rw [hb_def, wakeBox_downstream_eval, wakeBox_lateral_eval, wakeBox_wakeRadius_eval,
      wakeBox_wf_eval, clamp]
    rw [min_eq_right (by nlinarith [wakeBox_wf_bounds.2] :
      Real.exp (-(3 - Real.sqrt 2.0001) / 6.05) * 0.22 ≤ 0.2)]
    rw [max_eq_right (by nlinarith [wakeBox_wf_bounds.1] :
      (0 : ℝ) ≤ Real.exp (-(3 - Real.sqrt 2.0001) / 6.05) * 0.22)]
  have hb1 : 0.16 ≤ b := by rw [hbval]; nlinarith [wakeBox_wf_bounds.1]
  have hb2 : b ≤ 0.18 := by rw [hbval]; nlinarith [wakeBox_wf_bounds.2]
  have hlerp : Vec3.lerp ⟨1, 0, 0⟩ (Vec3.smul 1 ⟨0, 0, 1⟩) b = ⟨1 - b, 0, b⟩ := by
    rw [Vec3.lerp, Vec3.smul]
    refine Vec3.ext_iff.mpr ⟨?_, ?_, ?_⟩ <;> simp [Vec3.smul] <;> ring
  rw [hlerp]
  have hsq : Real.sqrt ((1 - b) * (1 - b) + 0 * 0 + b * b) < 1 := by
    rw [Real.sqrt_lt' (by norm_num)]
    nlinarith
  calc Vec3.length ⟨1 - b, 0, b⟩ = Real.sqrt ((1 - b) * (1 - b) + 0 * 0 + b * b) := rfl
  _ < 1 := hsq

/-! ## Trigonometric evaluation toolkit

Certified enclosures for `Real.sin` and `Real.cos` at concrete rational
arguments: quarter-period argument reduction against tight bounds on `π`,
a Lipschitz transfer to a nearby rational point, and the cubic/quadratic
Taylor error bounds. -/

theorem abs_sin_sub_sin_le (a b : ℝ) : |Real.sin a - Real.sin b| ≤ |a - b| := by
  rw [Real.sin_sub_sin]
  have h1 : |Real.sin ((a - b) / 2)| ≤ |(a - b) / 2| := Real.abs_sin_le_abs
  have h2 : |Real.cos ((a + b) / 2)| ≤ 1 := Real.abs_cos_le_one _
  have h3 : |(a - b) / 2| = |a - b| / 2 := by rw [abs_div]; norm_num
  rw [h3] at h1
  rw [abs_mul, abs_mul, (by norm_num : |(2 : ℝ)| = 2)]
  have h5 := mul_le_mul h1 h2 (abs_nonneg _) (by positivity)
  nlinarith [h5]

theorem abs_cos_sub_cos_le (a b : ℝ) : |Real.cos a - Real.cos b| ≤ |a - b| := by
  rw [Real.cos_sub_cos]
  have h1 : |Real.sin ((a - b) / 2)| ≤ |(a - b) / 2| := Real.abs_sin_le_abs
  have h2 : |Real.sin ((a + b) / 2)| ≤ 1 := Real.abs_sin_le_one _
  have h3 : |(a - b) / 2| = |a - b| / 2 := by rw [abs_div]; norm_num
  rw [h3] at h1
  rw [abs_mul, abs_mul, (by norm_num : |(-2 : ℝ)| = 2)]
  have h5 := mul_le_mul h2 h1 (abs_nonneg _) (by norm_num)
  nlinarith [h5]

theorem sinTaylor3_err (r : ℝ) (hr : |r| ≤ 0.787) :
    |Real.sin r - (r - r ^ 3 / 6)| ≤ 0.02 := by
  have h := Real.sin_bound (le_trans hr (by norm_num))
  have h4 : |r| ^ 4 ≤ 0.787 ^ 4 := pow_le_pow_left (abs_nonneg r) hr 4
  linarith [h, h4]

theorem cosTaylor2_err (r : ℝ) (hr : |r| ≤ 0.787) :
    |Real.cos r - (1 - r ^ 2 / 2)| ≤ 0.02 := by
  have h := Real.cos_bound (le_trans hr (by norm_num))
  have h4 : |r| ^ 4 ≤ 0.787 ^ 4 := pow_le_pow_left (abs_nonneg r) hr 4
  linarith [h, h4]

theorem sin_shift0 (d r v ε E : ℝ) (n : ℤ)
    (hc : |d - ((n : ℝ) * (2 * Real.pi) + r)| ≤ ε)
    (hT : |Real.sin r - v| ≤ E) : |Real.sin d - v| ≤ ε + E := by
  have hd : Real.sin d =
      Real.sin (d - (n : ℝ) * (2 * Real.pi) + (n : ℝ) * (2 * Real.pi)) := by
    congr 1; ring
  rw [hd, Real.sin_add_int_mul_two_pi]
  have h1 : |Real.sin (d - (n : ℝ) * (2 * Real.pi)) - Real.sin r| ≤ ε := by
    have h := abs_sin_sub_sin_le (d - (n : ℝ) * (2 * Real.pi)) r
    have harg : d - (n : ℝ) * (2 * Real.pi) - r =
        d - ((n : ℝ) * (2 * Real.pi) + r) := by ring
    rw [harg] at h
    exact le_trans h hc
  calc |Real.sin (d - (n : ℝ) * (2 * Real.pi)) - v|
      ≤ |Real.sin (d - (n : ℝ) * (2 * Real.pi)) - Real.sin r| + |Real.sin r - v| :=
        abs_sub_le _ _ _
    _ ≤ ε + E := add_le_add h1 hT

theorem sin_shift1 (d r v ε E : ℝ) (n : ℤ)
    (hc : |d - ((n : ℝ) * (2 * Real.pi) + Real.pi / 2 + r)| ≤ ε)
    (hT : |Real.cos r - v| ≤ E) : |Real.sin d - v| ≤ ε + E := by
  have hd : Real.sin d =
      Real.sin (d - (n : ℝ) * (2 * Real.pi) - Real.pi / 2 + Real.pi / 2 +
        (n : ℝ) * (2 * Real.pi)) := by
    congr 1; ring
  rw [hd, Real.sin_add_int_mul_two_pi, Real.sin_add_pi_div_two]
  have h1 : |Real.cos (d - (n : ℝ) * (2 * Real.pi) - Real.pi / 2) - Real.cos r| ≤ ε := by
    have h := abs_cos_sub_cos_le (d - (n : ℝ) * (2 * Real.pi) - Real.pi / 2) r
    have harg : d - (n : ℝ) * (2 * Real.pi) - Real.pi / 2 - r =
        d - ((n : ℝ) * (2 * Real.pi) + Real.pi / 2 + r) := by ring
    rw [harg] at h
    exact le_trans h hc
  calc |Real.cos (d - (n : ℝ) * (2 * Real.pi) - Real.pi / 2) - v|
      ≤ |Real.cos (d - (n : ℝ) * (2 * Real.pi) - Real.pi / 2) - Real.cos r| +
        |Real.cos r - v| := abs_sub_le _ _ _
    _ ≤ ε + E := add_le_add h1 hT

theorem sin_shift2 (d r v ε E : ℝ) (n : ℤ)
    (hc : |d - ((n : ℝ) * (2 * Real.pi) + Real.pi + r)| ≤ ε)
    (hT : |Real.sin r - v| ≤ E) : |Real.sin d - -v| ≤ ε + E := by
  have hd : Real.sin d =
      Real.sin (d - (n : ℝ) * (2 * Real.pi) - Real.pi + Real.pi +
        (n : ℝ) * (2 * Real.pi)) := by
    congr 1; ring
  rw [hd, Real.sin_add_int_mul_two_pi, Real.sin_add_pi]
  have hneg : -Real.sin (d - (n : ℝ) * (2 * Real.pi) - Real.pi) - -v =
      -(Real.sin (d - (n : ℝ) * (2 * Real.pi) - Real.pi) - v) := by ring
  rw [hneg, abs_neg]
  have h1 : |Real.sin (d - (n : ℝ) * (2 * Real.pi) - Real.pi) - Real.sin r| ≤ ε := by
    have h := abs_sin_sub_sin_le (d - (n : ℝ) * (2 * Real.pi) - Real.pi) r
    have harg : d - (n : ℝ) * (2 * Real.pi) - Real.pi - r =
        d - ((n : ℝ) * (2 * Real.pi) + Real.pi + r) := by ring
    rw [harg] at h
    exact le_trans h hc
  calc |Real.sin (d - (n : ℝ) * (2 * Real.pi) - Real.pi) - v|
      ≤ |Real.sin (d - (n : ℝ) * (2 * Real.pi) - Real.pi) - Real.sin r| +
        |Real.sin r - v| := abs_sub_le _ _ _
    _ ≤ ε + E := add_le_add h1 hT

theorem sin_shift3 (d r v ε E : ℝ) (n : ℤ)
    (hc : |d - ((n : ℝ) * (2 * Real.pi) + Real.pi / 2 + Real.pi + r)| ≤ ε)
    (hT : |Real.cos r - v| ≤ E) : |Real.sin d - -v| ≤ ε + E := by
  have hd : Real.sin d =
      Real.sin (d - (n : ℝ) * (2 * Real.pi) - Real.pi / 2 - Real.pi + Real.pi / 2 +
        Real.pi + (n : ℝ) * (2 * Real.pi)) := by
    congr 1; ring
  rw [hd, Real.sin_add_int_mul_two_pi, Real.sin_add_pi, Real.sin_add_pi_div_two]
  have hneg :
      -Real.cos (d - (n : ℝ) * (2 * Real.pi) - Real.pi / 2 - Real.pi) - -v =
      -(Real.cos (d - (n : ℝ) * (2 * Real.pi) - Real.pi / 2 - Real.pi) - v) := by ring
  rw [hneg, abs_neg]
  have h1 : |Real.cos (d - (n : ℝ) * (2 * Real.pi) - Real.pi / 2 - Real.pi) -
      Real.cos r| ≤ ε := by
    have h := abs_cos_sub_cos_le (d - (n : ℝ) * (2 * Real.pi) - Real.pi / 2 - Real.pi) r
    have harg : d - (n : ℝ) * (2 * Real.pi) - Real.pi / 2 - Real.pi - r =
        d - ((n : ℝ) * (2 * Real.pi) + Real.pi / 2 + Real.pi + r) := by ring
    rw [harg] at h
    exact le_trans h hc
  calc |Real.cos (d - (n : ℝ) * (2 * Real.pi) - Real.pi / 2 - Real.pi) - v|
      ≤ |Real.cos (d - (n : ℝ) * (2 * Real.pi) - Real.pi / 2 - Real.pi) - Real.cos r| +
        |Real.cos r - v| := abs_sub_le _ _ _
    _ ≤ ε + E := add_le_add h1 hT

theorem cos_shift0 (d r v ε E : ℝ) (n : ℤ)
    (hc : |d - ((n : ℝ) * (2 * Real.pi) + r)| ≤ ε)
    (hT : |Real.cos r - v| ≤ E) : |Real.cos d - v| ≤ ε + E := by
  have hd : Real.cos d =
      Real.cos (d - (n : ℝ) * (2 * Real.pi) + (n : ℝ) * (2 * Real.pi)) := by
    congr 1; ring
  rw [hd, Real.cos_add_int_mul_two_pi]
  have h1 : |Real.cos (d - (n : ℝ) * (2 * Real.pi)) - Real.cos r| ≤ ε := by
    have h := abs_cos_sub_cos_le (d - (n : ℝ) * (2 * Real.pi)) r
    have harg : d - (n : ℝ) * (2 * Real.pi) - r =
        d - ((n : ℝ) * (2 * Real.pi) + r) := by ring
    rw [harg] at h
    exact le_trans h hc
  calc |Real.cos (d - (n : ℝ) * (2 * Real.pi)) - v|
      ≤ |Real.cos (d - (n : ℝ) * (2 * Real.pi)) - Real.cos r| + |Real.cos r - v| :=
        abs_sub_le _ _ _
    _ ≤ ε + E := add_le_add h1 hT

theorem cos_shift1 (d r v ε E : ℝ) (n : ℤ)
    (hc : |d - ((n : ℝ) * (2 * Real.pi) + Real.pi / 2 + r)| ≤ ε)
    (hT : |Real.sin r - v| ≤ E) : |Real.cos d - -v| ≤ ε + E := by
  have hd : Real.cos d =
      Real.cos (d - (n : ℝ) * (2 * Real.pi) - Real.pi / 2 + Real.pi / 2 +
        (n : ℝ) * (2 * Real.pi)) := by
    congr 1; ring
  rw [hd, Real.cos_add_int_mul_two_pi, Real.cos_add_pi_div_two]
  have hneg : -Real.sin (d - (n : ℝ) * (2 * Real.pi) - Real.pi / 2) - -v =
      -(Real.sin (d - (n : ℝ) * (2 * Real.pi) - Real.pi / 2) - v) := by ring
  rw [hneg, abs_neg]
  have h1 : |Real.sin (d - (n : ℝ) * (2 * Real.pi) - Real.pi / 2) - Real.sin r| ≤ ε := by
    have h := abs_sin_sub_sin_le (d - (n : ℝ) * (2 * Real.pi) - Real.pi / 2) r
    have harg : d - (n : ℝ) * (2 * Real.pi) - Real.pi / 2 - r =
        d - ((n : ℝ) * (2 * Real.pi) + Real.pi / 2 + r) := by ring
    rw [harg] at h
    exact le_trans h hc
  calc |Real.sin (d - (n : ℝ) * (2 * Real.pi) - Real.pi / 2) - v|
      ≤ |Real.sin (d - (n : ℝ) * (2 * Real.pi) - Real.pi / 2) - Real.sin r| +
        |Real.sin r - v| := abs_sub_le _ _ _
    _ ≤ ε + E := add_le_add h1 hT

theorem cos_shift2 (d r v ε E : ℝ) (n : ℤ)
    (hc : |d - ((n : ℝ) * (2 * Real.pi) + Real.pi + r)| ≤ ε)
    (hT : |Real.cos r - v| ≤ E) : |Real.cos d - -v| ≤ ε + E := by
  have hd : Real.cos d =
      Real.cos (d - (n : ℝ) * (2 * Real.pi) - Real.pi + Real.pi +
        (n : ℝ) * (2 * Real.pi)) := by
    congr 1; ring
  rw [hd, Real.cos_add_int_mul_two_pi, Real.cos_add_pi]
  have hneg : -Real.cos (d - (n : ℝ) * (2 * Real.pi) - Real.pi) - -v =
      -(Real.cos (d - (n : ℝ) * (2 * Real.pi) - Real.pi) - v) := by ring
  rw [hneg, abs_neg]
  have h1 : |Real.cos (d - (n : ℝ) * (2 * Real.pi) - Real.pi) - Real.cos r| ≤ ε := by
    have h := abs_cos_sub_cos_le (d - (n : ℝ) * (2 * Real.pi) - Real.pi) r
    have harg : d - (n : ℝ) * (2 * Real.pi) - Real.pi - r =
        d - ((n : ℝ) * (2 * Real.pi) + Real.pi + r) := by ring
    rw [harg] at h
    exact le_trans h hc
  calc |Real.cos (d - (n : ℝ) * (2 * Real.pi) - Real.pi) - v|
      ≤ |Real.cos (d - (n : ℝ) * (2 * Real.pi) - Real.pi) - Real.cos r| +
        |Real.cos r - v| := abs_sub_le _ _ _
    _ ≤ ε + E := add_le_add h1 hT

theorem cos_shift3 (d r v ε E : ℝ) (n : ℤ)
    (hc : |d - ((n : ℝ) * (2 * Real.pi) + Real.pi / 2 + Real.pi + r)| ≤ ε)
    (hT : |Real.sin r - v| ≤ E) : |Real.cos d - v| ≤ ε + E := by
  have hd : Real.cos d =
      Real.cos (d - (n : ℝ) * (2 * Real.pi) - Real.pi / 2 - Real.pi + Real.pi / 2 +
        Real.pi + (n : ℝ) * (2 * Real.pi)) := by
    congr 1; ring
  rw [hd, Real.cos_add_int_mul_two_pi, Real.cos_add_pi, Real.cos_add_pi_div_two,
    neg_neg]
  have h1 : |Real.sin (d - (n : ℝ) * (2 * Real.pi) - Real.pi / 2 - Real.pi) -
      Real.sin r| ≤ ε := by
    have h := abs_sin_sub_sin_le (d - (n : ℝ) * (2 * Real.pi) - Real.pi / 2 - Real.pi) r
    have harg : d - (n : ℝ) * (2 * Real.pi) - Real.pi / 2 - Real.pi - r =
        d - ((n : ℝ) * (2 * Real.pi) + Real.pi / 2 + Real.pi + r) := by ring
    rw [harg] at h
    exact le_trans h hc
  calc |Real.sin (d - (n : ℝ) * (2 * Real.pi) - Real.pi / 2 - Real.pi) - v|
      ≤ |Real.sin (d - (n : ℝ) * (2 * Real.pi) - Real.pi / 2 - Real.pi) - Real.sin r| +
        |Real.sin r - v| := abs_sub_le _ _ _
    _ ≤ ε + E := add_le_add h1 hT

theorem sin_cos_prod_approx (a b v w e1 e2 : ℝ)
    (ha : |Real.sin a - v| ≤ e1) (hb : |Real.cos b - w| ≤ e2)
    (hv : |v| ≤ 1.01) : |Real.sin a * Real.cos b - v * w| ≤ e1 + 1.01 * e2 := by
  have hcb : |Real.cos b| ≤ 1 := Real.abs_cos_le_one b
  have he1 : 0 ≤ e1 := le_trans (abs_nonneg _) ha
  have key : Real.sin a * Real.cos b - v * w =
      (Real.sin a - v) * Real.cos b + v * (Real.cos b - w) := by ring
  calc |Real.sin a * Real.cos b - v * w|
      = |(Real.sin a - v) * Real.cos b + v * (Real.cos b - w)| := by rw [key]
    _ ≤ |(Real.sin a - v) * Real.cos b| + |v * (Real.cos b - w)| := abs_add _ _
    _ = |Real.sin a - v| * |Real.cos b| + |v| * |Real.cos b - w| := by
        rw [abs_mul, abs_mul]
    _ ≤ e1 * 1 + 1.01 * e2 :=
        add_le_add (mul_le_mul ha hcb (abs_nonneg _) he1)
          (mul_le_mul hv hb (abs_nonneg _) (by norm_num))
    _ = e1 + 1.01 * e2 := by ring

set_option maxHeartbeats 3000000 in
/-- The raw curl sample at the wake query point of the C2 fixture, scaled by
`1e-4` and evaluated at time `51`, has x-component at least `1`. -/
theorem c2raw_x_ge_one : 1 ≤ (curlRaw ⟨1.6, 0, 5.4⟩ 51 1e-9).x := by
  have hsCy1 : |Real.sin 35.7783965 - -(1 - (-0.3499) ^ 2 / 2)| ≤ 1e-3 + 0.02 :=
    sin_shift3 35.7783965 (-0.3499) _ 1e-3 0.02 5
      (by push_cast; rw [abs_le]; constructor <;>
        linarith [Real.pi_gt_d20, Real.pi_lt_d20])
      (cosTaylor2_err (-0.3499) (by rw [abs_le]; constructor <;> norm_num))
  have hcCy1 : |Real.cos 52.116403205 - -(0.2801 - (0.2801) ^ 3 / 6)| ≤ 1e-3 + 0.02 :=
    cos_shift1 52.116403205 0.2801 _ 1e-3 0.02 8
      (by push_cast; rw [abs_le]; constructor <;>
        linarith [Real.pi_gt_d20, Real.pi_lt_d20])
      (sinTaylor3_err 0.2801 (by rw [abs_le]; constructor <;> norm_num))
  have hsAy1 : |Real.sin 23.492596628 - -(1 - (-0.0693) ^ 2 / 2)| ≤ 1e-3 + 0.02 :=
    sin_shift3 23.492596628 (-0.0693) _ 1e-3 0.02 3
      (by push_cast; rw [abs_le]; constructor <;>
        linarith [Real.pi_gt_d20, Real.pi_lt_d20])
      (cosTaylor2_err (-0.0693) (by rw [abs_le]; constructor <;> norm_num))
  have hcAy1 : |Real.cos 35.28485738036 - -(1 - (0.7273) ^ 2 / 2)| ≤ 1e-3 + 0.02 :=
    cos_shift2 35.28485738036 0.7273 _ 1e-3 0.02 5
      (by push_cast; rw [abs_le]; constructor <;>
        linarith [Real.pi_gt_d20, Real.pi_lt_d20])
      (cosTaylor2_err 0.7273 (by rw [abs_le]; constructor <;> norm_num))
  have hsCy0 : |Real.sin 30.5548965 - -(1 - (0.7098) ^ 2 / 2)| ≤ 1e-3 + 0.02 :=
    sin_shift3 30.5548965 0.7098 _ 1e-3 0.02 4
      (by push_cast; rw [abs_le]; constructor <;>
        linarith [Real.pi_gt_d20, Real.pi_lt_d20])
      (cosTaylor2_err 0.7098 (by rw [abs_le]; constructor <;> norm_num))
  have hcCy0 : |Real.cos 44.960208205 - -(-0.5929 - (-0.5929) ^ 3 / 6)| ≤ 1e-3 + 0.02 :=
    cos_shift1 44.960208205 (-0.5929) _ 1e-3 0.02 7
      (by push_cast; rw [abs_le]; constructor <;>
        linarith [Real.pi_gt_d20, Real.pi_lt_d20])
      (sinTaylor3_err (-0.5929) (by rw [abs_le]; constructor <;> norm_num))
  have hsAy0 : |Real.sin 15.669296628 - -(-0.0387 - (-0.0387) ^ 3 / 6)| ≤ 1e-3 + 0.02 :=
    sin_shift2 15.669296628 (-0.0387) _ 1e-3 0.02 2
      (by push_cast; rw [abs_le]; constructor <;>
        linarith [Real.pi_gt_d20, Real.pi_lt_d20])
      (sinTaylor3_err (-0.0387) (by rw [abs_le]; constructor <;> norm_num))
  have hcAy0 : |Real.cos 24.56693638036 - (1 - (-0.5658) ^ 2 / 2)| ≤ 1e-3 + 0.02 :=
    cos_shift0 24.56693638036 (-0.5658) _ 1e-3 0.02 4
      (by push_cast; rw [abs_le]; constructor <;>
        linarith [Real.pi_gt_d20, Real.pi_lt_d20])
      (cosTaylor2_err (-0.5658) (by rw [abs_le]; constructor <;> norm_num))
  have hsBz1 : |Real.sin 37.358949188 - (-0.3402 - (-0.3402) ^ 3 / 6)| ≤ 1e-3 + 0.02 :=
    sin_shift0 37.358949188 (-0.3402) _ 1e-3 0.02 6
      (by push_cast; rw [abs_le]; constructor <;>
        linarith [Real.pi_gt_d20, Real.pi_lt_d20])
      (sinTaylor3_err (-0.3402) (by rw [abs_le]; constructor <;> norm_num))
  have hcBz1 : |Real.cos 54.28176038756 - (-0.6961 - (-0.6961) ^ 3 / 6)| ≤ 1e-3 + 0.02 :=
    cos_shift3 54.28176038756 (-0.6961) _ 1e-3 0.02 8
      (by push_cast; rw [abs_le]; constructor <;>
        linarith [Real.pi_gt_d20, Real.pi_lt_d20])
      (sinTaylor3_err (-0.6961) (by rw [abs_le]; constructor <;> norm_num))
  have hsCz1 : |Real.sin 24.3421965 - -(1 - (0.7803) ^ 2 / 2)| ≤ 1e-3 + 0.02 :=
    sin_shift3 24.3421965 0.7803 _ 1e-3 0.02 3
      (by push_cast; rw [abs_le]; constructor <;>
        linarith [Real.pi_gt_d20, Real.pi_lt_d20])
      (cosTaylor2_err 0.7803 (by rw [abs_le]; constructor <;> norm_num))
  have hcCz1 : |Real.cos 36.448809205 - (0.3205 - (0.3205) ^ 3 / 6)| ≤ 1e-3 + 0.02 :=
    cos_shift3 36.448809205 0.3205 _ 1e-3 0.02 5
      (by push_cast; rw [abs_le]; constructor <;>
        linarith [Real.pi_gt_d20, Real.pi_lt_d20])
      (sinTaylor3_err 0.3205 (by rw [abs_le]; constructor <;> norm_num))
  have hsBz0 : |Real.sin 29.043449188 - -(0.7691 - (0.7691) ^ 3 / 6)| ≤ 1e-3 + 0.02 :=
    sin_shift2 29.043449188 0.7691 _ 1e-3 0.02 4
      (by push_cast; rw [abs_le]; constructor <;>
        linarith [Real.pi_gt_d20, Real.pi_lt_d20])
      (sinTaylor3_err 0.7691 (by rw [abs_le]; constructor <;> norm_num))
  have hcBz0 : |Real.cos 42.88952538756 - (0.478 - (0.478) ^ 3 / 6)| ≤ 1e-3 + 0.02 :=
    cos_shift3 42.88952538756 0.478 _ 1e-3 0.02 6
      (by push_cast; rw [abs_le]; constructor <;>
        linarith [Real.pi_gt_d20, Real.pi_lt_d20])
      (sinTaylor3_err 0.478 (by rw [abs_le]; constructor <;> norm_num))
  have hsCz0 : |Real.sin 23.4270965 - -(1 - (-0.1348) ^ 2 / 2)| ≤ 1e-3 + 0.02 :=
    sin_shift3 23.4270965 (-0.1348) _ 1e-3 0.02 3
      (by push_cast; rw [abs_le]; constructor <;>
        linarith [Real.pi_gt_d20, Real.pi_lt_d20])
      (cosTaylor2_err (-0.1348) (by rw [abs_le]; constructor <;> norm_num))
  have hcCz0 : |Real.cos 35.195122205 - -(1 - (0.6376) ^ 2 / 2)| ≤ 1e-3 + 0.02 :=
    cos_shift2 35.195122205 0.6376 _ 1e-3 0.02 5
      (by push_cast; rw [abs_le]; constructor <;>
        linarith [Real.pi_gt_d20, Real.pi_lt_d20])
      (cosTaylor2_err 0.6376 (by rw [abs_le]; constructor <;> norm_num))
  have hpCy1 : |Real.sin 35.7783965 * Real.cos 52.116403205 - -(1 - (-0.3499) ^ 2 / 2) * -(0.2801 - (0.2801) ^ 3 / 6)| ≤
      (1e-3 + 0.02) + 1.01 * (1e-3 + 0.02) :=
    sin_cos_prod_approx 35.7783965 52.116403205 (-(1 - (-0.3499) ^ 2 / 2)) (-(0.2801 - (0.2801) ^ 3 / 6)) (1e-3 + 0.02) (1e-3 + 0.02)
      hsCy1 hcCy1 (by rw [abs_le]; constructor <;> norm_num)
  have hpAy1 : |Real.sin 23.492596628 * Real.cos 35.28485738036 - -(1 - (-0.0693) ^ 2 / 2) * -(1 - (0.7273) ^ 2 / 2)| ≤
      (1e-3 + 0.02) + 1.01 * (1e-3 + 0.02) :=
    sin_cos_prod_approx 23.492596628 35.28485738036 (-(1 - (-0.0693) ^ 2 / 2)) (-(1 - (0.7273) ^ 2 / 2)) (1e-3 + 0.02) (1e-3 + 0.02)
      hsAy1 hcAy1 (by rw [abs_le]; constructor <;> norm_num)
  have hpCy0 : |Real.sin 30.5548965 * Real.cos 44.960208205 - -(1 - (0.7098) ^ 2 / 2) * -(-0.5929 - (-0.5929) ^ 3 / 6)| ≤
      (1e-3 + 0.02) + 1.01 * (1e-3 + 0.02) :=
    sin_cos_prod_approx 30.5548965 44.960208205 (-(1 - (0.7098) ^ 2 / 2)) (-(-0.5929 - (-0.5929) ^ 3 / 6)) (1e-3 + 0.02) (1e-3 + 0.02)
      hsCy0 hcCy0 (by rw [abs_le]; constructor <;> norm_num)
  have hpAy0 : |Real.sin 15.669296628 * Real.cos 24.56693638036 - -(-0.0387 - (-0.0387) ^ 3 / 6) * (1 - (-0.5658) ^ 2 / 2)| ≤
      (1e-3 + 0.02) + 1.01 * (1e-3 + 0.02) :=
    sin_cos_prod_approx 15.669296628 24.56693638036 (-(-0.0387 - (-0.0387) ^ 3 / 6)) (1 - (-0.5658) ^ 2 / 2) (1e-3 + 0.02) (1e-3 + 0.02)
      hsAy0 hcAy0 (by rw [abs_le]; constructor <;> norm_num)
  have hpBz1 : |Real.sin 37.358949188 * Real.cos 54.28176038756 - (-0.3402 - (-0.3402) ^ 3 / 6) * (-0.6961 - (-0.6961) ^ 3 / 6)| ≤
      (1e-3 + 0.02) + 1.01 * (1e-3 + 0.02) :=
    sin_cos_prod_approx 37.358949188 54.28176038756 (-0.3402 - (-0.3402) ^ 3 / 6) (-0.6961 - (-0.6961) ^ 3 / 6) (1e-3 + 0.02) (1e-3 + 0.02)
      hsBz1 hcBz1 (by rw [abs_le]; constructor <;> norm_num)
  have hpCz1 : |Real.sin 24.3421965 * Real.cos 36.448809205 - -(1 - (0.7803) ^ 2 / 2) * (0.3205 - (0.3205) ^ 3 / 6)| ≤
      (1e-3 + 0.02) + 1.01 * (1e-3 + 0.02) :=
    sin_cos_prod_approx 24.3421965 36.448809205 (-(1 - (0.7803) ^ 2 / 2)) (0.3205 - (0.3205) ^ 3 / 6) (1e-3 + 0.02) (1e-3 + 0.02)
      hsCz1 hcCz1 (by rw [abs_le]; constructor <;> norm_num)
  have hpBz0 : |Real.sin 29.043449188 * Real.cos 42.88952538756 - -(0.7691 - (0.7691) ^ 3 / 6) * (0.478 - (0.478) ^ 3 / 6)| ≤
      (1e-3 + 0.02) + 1.01 * (1e-3 + 0.02) :=
    sin_cos_prod_approx 29.043449188 42.88952538756 (-(0.7691 - (0.7691) ^ 3 / 6)) (0.478 - (0.478) ^ 3 / 6) (1e-3 + 0.02) (1e-3 + 0.02)
      hsBz0 hcBz0 (by rw [abs_le]; constructor <;> norm_num)
  have hpCz0 : |Real.sin 23.4270965 * Real.cos 35.195122205 - -(1 - (-0.1348) ^ 2 / 2) * -(1 - (0.6376) ^ 2 / 2)| ≤
      (1e-3 + 0.02) + 1.01 * (1e-3 + 0.02) :=
    sin_cos_prod_approx 23.4270965 35.195122205 (-(1 - (-0.1348) ^ 2 / 2)) (-(1 - (0.6376) ^ 2 / 2)) (1e-3 + 0.02) (1e-3 + 0.02)
      hsCz0 hcCz0 (by rw [abs_le]; constructor <;> norm_num)
  have hx : (curlRaw ⟨1.6, 0, 5.4⟩ 51 1e-9).x =
      ((Real.sin 35.7783965 * Real.cos 52.116403205 + Real.sin 23.492596628 * Real.cos 35.28485738036 -
        (Real.sin 30.5548965 * Real.cos 44.960208205 + Real.sin 15.669296628 * Real.cos 24.56693638036) -
        (Real.sin 37.358949188 * Real.cos 54.28176038756 + Real.sin 24.3421965 * Real.cos 36.448809205 -
          (Real.sin 29.043449188 * Real.cos 42.88952538756 + Real.sin 23.4270965 * Real.cos 35.195122205))) / (2 * 0.05)) := by
    norm_num [curlRaw, potentialA, potentialB, potentialC, hashWave,
      axisA, axisB, axisC, noiseEps]
    ring
  rw [hx, le_div_iff (by norm_num : (0 : ℝ) < 2 * 0.05)]
  linarith [(abs_le.mp hpCy1).1, (abs_le.mp hpCy1).2, (abs_le.mp hpAy1).1,
    (abs_le.mp hpAy1).2, (abs_le.mp hpCy0).1, (abs_le.mp hpCy0).2,
    (abs_le.mp hpAy0).1, (abs_le.mp hpAy0).2, (abs_le.mp hpBz1).1,
    (abs_le.mp hpBz1).2, (abs_le.mp hpCz1).1, (abs_le.mp hpCz1).2,
    (abs_le.mp hpBz0).1, (abs_le.mp hpBz0).2, (abs_le.mp hpCz0).1,
    (abs_le.mp hpCz0).2]

/-- Every hash wave is bounded by one in absolute value. -/
theorem abs_hashWave_le_one (x y z : ℝ) (a : Vec3) (t : ℝ) : |hashWave x y z a t| ≤ 1 := by
  rw [hashWave]
  rw [abs_mul]
  have h := mul_le_mul (Real.abs_sin_le_one (x * a.x + y * a.y + z * a.z + t * 0.65))
    (Real.abs_cos_le_one ((x * a.x + y * a.y + z * a.z + t * 0.65) * 1.37 + 3.1))
    (abs_nonneg _) (by norm_num : (0 : ℝ) ≤ 1)
  linarith

/-- The first scalar potential is bounded by two in absolute value. -/
theorem abs_potentialA_le_two (x y z t : ℝ) : |potentialA x y z t| ≤ 2 := by
  rw [potentialA]
  calc |hashWave x y z axisA t + hashWave x y z axisB (t * 0.65)|
      ≤ |hashWave x y z axisA t| + |hashWave x y z axisB (t * 0.65)| := abs_add _ _
    _ ≤ 2 := by
        linarith [abs_hashWave_le_one x y z axisA t,
          abs_hashWave_le_one x y z axisB (t * 0.65)]

/-- The second scalar potential is bounded by two in absolute value. -/
theorem abs_potentialB_le_two (x y z t : ℝ) : |potentialB x y z t| ≤ 2 := by
  rw [potentialB]
  calc |hashWave x y z axisB t + hashWave x y z axisC (t * 0.72)|
      ≤ |hashWave x y z axisB t| + |hashWave x y z axisC (t * 0.72)| := abs_add _ _
    _ ≤ 2 := by
        linarith [abs_hashWave_le_one x y z axisB t,
          abs_hashWave_le_one x y z axisC (t * 0.72)]

/-- The third scalar potential is bounded by two in absolute value. -/
theorem abs_potentialC_le_two (x y z t : ℝ) : |potentialC x y z t| ≤ 2 := by
  rw [potentialC]
  calc |hashWave x y z axisC t + hashWave x y z axisA (t * 0.59)|
      ≤ |hashWave x y z axisC t| + |hashWave x y z axisA (t * 0.59)| := abs_add _ _
    _ ≤ 2 := by
        linarith [abs_hashWave_le_one x y z axisC t,
          abs_hashWave_le_one x y z axisA (t * 0.59)]

/-- A central finite difference of two quantities bounded by two, divided by
twice the sampling epsilon, is bounded by eighty. -/
theorem diffdiv_abs_le (a b c d : ℝ) (ha : |a| ≤ 2) (hb : |b| ≤ 2) (hc : |c| ≤ 2)
    (hd : |d| ≤ 2) :
    |(a - b) / (2 * noiseEps) - (c - d) / (2 * noiseEps)| ≤ 80 := by
  rw [noiseEps, div_sub_div_same, abs_div,
    show |(2 * 0.05 : ℝ)| = 1 / 10 from by norm_num,
    div_le_iff (by norm_num : (0 : ℝ) < 1 / 10), abs_le]
  constructor <;>
    linarith [(abs_le.mp ha).1, (abs_le.mp ha).2, (abs_le.mp hb).1, (abs_le.mp hb).2,
      (abs_le.mp hc).1, (abs_le.mp hc).2, (abs_le.mp hd).1, (abs_le.mp hd).2]

/-- Each component of the raw finite-difference curl is bounded by eighty in
absolute value. -/
theorem curlRaw_comp_abs_le (p : Vec3) (t s : ℝ) :
    |(curlRaw p t s).x| ≤ 80 ∧ |(curlRaw p t s).y| ≤ 80 ∧ |(curlRaw p t s).z| ≤ 80 := by
  refine ⟨?_, ?_, ?_⟩ <;> simp only [curlRaw]
  · exact diffdiv_abs_le _ _ _ _ (abs_potentialC_le_two _ _ _ _)
      (abs_potentialC_le_two _ _ _ _) (abs_potentialB_le_two _ _ _ _)
      (abs_potentialB_le_two _ _ _ _)
  · exact diffdiv_abs_le _ _ _ _ (abs_potentialA_le_two _ _ _ _)
      (abs_potentialA_le_two _ _ _ _) (abs_potentialC_le_two _ _ _ _)
      (abs_potentialC_le_two _ _ _ _)
  · exact diffdiv_abs_le _ _ _ _ (abs_potentialB_le_two _ _ _ _)
      (abs_potentialB_le_two _ _ _ _) (abs_potentialA_le_two _ _ _ _)
      (abs_potentialA_le_two _ _ _ _)

/-- The C2 box obstacle fixture: a box of half extents `(0.2, 0.3, 0.6)` at
the origin with an identity world transform, bounding radius `0.7`,
influence radius `5` and unit wake strength. -/
def c2BoxObstacle : ObstacleFieldData :=
  { baseObstacle with
    shapeKind := ObstacleShapeKind.box
    halfWidth := 0.2
    halfHeight := 0.3
    halfDepth := 0.6
    boundingRadius := 0.7
    influenceRadius := 5
    wakeStrength := 1 }

/-- The local surface query of the C2 box fixture at `(1.6, 0, 5.4)`. -/
theorem c2Box_query_eval :
    computeLocalSurfaceDistanceAndNormal ObstacleShapeKind.box 1.6 0 5.4 c2BoxObstacle =
      ⟨5, ⟨0.28, 0, 0.96⟩, ⟨0.2, 0, 0.6⟩⟩ := by
  have hsqrt : Real.sqrt ((1.6 - 0.2) * (1.6 - 0.2) + (0 - 0) * (0 - 0) +
      (5.4 - 0.6) * (5.4 - 0.6)) = 5 := by
    rw [show ((1.6 - 0.2) * (1.6 - 0.2) + (0 - 0) * (0 - 0) +
      (5.4 - 0.6) * (5.4 - 0.6) : ℝ) = 5 ^ 2 by norm_num]
    exact Real.sqrt_sq (by norm_num)
  rw [computeLocalSurfaceDistanceAndNormal,
    if_neg (by decide : ¬(ObstacleShapeKind.box = ObstacleShapeKind.sphere)),
    if_neg (by decide : ¬(ObstacleShapeKind.box = ObstacleShapeKind.torus)),
    if_neg (by decide : ¬(ObstacleShapeKind.box = ObstacleShapeKind.pyramid)),
    if_neg (by decide : ¬(ObstacleShapeKind.box = ObstacleShapeKind.plane))]
  rw [show c2BoxObstacle.halfWidth = 0.2 from rfl,
    show c2BoxObstacle.halfHeight = 0.3 from rfl,
    show c2BoxObstacle.halfDepth = 0.6 from rfl]
  rw [show max (1e-4 : ℝ) 0.2 = 0.2 by rw [max_eq_right]; norm_num,
    show max (1e-4 : ℝ) 0.3 = 0.3 by rw [max_eq_right]; norm_num,
    show max (1e-4 : ℝ) 0.6 = 0.6 by rw [max_eq_right]; norm_num]
  simp only []
  rw [show clamp 1.6 (-0.2) 0.2 = 0.2 by rw [clamp]; norm_num,
    show clamp 0 (-0.3) 0.3 = 0 by rw [clamp]; norm_num,
    show clamp 5.4 (-0.6) 0.6 = 0.6 by rw [clamp]; norm_num]
  have hlen : Vec3.length ⟨1.6 - 0.2, 0 - 0, 5.4 - 0.6⟩ = 5 := by
    rw [Vec3.length, Vec3.lengthSq]
    simpa using hsqrt
  rw [hlen]
  rw [if_pos (by norm_num : (5 : ℝ) > 1e-6)]
  have hnorm : Vec3.normalize ⟨1.6 - 0.2, 0 - 0, 5.4 - 0.6⟩ = ⟨0.28, 0, 0.96⟩ := by
    rw [Vec3.normalize, hlen, if_neg (by norm_num : (5 : ℝ) ≠ 0), Vec3.smul]
    refine Vec3.ext_iff.mpr ⟨?_, ?_, ?_⟩ <;> norm_num
  rw [hnorm]

/-- The world surface normal of the C2 box fixture at `(1.6, 0, 5.4)`. -/
theorem c2Box_normal_eval :
    worldSurfaceNormal c2BoxObstacle ⟨1.6, 0, 5.4⟩ = ⟨0.28, 0, 0.96⟩ := by
  rw [worldSurfaceNormal_id c2BoxObstacle ⟨1.6, 0, 5.4⟩ rfl rfl]
  rw [show (Vec3.mk 1.6 0 5.4).x = 1.6 from rfl, show (Vec3.mk 1.6 0 5.4).y = 0 from rfl,
    show (Vec3.mk 1.6 0 5.4).z = 5.4 from rfl,
    show c2BoxObstacle.shapeKind = ObstacleShapeKind.box from rfl, c2Box_query_eval]
  have hlen : Vec3.length ⟨0.28, 0, 0.96⟩ = 1 := by
    rw [Vec3.length, Vec3.lengthSq,
      show (0.28 * 0.28 + 0 * 0 + 0.96 * 0.96 : ℝ) = 1 ^ 2 by norm_num]
    exact Real.sqrt_sq (by norm_num)
  rw [Vec3.normalize, hlen, if_neg (by norm_num : (1 : ℝ) ≠ 0), Vec3.smul]
  refine Vec3.ext_iff.mpr ⟨?_, ?_, ?_⟩ <;> norm_num

/-- The computed world signed distance of the C2 box fixture at
`(1.6, 0, 5.4)` is `5`. -/
theorem c2Box_sd_eval : worldSignedDistance c2BoxObstacle ⟨1.6, 0, 5.4⟩ = 5 := by
  rw [worldSignedDistance, c2Box_normal_eval,
    nearestWorldPoint_id c2BoxObstacle ⟨1.6, 0, 5.4⟩ rfl rfl]
  rw [show (Vec3.mk 1.6 0 5.4).x = 1.6 from rfl, show (Vec3.mk 1.6 0 5.4).y = 0 from rfl,
    show (Vec3.mk 1.6 0 5.4).z = 5.4 from rfl,
    show c2BoxObstacle.shapeKind = ObstacleShapeKind.box from rfl, c2Box_query_eval]
  rw [Vec3.dot]
  simp only [Vec3.sub_def]
  norm_num

/-- The influence radius of the C2 box fixture after clamping. -/
theorem c2Box_influence_eval : influenceOf c2BoxObstacle = 5 := by
  rw [influenceOf, show c2BoxObstacle.influenceRadius = 5 from rfl,
    max_eq_right (by norm_num : (0.01 : ℝ) ≤ 5)]

/-- The barrier thickness of the C2 box fixture. -/
theorem c2Box_barrier_eval : barrierThicknessOf c2BoxObstacle = 0.05 := by
  rw [barrierThicknessOf, c2Box_influence_eval,
    min_eq_left (by norm_num : (0.05 : ℝ) ≤ 5 * 0.35)]

/-- The wake radius of the C2 box fixture. -/
theorem c2Box_wakeRadius_eval : wakeRadiusOf c2BoxObstacle = 5.6 := by
  rw [wakeRadiusOf, show c2BoxObstacle.shapeKind = ObstacleShapeKind.box from rfl,
    if_neg (by decide : ¬(ObstacleShapeKind.box = ObstacleShapeKind.torus)),
    if_neg (by decide : ¬(ObstacleShapeKind.box = ObstacleShapeKind.sphere))]
  rw [show c2BoxObstacle.halfWidth = 0.2 from rfl,
    show c2BoxObstacle.halfHeight = 0.3 from rfl,
    show c2BoxObstacle.halfDepth = 0.6 from rfl, show c2BoxObstacle.scaleX = 1 from rfl,
    show c2BoxObstacle.scaleY = 1 from rfl, show c2BoxObstacle.scaleZ = 1 from rfl,
    c2Box_influence_eval]
  norm_num

/-- The wake factor of the C2 box fixture query point is at least `0.76`. -/
theorem c2Box_wf_lb : 0.76 ≤ computeWakeDecay 4.7 1.6 5.6 := by
  rw [computeWakeDecay, if_neg (by norm_num : ¬((4.7 : ℝ) ≤ 0))]
  simp only []
  rw [show max (1e-4 : ℝ) 5.6 = 5.6 by rw [max_eq_right]; norm_num]
  rw [show (-(1.6 * 1.6) / ((5.6 : ℝ) * 5.6)) = -(4 / 49) by norm_num,
    show (-(4.7 : ℝ) / (5.6 * 5.5)) = -(47 / 308) by norm_num,
    ← Real.exp_add]
  have h := Real.add_one_le_exp (-(4 / 49) + -(47 / 308) : ℝ)
  linarith

/-- Adding a vector scaled by zero is the identity. -/
theorem Vec3.addScaled_zero (a b : Vec3) : a.addScaled b 0 = a := by
  rw [Vec3.addScaled, Vec3.smul]
  refine Vec3.ext_iff.mpr ⟨?_, ?_, ?_⟩ <;> simp [Vec3.add_def]

/-- Dot product of a scaled-addition with a third vector. -/
theorem Vec3.dot_addScaled (a b c : Vec3) (s : ℝ) :
    (a.addScaled b s).dot c = a.dot c + s * (b.dot c) := by
  simp only [Vec3.addScaled, Vec3.smul, Vec3.add_def, Vec3.dot]
  ring

/-- Dot product of a scalar multiple. -/
theorem Vec3.smul_dot (s : ℝ) (a b : Vec3) : (Vec3.smul s a).dot b = s * (a.dot b) := by
  simp only [Vec3.smul, Vec3.dot]
  ring

/-- On the C2 box fixture, a zero-velocity particle at `(1.6, 0, 5.4)` with
flow `(0, 0, 1)`, time `51`, turbulence scale `1e-9` and turbulence strength
`1` takes the wake-injection branch with its original position, zero blended
velocity, the computed wake factor and unit strengths. -/
theorem c2Box_interaction_velocity :
    (applyObstacleInteraction ⟨1.6, 0, 5.4⟩ ⟨0, 0, 0⟩ c2BoxObstacle ⟨0, 0, 1⟩
        51 1e-9 1).velocity =
      wakeInjection ⟨1.6, 0, 5.4⟩ ⟨0, 0, 0⟩ ⟨0, 0, 1⟩ 51 1e-9
        (computeWakeDecay 4.7 1.6 5.6) 1 1 := by
  have htc : (Vec3.mk 1.6 0 5.4) - c2BoxObstacle.center = ⟨1.6, 0, 5.4⟩ := by
    rw [show c2BoxObstacle.center = Vec3.mk 0 0 0 from rfl]
    refine Vec3.ext_iff.mpr ⟨?_, ?_, ?_⟩ <;> simp [Vec3.sub_def]
  have hdotf : Vec3.dot ⟨1.6, 0, 5.4⟩ ⟨0, 0, 1⟩ = 5.4 := by
    rw [Vec3.dot]; norm_num
  have hdotn : Vec3.dot ⟨1.6, 0, 5.4⟩ ⟨0.28, 0, 0.96⟩ = 5.632 := by
    rw [Vec3.dot]; norm_num
  have hdot0 : Vec3.dot ⟨0, 0, 0⟩ ⟨0.28, 0, 0.96⟩ = 0 := by
    rw [Vec3.dot]; norm_num
  have hdotfn : Vec3.dot ⟨0, 0, 1⟩ ⟨0.28, 0, 0.96⟩ = 0.96 := by
    rw [Vec3.dot]; norm_num
  have hvA : Vec3.addScaled ⟨0, 0, 0⟩ ⟨0.28, 0, 0.96⟩ (-(0 : ℝ)) = ⟨0, 0, 0⟩ := by
    rw [Vec3.addScaled, Vec3.smul]
    refine Vec3.ext_iff.mpr ⟨?_, ?_, ?_⟩ <;> simp [Vec3.add_def]
  have hrad : Vec3.addScaled ⟨1.6, 0, 5.4⟩ ⟨0.28, 0, 0.96⟩ (-(5.632 : ℝ)) =
      ⟨0.02304, 0, -0.00672⟩ := by
    rw [Vec3.addScaled, Vec3.smul]
    refine Vec3.ext_iff.mpr ⟨?_, ?_, ?_⟩ <;> simp [Vec3.add_def] <;> norm_num
  have hradSq : Vec3.lengthSq ⟨0.02304, 0, -0.00672⟩ = 0.000576 := by
    rw [Vec3.lengthSq]; norm_num
  have hft : Vec3.addScaled ⟨0, 0, 1⟩ ⟨0.28, 0, 0.96⟩ (-(0.96 : ℝ)) =
      ⟨-0.2688, 0, 0.0784⟩ := by
    rw [Vec3.addScaled, Vec3.smul]
    refine Vec3.ext_iff.mpr ⟨?_, ?_, ?_⟩ <;> simp [Vec3.add_def] <;> norm_num
  have hftSq : Vec3.lengthSq ⟨-0.2688, 0, 0.0784⟩ = 0.0784 := by
    rw [Vec3.lengthSq]; norm_num
  have hclamp : clamp ((5 : ℝ) / 5) 0 1 = 1 := by rw [clamp]; norm_num
  have hlat : (Vec3.mk 1.6 0 5.4) - Vec3.smul 5.4 ⟨0, 0, 1⟩ = ⟨1.6, 0, 0⟩ := by
    rw [Vec3.smul]
    refine Vec3.ext_iff.mpr ⟨?_, ?_, ?_⟩ <;> simp [Vec3.sub_def] <;> norm_num
  have hlatlen : Vec3.length ⟨1.6, 0, 0⟩ = 1.6 := by
    rw [Vec3.length, Vec3.lengthSq,
      show (1.6 * 1.6 + 0 * 0 + 0 * 0 : ℝ) = 1.6 ^ 2 by norm_num]
    exact Real.sqrt_sq (by norm_num)
  have hwfgt : ¬ computeWakeDecay 4.7 1.6 5.6 ≤ 1e-5 :=
    not_le.mpr (lt_of_lt_of_le (by norm_num) c2Box_wf_lb)
  rw [applyObstacleInteraction]
  simp only []
  rw [c2Box_sd_eval, c2Box_influence_eval, c2Box_barrier_eval, c2Box_normal_eval,
    c2Box_wakeRadius_eval, htc, hdotf,
    show c2BoxObstacle.boundingRadius = 0.7 from rfl,
    show (5.4 - 0.7 : ℝ) = 4.7 by norm_num,
    show c2BoxObstacle.wakeStrength = 1 from rfl]
  rw [if_neg (fun h : (5 : ℝ) ≤ 5 ∧ (5 : ℝ) < 0.05 => absurd h.2 (by norm_num)),
    if_pos (by norm_num : (5 : ℝ) ≤ 5)]
  rw [hdot0, hvA, hdotn, hrad, hradSq,
    if_pos (by norm_num : (0.000576 : ℝ) > 1e-6)]
  rw [hclamp, show (0.65 * (1 - 1) : ℝ) = 0 by norm_num, Vec3.addScaled_zero]
  rw [hdotfn, hft, hftSq, if_pos (by norm_num : (0.0784 : ℝ) > 1e-6)]
  rw [show (0.35 * (1 - 1) : ℝ) = 0 by norm_num, Vec3.addScaled_zero]
  rw [if_neg (by norm_num : ¬((4.7 : ℝ) ≤ 0)), hlat, hlatlen, if_neg hwfgt]
  rw [if_neg (fun h : ¬((5 : ℝ) ≤ 5) ∧ (4.7 : ℝ) > 5 * 0.35 => h.1 (by norm_num))]
  rw [max_eq_right (by norm_num : (0 : ℝ) ≤ 1), if_pos (by norm_num : (1 : ℝ) > 1e-5)]

/-- C2 counterexample: on the C2 box fixture, a particle at `(1.6, 0, 5.4)`
lies exactly on the influence shell (signed distance `5` = influence radius
`5`), yet with active wake turbulence (strength `1`, scale `1e-9`, time `51`)
the injected curl-noise turbulence leaves a velocity component along the
world surface normal of magnitude far above `1e-4`. -/
theorem c2_counterexample_wake_breaks_tangential_slide :
    worldSignedDistance c2BoxObstacle ⟨1.6, 0, 5.4⟩ ≤ c2BoxObstacle.influenceRadius ∧
    ¬ |Vec3.dot (applyObstacleInteraction ⟨1.6, 0, 5.4⟩ ⟨0, 0, 0⟩ c2BoxObstacle
          ⟨0, 0, 1⟩ 51 1e-9 1).velocity
        (worldSurfaceNormal c2BoxObstacle ⟨1.6, 0, 5.4⟩)| < 1e-4 := by
  constructor
  · rw [c2Box_sd_eval, show c2BoxObstacle.influenceRadius = 5 from rfl]
  · rw [c2Box_interaction_velocity, c2Box_normal_eval]
    have hx1 := c2raw_x_ge_one
    obtain ⟨hax, hay, haz⟩ := curlRaw_comp_abs_le ⟨1.6, 0, 5.4⟩ 51 1e-9
    set r := curlRaw ⟨1.6, 0, 5.4⟩ 51 1e-9 with hr
    have hy2 : r.y * r.y ≤ 6400 := by
      nlinarith [(abs_le.mp hay).1, (abs_le.mp hay).2]
    have hz2 : r.z * r.z ≤ 6400 := by
      nlinarith [(abs_le.mp haz).1, (abs_le.mp haz).2]
    have hx2 : 1 ≤ r.x * r.x := by nlinarith [hx1]
    have hlsq : r.lengthSq = r.x * r.x + r.y * r.y + r.z * r.z := rfl
    have hlsq1 : 1 ≤ r.lengthSq := by
      rw [hlsq]
      nlinarith [hx2, mul_self_nonneg r.y, mul_self_nonneg r.z]
    have hL1 : 1 ≤ Vec3.length r := by
      have h := Real.sqrt_le_sqrt hlsq1
      rw [Real.sqrt_one] at h
      exact h
    have hL0 : (0 : ℝ) < Vec3.length r := lt_of_lt_of_le one_pos hL1
    set L := Vec3.length r with hLdef
    have hLL : L * L = r.lengthSq := by
      rw [hLdef, Vec3.length]
      exact Real.mul_self_sqrt (Vec3.lengthSq_nonneg r)
    have hsample : sampleCurlNoise ⟨1.6, 0, 5.4⟩ 51 1e-9 = Vec3.smul (1 / L) r := by
      rw [sampleCurlNoise]
      rw [← hr, ← hLdef]
      rw [if_pos (lt_of_lt_of_le (by norm_num : (1e-5 : ℝ) < 1) hL1)]
    have hdotrz : Vec3.dot r ⟨0, 0, 1⟩ = r.z := by
      simp only [Vec3.dot]
      ring
    have hwake2 : (Vec3.smul (1 / L) r).addScaled ⟨0, 0, 1⟩ (-(1 / L * r.z)) =
        ⟨r.x / L, r.y / L, 0⟩ := by
      simp only [Vec3.addScaled, Vec3.smul, Vec3.add_def]
      refine Vec3.ext_iff.mpr ⟨?_, ?_, ?_⟩ <;> simp only [] <;> ring
    have hSeq : Vec3.lengthSq ⟨r.x / L, r.y / L, 0⟩ =
        (r.x * r.x + r.y * r.y) / (L * L) := by
      simp only [Vec3.lengthSq]
      ring
    have hcond : (r.x * r.x + r.y * r.y) / (L * L) > 1e-6 := by
      rw [gt_iff_lt, lt_div_iff (mul_pos hL0 hL0)]
      rw [hLL, hlsq]
      nlinarith [hx2, hz2, mul_self_nonneg r.y]
    set Q := Real.sqrt (r.x * r.x + r.y * r.y) with hQdef
    have hQ1 : 1 ≤ Q := by
      have h : (1 : ℝ) ≤ r.x * r.x + r.y * r.y := by
        nlinarith [hx2, mul_self_nonneg r.y]
      have h2 := Real.sqrt_le_sqrt h
      rw [Real.sqrt_one] at h2
      rw [hQdef]
      exact h2
    have hQpos : 0 < Q := lt_of_lt_of_le one_pos hQ1
    have hQub : Q ≤ r.x + 80 := by
      rw [hQdef]
      calc Real.sqrt (r.x * r.x + r.y * r.y)
          ≤ Real.sqrt ((r.x + 80) * (r.x + 80)) := by
            apply Real.sqrt_le_sqrt
            nlinarith [hy2, hx1]
        _ = r.x + 80 := Real.sqrt_mul_self (by linarith [hx1])
    have hsqrtS : Real.sqrt ((r.x * r.x + r.y * r.y) / (L * L)) = Q / L := by
      rw [Real.sqrt_div (by nlinarith [hx2, mul_self_nonneg r.y] :
        (0 : ℝ) ≤ r.x * r.x + r.y * r.y), Real.sqrt_mul_self (le_of_lt hL0), ← hQdef]
    have hdot0n : Vec3.dot ⟨0, 0, 0⟩ ⟨0.28, 0, 0.96⟩ = 0 := by
      simp only [Vec3.dot]
      norm_num
    have hw2dot : Vec3.dot ⟨r.x / L, r.y / L, 0⟩ ⟨0.28, 0, 0.96⟩ = 0.28 * r.x / L := by
      simp only [Vec3.dot]
      ring
    have hr81 : 1 / 81 ≤ r.x / Q := by
      rw [div_le_div_iff (by norm_num : (0 : ℝ) < 81) hQpos]
      linarith [hQub, hx1]
    have hwf := c2Box_wf_lb
    have hval : 1e-4 ≤ computeWakeDecay 4.7 1.6 5.6 * (0.28 * (r.x / Q)) := by
      have hm : 0.76 * (0.28 * (1 / 81)) ≤
          computeWakeDecay 4.7 1.6 5.6 * (0.28 * (r.x / Q)) :=
        mul_le_mul hwf (by linarith [hr81]) (by norm_num)
          (le_trans (by norm_num) hwf)
      linarith [hm]
    have hL0' : L ≠ 0 := ne_of_gt hL0
    have hQ0' : Q ≠ 0 := ne_of_gt hQpos
    rw [wakeInjection]
    rw [hsample, Vec3.smul_dot, hdotrz, hwake2, hSeq, if_pos hcond, hsqrtS,
      Vec3.dot_addScaled, hdot0n, Vec3.smul_dot, hw2dot]
    have heq : (0 : ℝ) + computeWakeDecay 4.7 1.6 5.6 * 1 * 1 *
        (1 / (Q / L) * (0.28 * r.x / L)) =
        computeWakeDecay 4.7 1.6 5.6 * (0.28 * (r.x / Q)) := by
      field_simp
      ring
    rw [heq]
    exact not_lt.mpr (le_trans hval (le_abs_self _))

/-- C2 amended: within the influence shell, when the mapped world surface
normal is a unit vector and the turbulence strength is at most `1e-5` (wake
injection disabled), the velocity after the interaction step has exactly
zero component along that normal, hence magnitude below `1e-4`; the
tangential removal, bypass steering and forward-tangent steering all act
orthogonally to the normal. -/
theorem c2_amended_tangential_slide (o : ObstacleFieldData) (p v f : Vec3)
    (t sc ts : ℝ)
    (hnear : worldSignedDistance o p ≤ influenceOf o)
    (hn : (worldSurfaceNormal o p).dot (worldSurfaceNormal o p) = 1)
    (hts : ts ≤ 1e-5) :
    Vec3.dot (applyObstacleInteraction p v o f t sc ts).velocity
      (worldSurfaceNormal o p) = 0 ∧
    |Vec3.dot (applyObstacleInteraction p v o f t sc ts).velocity
      (worldSurfaceNormal o p)| < 1e-4 := by
  have hta : ¬ (max 0 ts > 1e-5) := not_lt.mpr (max_le (by norm_num) hts)
  have hmain : Vec3.dot (applyObstacleInteraction p v o f t sc ts).velocity
      (worldSurfaceNormal o p) = 0 := by
    rw [applyObstacleInteraction]
    simp only []
    rw [if_neg hta,
      if_neg (fun h : ¬(worldSignedDistance o p ≤ influenceOf o) ∧
          (p - o.center).dot f - o.boundingRadius > influenceOf o * 0.35 =>
        h.1 hnear),
      ite_self, ite_self, if_pos hnear]
    set n := worldSurfaceNormal o p with hn_def
    have hnormdot : ∀ a : Vec3, a.dot n = 0 → (a.normalize).dot n = 0 := by
      intro a ha
      rw [Vec3.normalize, Vec3.smul_dot, ha, mul_zero]
    have hvA : Vec3.dot (v.addScaled n (-(v.dot n))) n = 0 := by
      rw [Vec3.dot_addScaled, hn]
      ring
    have hraddot : Vec3.dot ((p - o.center).addScaled n (-((p - o.center).dot n))) n
        = 0 := by
      rw [Vec3.dot_addScaled, hn]
      ring
    have hftdot : Vec3.dot (f.addScaled n (-(f.dot n))) n = 0 := by
      rw [Vec3.dot_addScaled, hn]
      ring
    split_ifs with h2 h3
    · rw [Vec3.dot_addScaled, Vec3.dot_addScaled, hvA, hnormdot _ hraddot,
        hnormdot _ hftdot]
      ring
    · rw [Vec3.dot_addScaled, hvA, hnormdot _ hftdot]
      ring
    · rw [Vec3.dot_addScaled, hvA, hnormdot _ hraddot]
      ring
    · exact hvA
  exact ⟨hmain, by rw [hmain]; norm_num⟩

/-- Witness for the amended C2: the C2 box fixture at `(1.6, 0, 5.4)` with
velocity `(3, 2, 1)` and zero turbulence strength. -/
theorem c2_amended_witness :
    Vec3.dot (applyObstacleInteraction ⟨1.6, 0, 5.4⟩ ⟨3, 2, 1⟩ c2BoxObstacle
      ⟨0, 0, 1⟩ 0 0 0).velocity (worldSurfaceNormal c2BoxObstacle ⟨1.6, 0, 5.4⟩) = 0 ∧
    |Vec3.dot (applyObstacleInteraction ⟨1.6, 0, 5.4⟩ ⟨3, 2, 1⟩ c2BoxObstacle
      ⟨0, 0, 1⟩ 0 0 0).velocity (worldSurfaceNormal c2BoxObstacle ⟨1.6, 0, 5.4⟩)| <
      1e-4 := by
  apply c2_amended_tangential_slide
  · rw [c2Box_sd_eval, c2Box_influence_eval]
  · rw [c2Box_normal_eval]
    simp only [Vec3.dot]
    norm_num
  · norm_num

/-! ## Degree-twelve Taylor enclosures for sine and cosine -/

open Finset Complex in
theorem I_pows : ((I:ℂ)^2 = -1) ∧ ((I:ℂ)^3 = -I) ∧ ((I:ℂ)^4 = 1) ∧ ((I:ℂ)^5 = I) ∧
    ((I:ℂ)^6 = -1) ∧ ((I:ℂ)^7 = -I) ∧ ((I:ℂ)^8 = 1) ∧ ((I:ℂ)^9 = I) ∧
    ((I:ℂ)^10 = -1) ∧ ((I:ℂ)^11 = -I) := by
  refine ⟨?_, ?_, ?_, ?_, ?_, ?_, ?_, ?_, ?_, ?_⟩ <;>
    simp [pow_succ, Complex.I_mul_I]

set_option maxHeartbeats 2000000 in
open Finset Complex in
theorem sum12_eval (x : ℝ) :
    (∑ m ∈ range 12, ((x : ℂ) * I) ^ m / m.factorial) =
    (1 - (x : ℂ) ^ 2 / 2 + (x : ℂ) ^ 4 / 24 - (x : ℂ) ^ 6 / 720 +
      (x : ℂ) ^ 8 / 40320 - (x : ℂ) ^ 10 / 3628800) +
    ((x : ℂ) - (x : ℂ) ^ 3 / 6 + (x : ℂ) ^ 5 / 120 - (x : ℂ) ^ 7 / 5040 +
      (x : ℂ) ^ 9 / 362880 - (x : ℂ) ^ 11 / 39916800) * I := by
  obtain ⟨h2, h3, h4, h5, h6, h7, h8, h9, h10, h11⟩ := I_pows
  simp only [sum_range_succ, range_zero, sum_empty, Nat.factorial]
  apply Complex.ext <;>
    simp [mul_pow, h2, h3, h4, h5, h6, h7, h8, h9, h10, h11] <;>
    ring_nf

set_option maxHeartbeats 1000000 in
open Finset Complex in
theorem sum12_cos (x : ℝ) :
    (∑ m ∈ range 12, ((x : ℂ) * I) ^ m / m.factorial) +
      (∑ m ∈ range 12, (-(x : ℂ) * I) ^ m / m.factorial) =
    2 * (1 - (x : ℂ) ^ 2 / 2 + (x : ℂ) ^ 4 / 24 - (x : ℂ) ^ 6 / 720 +
      (x : ℂ) ^ 8 / 40320 - (x : ℂ) ^ 10 / 3628800) := by
  have h1 := sum12_eval x
  have h2 := sum12_eval (-x)
  push_cast at h2
  linear_combination h1 + h2

set_option maxHeartbeats 1000000 in
open Finset Complex in
theorem sum12_sin (x : ℝ) :
    ((∑ m ∈ range 12, (-(x : ℂ) * I) ^ m / m.factorial) -
      (∑ m ∈ range 12, ((x : ℂ) * I) ^ m / m.factorial)) * I =
    2 * ((x : ℂ) - (x : ℂ) ^ 3 / 6 + (x : ℂ) ^ 5 / 120 - (x : ℂ) ^ 7 / 5040 +
      (x : ℂ) ^ 9 / 362880 - (x : ℂ) ^ 11 / 39916800) := by
  have h1 := sum12_eval x
  have h2 := sum12_eval (-x)
  push_cast at h2
  linear_combination (h2 - h1) * I -
    (2 * ((x : ℂ) - (x : ℂ) ^ 3 / 6 + (x : ℂ) ^ 5 / 120 - (x : ℂ) ^ 7 / 5040 +
      (x : ℂ) ^ 9 / 362880 - (x : ℂ) ^ 11 / 39916800)) * Complex.I_sq

set_option maxHeartbeats 1000000 in
open Finset Complex in
theorem cos_taylor12 {x : ℝ} (hx : |x| ≤ 1) :
    |Real.cos x - (1 - x ^ 2 / 2 + x ^ 4 / 24 - x ^ 6 / 720 + x ^ 8 / 40320 -
      x ^ 10 / 3628800)| ≤ 13 / 5748019200 := by
  have hsum := sum12_cos x
  have hkey : Complex.cos x -
      (1 - (x : ℂ) ^ 2 / 2 + (x : ℂ) ^ 4 / 24 - (x : ℂ) ^ 6 / 720 +
        (x : ℂ) ^ 8 / 40320 - (x : ℂ) ^ 10 / 3628800) =
      ((Complex.exp (x * I) - ∑ m ∈ range 12, ((x : ℂ) * I) ^ m / m.factorial) +
        (Complex.exp (-x * I) - ∑ m ∈ range 12, (-(x : ℂ) * I) ^ m / m.factorial)) / 2 := by
    rw [Complex.cos]
    linear_combination hsum / 2
  have b1 : Complex.abs (Complex.exp (x * I) -
      ∑ m ∈ range 12, ((x : ℂ) * I) ^ m / m.factorial) ≤ 13 / 5748019200 := by
    have h := Complex.exp_bound (x := (x : ℂ) * I) (by simpa) (n := 12) (by norm_num)
    have habs : Complex.abs ((x : ℂ) * I) ≤ 1 := by simpa
    have hpow : Complex.abs ((x : ℂ) * I) ^ 12 ≤ 1 :=
      pow_le_one₀ (AbsoluteValue.nonneg _ _) habs
    calc Complex.abs (Complex.exp (x * I) -
        ∑ m ∈ range 12, ((x : ℂ) * I) ^ m / m.factorial)
        ≤ Complex.abs ((x : ℂ) * I) ^ 12 *
          ((Nat.succ 12) * ((Nat.factorial 12) * (12 : ℕ) : ℝ)⁻¹) := h
      _ ≤ 1 * ((Nat.succ 12) * ((Nat.factorial 12) * (12 : ℕ) : ℝ)⁻¹) := by
          apply mul_le_mul_of_nonneg_right hpow
          positivity
      _ = 13 / 5748019200 := by norm_num [Nat.factorial]
  have b2 : Complex.abs (Complex.exp (-x * I) -
      ∑ m ∈ range 12, (-(x : ℂ) * I) ^ m / m.factorial) ≤ 13 / 5748019200 := by
    have h := Complex.exp_bound (x := -(x : ℂ) * I) (by simpa) (n := 12) (by norm_num)
    have habs : Complex.abs (-(x : ℂ) * I) ≤ 1 := by simpa
    have hpow : Complex.abs (-(x : ℂ) * I) ^ 12 ≤ 1 :=
      pow_le_one₀ (AbsoluteValue.nonneg _ _) habs
    calc Complex.abs (Complex.exp (-x * I) -
        ∑ m ∈ range 12, (-(x : ℂ) * I) ^ m / m.factorial)
        ≤ Complex.abs (-(x : ℂ) * I) ^ 12 *
          ((Nat.succ 12) * ((Nat.factorial 12) * (12 : ℕ) : ℝ)⁻¹) := h
      _ ≤ 1 * ((Nat.succ 12) * ((Nat.factorial 12) * (12 : ℕ) : ℝ)⁻¹) := by
          apply mul_le_mul_of_nonneg_right hpow
          positivity
      _ = 13 / 5748019200 := by norm_num [Nat.factorial]
  calc |Real.cos x - (1 - x ^ 2 / 2 + x ^ 4 / 24 - x ^ 6 / 720 + x ^ 8 / 40320 -
      x ^ 10 / 3628800)|
      = Complex.abs (((Real.cos x - (1 - x ^ 2 / 2 + x ^ 4 / 24 - x ^ 6 / 720 +
          x ^ 8 / 40320 - x ^ 10 / 3628800) : ℝ) : ℂ)) := (Complex.abs_ofReal _).symm
    _ = Complex.abs (Complex.cos x -
        (1 - (x : ℂ) ^ 2 / 2 + (x : ℂ) ^ 4 / 24 - (x : ℂ) ^ 6 / 720 +
          (x : ℂ) ^ 8 / 40320 - (x : ℂ) ^ 10 / 3628800)) := by
        congr 1
        push_cast
        ring
    _ = Complex.abs (((Complex.exp (x * I) -
          ∑ m ∈ range 12, ((x : ℂ) * I) ^ m / m.factorial) +
        (Complex.exp (-x * I) -
          ∑ m ∈ range 12, (-(x : ℂ) * I) ^ m / m.factorial)) / 2) := by rw [hkey]
    _ ≤ (Complex.abs (Complex.exp (x * I) -
          ∑ m ∈ range 12, ((x : ℂ) * I) ^ m / m.factorial) +
        Complex.abs (Complex.exp (-x * I) -
          ∑ m ∈ range 12, (-(x : ℂ) * I) ^ m / m.factorial)) / 2 := by
        rw [map_div₀, Complex.abs_two]
        gcongr
        exact Complex.abs.add_le _ _
    _ ≤ 13 / 5748019200 := by linarith [b1, b2]

set_option maxHeartbeats 1000000 in
open Finset Complex in
theorem sin_taylor12 {x : ℝ} (hx : |x| ≤ 1) :
    |Real.sin x - (x - x ^ 3 / 6 + x ^ 5 / 120 - x ^ 7 / 5040 + x ^ 9 / 362880 -
      x ^ 11 / 39916800)| ≤ 13 / 5748019200 := by
  have hs := sum12_sin x
  have hkey : Complex.sin x -
      ((x : ℂ) - (x : ℂ) ^ 3 / 6 + (x : ℂ) ^ 5 / 120 - (x : ℂ) ^ 7 / 5040 +
        (x : ℂ) ^ 9 / 362880 - (x : ℂ) ^ 11 / 39916800) =
      (((Complex.exp (-x * I) - ∑ m ∈ range 12, (-(x : ℂ) * I) ^ m / m.factorial) -
        (Complex.exp (x * I) - ∑ m ∈ range 12, ((x : ℂ) * I) ^ m / m.factorial)) * I) / 2 := by
    rw [Complex.sin]
    linear_combination hs / 2
  have b1 : Complex.abs (Complex.exp (x * I) -
      ∑ m ∈ range 12, ((x : ℂ) * I) ^ m / m.factorial) ≤ 13 / 5748019200 := by
    have h := Complex.exp_bound (x := (x : ℂ) * I) (by simpa) (n := 12) (by norm_num)
    have hpow : Complex.abs ((x : ℂ) * I) ^ 12 ≤ 1 :=
      pow_le_one₀ (AbsoluteValue.nonneg _ _) (by simpa)
    calc Complex.abs (Complex.exp (x * I) -
        ∑ m ∈ range 12, ((x : ℂ) * I) ^ m / m.factorial)
        ≤ Complex.abs ((x : ℂ) * I) ^ 12 *
          ((Nat.succ 12) * ((Nat.factorial 12) * (12 : ℕ) : ℝ)⁻¹) := h
      _ ≤ 1 * ((Nat.succ 12) * ((Nat.factorial 12) * (12 : ℕ) : ℝ)⁻¹) := by
          apply mul_le_mul_of_nonneg_right hpow
          positivity
      _ = 13 / 5748019200 := by norm_num [Nat.factorial]
  have b2 : Complex.abs (Complex.exp (-x * I) -
      ∑ m ∈ range 12, (-(x : ℂ) * I) ^ m / m.factorial) ≤ 13 / 5748019200 := by
    have h := Complex.exp_bound (x := -(x : ℂ) * I) (by simpa) (n := 12) (by norm_num)
    have hpow : Complex.abs (-(x : ℂ) * I) ^ 12 ≤ 1 :=
      pow_le_one₀ (AbsoluteValue.nonneg _ _) (by simpa)
    calc Complex.abs (Complex.exp (-x * I) -
        ∑ m ∈ range 12, (-(x : ℂ) * I) ^ m / m.factorial)
        ≤ Complex.abs (-(x : ℂ) * I) ^ 12 *
          ((Nat.succ 12) * ((Nat.factorial 12) * (12 : ℕ) : ℝ)⁻¹) := h
      _ ≤ 1 * ((Nat.succ 12) * ((Nat.factorial 12) * (12 : ℕ) : ℝ)⁻¹) := by
          apply mul_le_mul_of_nonneg_right hpow
          positivity
      _ = 13 / 5748019200 := by norm_num [Nat.factorial]
  calc |Real.sin x - (x - x ^ 3 / 6 + x ^ 5 / 120 - x ^ 7 / 5040 + x ^ 9 / 362880 -
      x ^ 11 / 39916800)|
      = Complex.abs (((Real.sin x - (x - x ^ 3 / 6 + x ^ 5 / 120 - x ^ 7 / 5040 +
          x ^ 9 / 362880 - x ^ 11 / 39916800) : ℝ) : ℂ)) := (Complex.abs_ofReal _).symm
    _ = Complex.abs (Complex.sin x -
        ((x : ℂ) - (x : ℂ) ^ 3 / 6 + (x : ℂ) ^ 5 / 120 - (x : ℂ) ^ 7 / 5040 +
          (x : ℂ) ^ 9 / 362880 - (x : ℂ) ^ 11 / 39916800)) := by
        congr 1
        push_cast
        ring
    _ = Complex.abs ((((Complex.exp (-x * I) -
          ∑ m ∈ range 12, (-(x : ℂ) * I) ^ m / m.factorial) -
        (Complex.exp (x * I) -
          ∑ m ∈ range 12, ((x : ℂ) * I) ^ m / m.factorial)) * I) / 2) := by rw [hkey]
    _ ≤ (Complex.abs (Complex.exp (-x * I) -
          ∑ m ∈ range 12, (-(x : ℂ) * I) ^ m / m.factorial) +
        Complex.abs (Complex.exp (x * I) -
          ∑ m ∈ range 12, ((x : ℂ) * I) ^ m / m.factorial)) / 2 := by
        rw [map_div₀, Complex.abs_two, map_mul, Complex.abs_I, mul_one]
        gcongr
        calc Complex.abs ((Complex.exp (-x * I) -
              ∑ m ∈ range 12, (-(x : ℂ) * I) ^ m / m.factorial) -
            (Complex.exp (x * I) - ∑ m ∈ range 12, ((x : ℂ) * I) ^ m / m.factorial))
            ≤ Complex.abs (Complex.exp (-x * I) -
                ∑ m ∈ range 12, (-(x : ℂ) * I) ^ m / m.factorial) +
              Complex.abs (-(Complex.exp (x * I) -
                ∑ m ∈ range 12, ((x : ℂ) * I) ^ m / m.factorial)) := by
              rw [sub_eq_add_neg]
              exact Complex.abs.add_le _ _
          _ = _ := by rw [Complex.abs.map_neg]
    _ ≤ 13 / 5748019200 := by linarith [b1, b2]

/-- Certified product enclosure for the needle-point hash wave `cY1a`. -/
theorem c7q_cY1a : |Real.sin (-16.296192500345008) * Real.cos (-19.22578372547266096) - (0.5160782802017)| ≤
    ((6e-9 + 13 / 5748019200) + 1.01 * (6e-9 + 13 / 5748019200)) + 1e-13 := by
  have hs : |Real.sin (-16.296192500345008) - -(-0.58822923 - (-0.58822923) ^ 3 / 6 + (-0.58822923) ^ 5 / 120 - (-0.58822923) ^ 7 / 5040 + (-0.58822923) ^ 9 / 362880 - (-0.58822923) ^ 11 / 39916800)| ≤ 6e-9 + 13 / 5748019200 :=
    sin_shift2 (-16.296192500345008) (-0.58822923) _ 6e-9 (13 / 5748019200) (-3)
      (by push_cast; rw [abs_le]; constructor <;>
        linarith [Real.pi_gt_d20, Real.pi_lt_d20])
      (sin_taylor12 (by rw [abs_le]; constructor <;> norm_num : |(-0.58822923 : ℝ)| ≤ 1))
  have hc : |Real.cos (-19.22578372547266096) - (1 - (-0.3762278) ^ 2 / 2 + (-0.3762278) ^ 4 / 24 - (-0.3762278) ^ 6 / 720 + (-0.3762278) ^ 8 / 40320 - (-0.3762278) ^ 10 / 3628800)| ≤ 6e-9 + 13 / 5748019200 :=
    cos_shift0 (-19.22578372547266096) (-0.3762278) _ 6e-9 (13 / 5748019200) (-3)
      (by push_cast; rw [abs_le]; constructor <;>
        linarith [Real.pi_gt_d20, Real.pi_lt_d20])
      (cos_taylor12 (by rw [abs_le]; constructor <;> norm_num : |(-0.3762278 : ℝ)| ≤ 1))
  have hp : |Real.sin (-16.296192500345008) * Real.cos (-19.22578372547266096) - (-(-0.58822923 - (-0.58822923) ^ 3 / 6 + (-0.58822923) ^ 5 / 120 - (-0.58822923) ^ 7 / 5040 + (-0.58822923) ^ 9 / 362880 - (-0.58822923) ^ 11 / 39916800)) * (1 - (-0.3762278) ^ 2 / 2 + (-0.3762278) ^ 4 / 24 - (-0.3762278) ^ 6 / 720 + (-0.3762278) ^ 8 / 40320 - (-0.3762278) ^ 10 / 3628800)| ≤
      (6e-9 + 13 / 5748019200) + 1.01 * (6e-9 + 13 / 5748019200) :=
    sin_cos_prod_approx (-16.296192500345008) (-19.22578372547266096) (-(-0.58822923 - (-0.58822923) ^ 3 / 6 + (-0.58822923) ^ 5 / 120 - (-0.58822923) ^ 7 / 5040 + (-0.58822923) ^ 9 / 362880 - (-0.58822923) ^ 11 / 39916800)) (1 - (-0.3762278) ^ 2 / 2 + (-0.3762278) ^ 4 / 24 - (-0.3762278) ^ 6 / 720 + (-0.3762278) ^ 8 / 40320 - (-0.3762278) ^ 10 / 3628800) (6e-9 + 13 / 5748019200) (6e-9 + 13 / 5748019200)
      hs hc (by rw [abs_le]; constructor <;> norm_num)
  have hrnd : |((-(-0.58822923 - (-0.58822923) ^ 3 / 6 + (-0.58822923) ^ 5 / 120 - (-0.58822923) ^ 7 / 5040 + (-0.58822923) ^ 9 / 362880 - (-0.58822923) ^ 11 / 39916800)) * (1 - (-0.3762278) ^ 2 / 2 + (-0.3762278) ^ 4 / 24 - (-0.3762278) ^ 6 / 720 + (-0.3762278) ^ 8 / 40320 - (-0.3762278) ^ 10 / 3628800) - (0.5160782802017) : ℝ)| ≤ 1e-13 := by
    rw [abs_le]
    constructor <;> norm_num
  linarith [abs_sub_le (Real.sin (-16.296192500345008) * Real.cos (-19.22578372547266096))
    ((-(-0.58822923 - (-0.58822923) ^ 3 / 6 + (-0.58822923) ^ 5 / 120 - (-0.58822923) ^ 7 / 5040 + (-0.58822923) ^ 9 / 362880 - (-0.58822923) ^ 11 / 39916800)) * (1 - (-0.3762278) ^ 2 / 2 + (-0.3762278) ^ 4 / 24 - (-0.3762278) ^ 6 / 720 + (-0.3762278) ^ 8 / 40320 - (-0.3762278) ^ 10 / 3628800) : ℝ) ((0.5160782802017 : ℝ)), hp, hrnd]

/-- Certified product enclosure for the needle-point hash wave `cY1b`. -/
theorem c7q_cY1b : |Real.sin (-18.8234942490090674) * Real.cos (-22.688187121142422338) - (-0.01998043614074)| ≤
    ((6e-9 + 13 / 5748019200) + 1.01 * (6e-9 + 13 / 5748019200)) + 1e-13 := by
  have hs : |Real.sin (-18.8234942490090674) - (0.02606167 - (0.02606167) ^ 3 / 6 + (0.02606167) ^ 5 / 120 - (0.02606167) ^ 7 / 5040 + (0.02606167) ^ 9 / 362880 - (0.02606167) ^ 11 / 39916800)| ≤ 6e-9 + 13 / 5748019200 :=
    sin_shift0 (-18.8234942490090674) (0.02606167) _ 6e-9 (13 / 5748019200) (-3)
      (by push_cast; rw [abs_le]; constructor <;>
        linarith [Real.pi_gt_d20, Real.pi_lt_d20])
      (sin_taylor12 (by rw [abs_le]; constructor <;> norm_num : |(0.02606167 : ℝ)| ≤ 1))
  have hc : |Real.cos (-22.688187121142422338) - -(1 - (-0.69703855) ^ 2 / 2 + (-0.69703855) ^ 4 / 24 - (-0.69703855) ^ 6 / 720 + (-0.69703855) ^ 8 / 40320 - (-0.69703855) ^ 10 / 3628800)| ≤ 6e-9 + 13 / 5748019200 :=
    cos_shift2 (-22.688187121142422338) (-0.69703855) _ 6e-9 (13 / 5748019200) (-4)
      (by push_cast; rw [abs_le]; constructor <;>
        linarith [Real.pi_gt_d20, Real.pi_lt_d20])
      (cos_taylor12 (by rw [abs_le]; constructor <;> norm_num : |(-0.69703855 : ℝ)| ≤ 1))
  have hp : |Real.sin (-18.8234942490090674) * Real.cos (-22.688187121142422338) - (0.02606167 - (0.02606167) ^ 3 / 6 + (0.02606167) ^ 5 / 120 - (0.02606167) ^ 7 / 5040 + (0.02606167) ^ 9 / 362880 - (0.02606167) ^ 11 / 39916800) * (-(1 - (-0.69703855) ^ 2 / 2 + (-0.69703855) ^ 4 / 24 - (-0.69703855) ^ 6 / 720 + (-0.69703855) ^ 8 / 40320 - (-0.69703855) ^ 10 / 3628800))| ≤
      (6e-9 + 13 / 5748019200) + 1.01 * (6e-9 + 13 / 5748019200) :=
    sin_cos_prod_approx (-18.8234942490090674) (-22.688187121142422338) (0.02606167 - (0.02606167) ^ 3 / 6 + (0.02606167) ^ 5 / 120 - (0.02606167) ^ 7 / 5040 + (0.02606167) ^ 9 / 362880 - (0.02606167) ^ 11 / 39916800) (-(1 - (-0.69703855) ^ 2 / 2 + (-0.69703855) ^ 4 / 24 - (-0.69703855) ^ 6 / 720 + (-0.69703855) ^ 8 / 40320 - (-0.69703855) ^ 10 / 3628800)) (6e-9 + 13 / 5748019200) (6e-9 + 13 / 5748019200)
      hs hc (by rw [abs_le]; constructor <;> norm_num)
  have hrnd : |((0.02606167 - (0.02606167) ^ 3 / 6 + (0.02606167) ^ 5 / 120 - (0.02606167) ^ 7 / 5040 + (0.02606167) ^ 9 / 362880 - (0.02606167) ^ 11 / 39916800) * (-(1 - (-0.69703855) ^ 2 / 2 + (-0.69703855) ^ 4 / 24 - (-0.69703855) ^ 6 / 720 + (-0.69703855) ^ 8 / 40320 - (-0.69703855) ^ 10 / 3628800)) - (-0.01998043614074) : ℝ)| ≤ 1e-13 := by
    rw [abs_le]
    constructor <;> norm_num
  linarith [abs_sub_le (Real.sin (-18.8234942490090674) * Real.cos (-22.688187121142422338))
    ((0.02606167 - (0.02606167) ^ 3 / 6 + (0.02606167) ^ 5 / 120 - (0.02606167) ^ 7 / 5040 + (0.02606167) ^ 9 / 362880 - (0.02606167) ^ 11 / 39916800) * (-(1 - (-0.69703855) ^ 2 / 2 + (-0.69703855) ^ 4 / 24 - (-0.69703855) ^ 6 / 720 + (-0.69703855) ^ 8 / 40320 - (-0.69703855) ^ 10 / 3628800)) : ℝ) ((-0.01998043614074 : ℝ)), hp, hrnd]

/-- Certified product enclosure for the needle-point hash wave `cY0a`. -/
theorem c7q_cY0a : |Real.sin (-21.519692500345008) * Real.cos (-26.38197872547266096) - (-0.14354297650191)| ≤
    ((6e-9 + 13 / 5748019200) + 1.01 * (6e-9 + 13 / 5748019200)) + 1e-13 := by
  have hs : |Real.sin (-21.519692500345008) - -(0.47145607 - (0.47145607) ^ 3 / 6 + (0.47145607) ^ 5 / 120 - (0.47145607) ^ 7 / 5040 + (0.47145607) ^ 9 / 362880 - (0.47145607) ^ 11 / 39916800)| ≤ 6e-9 + 13 / 5748019200 :=
    sin_shift2 (-21.519692500345008) (0.47145607) _ 6e-9 (13 / 5748019200) (-4)
      (by push_cast; rw [abs_le]; constructor <;>
        linarith [Real.pi_gt_d20, Real.pi_lt_d20])
      (sin_taylor12 (by rw [abs_le]; constructor <;> norm_num : |(0.47145607 : ℝ)| ≤ 1))
  have hc : |Real.cos (-26.38197872547266096) - (0.32155883 - (0.32155883) ^ 3 / 6 + (0.32155883) ^ 5 / 120 - (0.32155883) ^ 7 / 5040 + (0.32155883) ^ 9 / 362880 - (0.32155883) ^ 11 / 39916800)| ≤ 6e-9 + 13 / 5748019200 :=
    cos_shift3 (-26.38197872547266096) (0.32155883) _ 6e-9 (13 / 5748019200) (-5)
      (by push_cast; rw [abs_le]; constructor <;>
        linarith [Real.pi_gt_d20, Real.pi_lt_d20])
      (sin_taylor12 (by rw [abs_le]; constructor <;> norm_num : |(0.32155883 : ℝ)| ≤ 1))
  have hp : |Real.sin (-21.519692500345008) * Real.cos (-26.38197872547266096) - (-(0.47145607 - (0.47145607) ^ 3 / 6 + (0.47145607) ^ 5 / 120 - (0.47145607) ^ 7 / 5040 + (0.47145607) ^ 9 / 362880 - (0.47145607) ^ 11 / 39916800)) * (0.32155883 - (0.32155883) ^ 3 / 6 + (0.32155883) ^ 5 / 120 - (0.32155883) ^ 7 / 5040 + (0.32155883) ^ 9 / 362880 - (0.32155883) ^ 11 / 39916800)| ≤
      (6e-9 + 13 / 5748019200) + 1.01 * (6e-9 + 13 / 5748019200) :=
    sin_cos_prod_approx (-21.519692500345008) (-26.38197872547266096) (-(0.47145607 - (0.47145607) ^ 3 / 6 + (0.47145607) ^ 5 / 120 - (0.47145607) ^ 7 / 5040 + (0.47145607) ^ 9 / 362880 - (0.47145607) ^ 11 / 39916800)) (0.32155883 - (0.32155883) ^ 3 / 6 + (0.32155883) ^ 5 / 120 - (0.32155883) ^ 7 / 5040 + (0.32155883) ^ 9 / 362880 - (0.32155883) ^ 11 / 39916800) (6e-9 + 13 / 5748019200) (6e-9 + 13 / 5748019200)
      hs hc (by rw [abs_le]; constructor <;> norm_num)
  have hrnd : |((-(0.47145607 - (0.47145607) ^ 3 / 6 + (0.47145607) ^ 5 / 120 - (0.47145607) ^ 7 / 5040 + (0.47145607) ^ 9 / 362880 - (0.47145607) ^ 11 / 39916800)) * (0.32155883 - (0.32155883) ^ 3 / 6 + (0.32155883) ^ 5 / 120 - (0.32155883) ^ 7 / 5040 + (0.32155883) ^ 9 / 362880 - (0.32155883) ^ 11 / 39916800) - (-0.14354297650191) : ℝ)| ≤ 1e-13 := by
    rw [abs_le]
    constructor <;> norm_num
  linarith [abs_sub_le (Real.sin (-21.519692500345008) * Real.cos (-26.38197872547266096))
    ((-(0.47145607 - (0.47145607) ^ 3 / 6 + (0.47145607) ^ 5 / 120 - (0.47145607) ^ 7 / 5040 + (0.47145607) ^ 9 / 362880 - (0.47145607) ^ 11 / 39916800)) * (0.32155883 - (0.32155883) ^ 3 / 6 + (0.32155883) ^ 5 / 120 - (0.32155883) ^ 7 / 5040 + (0.32155883) ^ 9 / 362880 - (0.32155883) ^ 11 / 39916800) : ℝ) ((-0.14354297650191 : ℝ)), hp, hrnd]

/-- Certified product enclosure for the needle-point hash wave `cY0b`. -/
theorem c7q_cY0b : |Real.sin (-26.6467942490090674) * Real.cos (-33.406108121142422338) - (0.40654368919844)| ≤
    ((6e-9 + 13 / 5748019200) + 1.01 * (6e-9 + 13 / 5748019200)) + 1e-13 := by
  have hs : |Real.sin (-26.6467942490090674) - -(1 - (0.05674331) ^ 2 / 2 + (0.05674331) ^ 4 / 24 - (0.05674331) ^ 6 / 720 + (0.05674331) ^ 8 / 40320 - (0.05674331) ^ 10 / 3628800)| ≤ 6e-9 + 13 / 5748019200 :=
    sin_shift3 (-26.6467942490090674) (0.05674331) _ 6e-9 (13 / 5748019200) (-5)
      (by push_cast; rw [abs_le]; constructor <;>
        linarith [Real.pi_gt_d20, Real.pi_lt_d20])
      (cos_taylor12 (by rw [abs_le]; constructor <;> norm_num : |(0.05674331 : ℝ)| ≤ 1))
  have hc : |Real.cos (-33.406108121142422338) - (-0.41938526 - (-0.41938526) ^ 3 / 6 + (-0.41938526) ^ 5 / 120 - (-0.41938526) ^ 7 / 5040 + (-0.41938526) ^ 9 / 362880 - (-0.41938526) ^ 11 / 39916800)| ≤ 6e-9 + 13 / 5748019200 :=
    cos_shift3 (-33.406108121142422338) (-0.41938526) _ 6e-9 (13 / 5748019200) (-6)
      (by push_cast; rw [abs_le]; constructor <;>
        linarith [Real.pi_gt_d20, Real.pi_lt_d20])
      (sin_taylor12 (by rw [abs_le]; constructor <;> norm_num : |(-0.41938526 : ℝ)| ≤ 1))
  have hp : |Real.sin (-26.6467942490090674) * Real.cos (-33.406108121142422338) - (-(1 - (0.05674331) ^ 2 / 2 + (0.05674331) ^ 4 / 24 - (0.05674331) ^ 6 / 720 + (0.05674331) ^ 8 / 40320 - (0.05674331) ^ 10 / 3628800)) * (-0.41938526 - (-0.41938526) ^ 3 / 6 + (-0.41938526) ^ 5 / 120 - (-0.41938526) ^ 7 / 5040 + (-0.41938526) ^ 9 / 362880 - (-0.41938526) ^ 11 / 39916800)| ≤
      (6e-9 + 13 / 5748019200) + 1.01 * (6e-9 + 13 / 5748019200) :=
    sin_cos_prod_approx (-26.6467942490090674) (-33.406108121142422338) (-(1 - (0.05674331) ^ 2 / 2 + (0.05674331) ^ 4 / 24 - (0.05674331) ^ 6 / 720 + (0.05674331) ^ 8 / 40320 - (0.05674331) ^ 10 / 3628800)) (-0.41938526 - (-0.41938526) ^ 3 / 6 + (-0.41938526) ^ 5 / 120 - (-0.41938526) ^ 7 / 5040 + (-0.41938526) ^ 9 / 362880 - (-0.41938526) ^ 11 / 39916800) (6e-9 + 13 / 5748019200) (6e-9 + 13 / 5748019200)
      hs hc (by rw [abs_le]; constructor <;> norm_num)
  have hrnd : |((-(1 - (0.05674331) ^ 2 / 2 + (0.05674331) ^ 4 / 24 - (0.05674331) ^ 6 / 720 + (0.05674331) ^ 8 / 40320 - (0.05674331) ^ 10 / 3628800)) * (-0.41938526 - (-0.41938526) ^ 3 / 6 + (-0.41938526) ^ 5 / 120 - (-0.41938526) ^ 7 / 5040 + (-0.41938526) ^ 9 / 362880 - (-0.41938526) ^ 11 / 39916800) - (0.40654368919844) : ℝ)| ≤ 1e-13 := by
    rw [abs_le]
    constructor <;> norm_num
  linarith [abs_sub_le (Real.sin (-26.6467942490090674) * Real.cos (-33.406108121142422338))
    ((-(1 - (0.05674331) ^ 2 / 2 + (0.05674331) ^ 4 / 24 - (0.05674331) ^ 6 / 720 + (0.05674331) ^ 8 / 40320 - (0.05674331) ^ 10 / 3628800)) * (-0.41938526 - (-0.41938526) ^ 3 / 6 + (-0.41938526) ^ 5 / 120 - (-0.41938526) ^ 7 / 5040 + (-0.41938526) ^ 9 / 362880 - (-0.41938526) ^ 11 / 39916800) : ℝ) ((0.40654368919844 : ℝ)), hp, hrnd]

/-- Certified product enclosure for the needle-point hash wave `bZ1a`. -/
theorem c7q_bZ1a : |Real.sin (26.2533847886314996) * Real.cos (39.067137160425154452) - (0.18132256035017)| ≤
    ((6e-9 + 13 / 5748019200) + 1.01 * (6e-9 + 13 / 5748019200)) + 1e-13 := by
  have hs : |Real.sin (26.2533847886314996) - (1 - (-0.45015277) ^ 2 / 2 + (-0.45015277) ^ 4 / 24 - (-0.45015277) ^ 6 / 720 + (-0.45015277) ^ 8 / 40320 - (-0.45015277) ^ 10 / 3628800)| ≤ 6e-9 + 13 / 5748019200 :=
    sin_shift1 (26.2533847886314996) (-0.45015277) _ 6e-9 (13 / 5748019200) (4)
      (by push_cast; rw [abs_le]; constructor <;>
        linarith [Real.pi_gt_d20, Real.pi_lt_d20])
      (cos_taylor12 (by rw [abs_le]; constructor <;> norm_num : |(-0.45015277 : ℝ)| ≤ 1))
  have hc : |Real.cos (39.067137160425154452) - -(-0.20277101 - (-0.20277101) ^ 3 / 6 + (-0.20277101) ^ 5 / 120 - (-0.20277101) ^ 7 / 5040 + (-0.20277101) ^ 9 / 362880 - (-0.20277101) ^ 11 / 39916800)| ≤ 6e-9 + 13 / 5748019200 :=
    cos_shift1 (39.067137160425154452) (-0.20277101) _ 6e-9 (13 / 5748019200) (6)
      (by push_cast; rw [abs_le]; constructor <;>
        linarith [Real.pi_gt_d20, Real.pi_lt_d20])
      (sin_taylor12 (by rw [abs_le]; constructor <;> norm_num : |(-0.20277101 : ℝ)| ≤ 1))
  have hp : |Real.sin (26.2533847886314996) * Real.cos (39.067137160425154452) - (1 - (-0.45015277) ^ 2 / 2 + (-0.45015277) ^ 4 / 24 - (-0.45015277) ^ 6 / 720 + (-0.45015277) ^ 8 / 40320 - (-0.45015277) ^ 10 / 3628800) * (-(-0.20277101 - (-0.20277101) ^ 3 / 6 + (-0.20277101) ^ 5 / 120 - (-0.20277101) ^ 7 / 5040 + (-0.20277101) ^ 9 / 362880 - (-0.20277101) ^ 11 / 39916800))| ≤
      (6e-9 + 13 / 5748019200) + 1.01 * (6e-9 + 13 / 5748019200) :=
    sin_cos_prod_approx (26.2533847886314996) (39.067137160425154452) (1 - (-0.45015277) ^ 2 / 2 + (-0.45015277) ^ 4 / 24 - (-0.45015277) ^ 6 / 720 + (-0.45015277) ^ 8 / 40320 - (-0.45015277) ^ 10 / 3628800) (-(-0.20277101 - (-0.20277101) ^ 3 / 6 + (-0.20277101) ^ 5 / 120 - (-0.20277101) ^ 7 / 5040 + (-0.20277101) ^ 9 / 362880 - (-0.20277101) ^ 11 / 39916800)) (6e-9 + 13 / 5748019200) (6e-9 + 13 / 5748019200)
      hs hc (by rw [abs_le]; constructor <;> norm_num)
  have hrnd : |((1 - (-0.45015277) ^ 2 / 2 + (-0.45015277) ^ 4 / 24 - (-0.45015277) ^ 6 / 720 + (-0.45015277) ^ 8 / 40320 - (-0.45015277) ^ 10 / 3628800) * (-(-0.20277101 - (-0.20277101) ^ 3 / 6 + (-0.20277101) ^ 5 / 120 - (-0.20277101) ^ 7 / 5040 + (-0.20277101) ^ 9 / 362880 - (-0.20277101) ^ 11 / 39916800)) - (0.18132256035017) : ℝ)| ≤ 1e-13 := by
    rw [abs_le]
    constructor <;> norm_num
  linarith [abs_sub_le (Real.sin (26.2533847886314996) * Real.cos (39.067137160425154452))
    ((1 - (-0.45015277) ^ 2 / 2 + (-0.45015277) ^ 4 / 24 - (-0.45015277) ^ 6 / 720 + (-0.45015277) ^ 8 / 40320 - (-0.45015277) ^ 10 / 3628800) * (-(-0.20277101 - (-0.20277101) ^ 3 / 6 + (-0.20277101) ^ 5 / 120 - (-0.20277101) ^ 7 / 5040 + (-0.20277101) ^ 9 / 362880 - (-0.20277101) ^ 11 / 39916800)) : ℝ) ((0.18132256035017 : ℝ)), hp, hrnd]

/-- Certified product enclosure for the needle-point hash wave `bZ1b`. -/
theorem c7q_bZ1b : |Real.sin (-19.724392500345008) * Real.cos (-23.92241772547266096) - (-0.27068846273363)| ≤
    ((6e-9 + 13 / 5748019200) + 1.01 * (6e-9 + 13 / 5748019200)) + 1e-13 := by
  have hs : |Real.sin (-19.724392500345008) - -(1 - (0.69595975) ^ 2 / 2 + (0.69595975) ^ 4 / 24 - (0.69595975) ^ 6 / 720 + (0.69595975) ^ 8 / 40320 - (0.69595975) ^ 10 / 3628800)| ≤ 6e-9 + 13 / 5748019200 :=
    sin_shift3 (-19.724392500345008) (0.69595975) _ 6e-9 (13 / 5748019200) (-4)
      (by push_cast; rw [abs_le]; constructor <;>
        linarith [Real.pi_gt_d20, Real.pi_lt_d20])
      (cos_taylor12 (by rw [abs_le]; constructor <;> norm_num : |(0.69595975 : ℝ)| ≤ 1))
  have hc : |Real.cos (-23.92241772547266096) - -(-0.36047282 - (-0.36047282) ^ 3 / 6 + (-0.36047282) ^ 5 / 120 - (-0.36047282) ^ 7 / 5040 + (-0.36047282) ^ 9 / 362880 - (-0.36047282) ^ 11 / 39916800)| ≤ 6e-9 + 13 / 5748019200 :=
    cos_shift1 (-23.92241772547266096) (-0.36047282) _ 6e-9 (13 / 5748019200) (-4)
      (by push_cast; rw [abs_le]; constructor <;>
        linarith [Real.pi_gt_d20, Real.pi_lt_d20])
      (sin_taylor12 (by rw [abs_le]; constructor <;> norm_num : |(-0.36047282 : ℝ)| ≤ 1))
  have hp : |Real.sin (-19.724392500345008) * Real.cos (-23.92241772547266096) - (-(1 - (0.69595975) ^ 2 / 2 + (0.69595975) ^ 4 / 24 - (0.69595975) ^ 6 / 720 + (0.69595975) ^ 8 / 40320 - (0.69595975) ^ 10 / 3628800)) * (-(-0.36047282 - (-0.36047282) ^ 3 / 6 + (-0.36047282) ^ 5 / 120 - (-0.36047282) ^ 7 / 5040 + (-0.36047282) ^ 9 / 362880 - (-0.36047282) ^ 11 / 39916800))| ≤
      (6e-9 + 13 / 5748019200) + 1.01 * (6e-9 + 13 / 5748019200) :=
    sin_cos_prod_approx (-19.724392500345008) (-23.92241772547266096) (-(1 - (0.69595975) ^ 2 / 2 + (0.69595975) ^ 4 / 24 - (0.69595975) ^ 6 / 720 + (0.69595975) ^ 8 / 40320 - (0.69595975) ^ 10 / 3628800)) (-(-0.36047282 - (-0.36047282) ^ 3 / 6 + (-0.36047282) ^ 5 / 120 - (-0.36047282) ^ 7 / 5040 + (-0.36047282) ^ 9 / 362880 - (-0.36047282) ^ 11 / 39916800)) (6e-9 + 13 / 5748019200) (6e-9 + 13 / 5748019200)
      hs hc (by rw [abs_le]; constructor <;> norm_num)
  have hrnd : |((-(1 - (0.69595975) ^ 2 / 2 + (0.69595975) ^ 4 / 24 - (0.69595975) ^ 6 / 720 + (0.69595975) ^ 8 / 40320 - (0.69595975) ^ 10 / 3628800)) * (-(-0.36047282 - (-0.36047282) ^ 3 / 6 + (-0.36047282) ^ 5 / 120 - (-0.36047282) ^ 7 / 5040 + (-0.36047282) ^ 9 / 362880 - (-0.36047282) ^ 11 / 39916800)) - (-0.27068846273363) : ℝ)| ≤ 1e-13 := by
    rw [abs_le]
    constructor <;> norm_num
  linarith [abs_sub_le (Real.sin (-19.724392500345008) * Real.cos (-23.92241772547266096))
    ((-(1 - (0.69595975) ^ 2 / 2 + (0.69595975) ^ 4 / 24 - (0.69595975) ^ 6 / 720 + (0.69595975) ^ 8 / 40320 - (0.69595975) ^ 10 / 3628800)) * (-(-0.36047282 - (-0.36047282) ^ 3 / 6 + (-0.36047282) ^ 5 / 120 - (-0.36047282) ^ 7 / 5040 + (-0.36047282) ^ 9 / 362880 - (-0.36047282) ^ 11 / 39916800)) : ℝ) ((-0.27068846273363 : ℝ)), hp, hrnd]

/-- Certified product enclosure for the needle-point hash wave `bZ0a`. -/
theorem c7q_bZ0a : |Real.sin (17.9378847886314996) * Real.cos (27.674902160425154452) - (0.65270470764757)| ≤
    ((6e-9 + 13 / 5748019200) + 1.01 * (6e-9 + 13 / 5748019200)) + 1e-13 := by
  have hs : |Real.sin (17.9378847886314996) - -(1 - (0.65912519) ^ 2 / 2 + (0.65912519) ^ 4 / 24 - (0.65912519) ^ 6 / 720 + (0.65912519) ^ 8 / 40320 - (0.65912519) ^ 10 / 3628800)| ≤ 6e-9 + 13 / 5748019200 :=
    sin_shift3 (17.9378847886314996) (0.65912519) _ 6e-9 (13 / 5748019200) (2)
      (by push_cast; rw [abs_le]; constructor <;>
        linarith [Real.pi_gt_d20, Real.pi_lt_d20])
      (cos_taylor12 (by rw [abs_le]; constructor <;> norm_num : |(0.65912519 : ℝ)| ≤ 1))
  have hc : |Real.cos (27.674902160425154452) - -(1 - (-0.59943172) ^ 2 / 2 + (-0.59943172) ^ 4 / 24 - (-0.59943172) ^ 6 / 720 + (-0.59943172) ^ 8 / 40320 - (-0.59943172) ^ 10 / 3628800)| ≤ 6e-9 + 13 / 5748019200 :=
    cos_shift2 (27.674902160425154452) (-0.59943172) _ 6e-9 (13 / 5748019200) (4)
      (by push_cast; rw [abs_le]; constructor <;>
        linarith [Real.pi_gt_d20, Real.pi_lt_d20])
      (cos_taylor12 (by rw [abs_le]; constructor <;> norm_num : |(-0.59943172 : ℝ)| ≤ 1))
  have hp : |Real.sin (17.9378847886314996) * Real.cos (27.674902160425154452) - (-(1 - (0.65912519) ^ 2 / 2 + (0.65912519) ^ 4 / 24 - (0.65912519) ^ 6 / 720 + (0.65912519) ^ 8 / 40320 - (0.65912519) ^ 10 / 3628800)) * (-(1 - (-0.59943172) ^ 2 / 2 + (-0.59943172) ^ 4 / 24 - (-0.59943172) ^ 6 / 720 + (-0.59943172) ^ 8 / 40320 - (-0.59943172) ^ 10 / 3628800))| ≤
      (6e-9 + 13 / 5748019200) + 1.01 * (6e-9 + 13 / 5748019200) :=
    sin_cos_prod_approx (17.9378847886314996) (27.674902160425154452) (-(1 - (0.65912519) ^ 2 / 2 + (0.65912519) ^ 4 / 24 - (0.65912519) ^ 6 / 720 + (0.65912519) ^ 8 / 40320 - (0.65912519) ^ 10 / 3628800)) (-(1 - (-0.59943172) ^ 2 / 2 + (-0.59943172) ^ 4 / 24 - (-0.59943172) ^ 6 / 720 + (-0.59943172) ^ 8 / 40320 - (-0.59943172) ^ 10 / 3628800)) (6e-9 + 13 / 5748019200) (6e-9 + 13 / 5748019200)
      hs hc (by rw [abs_le]; constructor <;> norm_num)
  have hrnd : |((-(1 - (0.65912519) ^ 2 / 2 + (0.65912519) ^ 4 / 24 - (0.65912519) ^ 6 / 720 + (0.65912519) ^ 8 / 40320 - (0.65912519) ^ 10 / 3628800)) * (-(1 - (-0.59943172) ^ 2 / 2 + (-0.59943172) ^ 4 / 24 - (-0.59943172) ^ 6 / 720 + (-0.59943172) ^ 8 / 40320 - (-0.59943172) ^ 10 / 3628800)) - (0.65270470764757) : ℝ)| ≤ 1e-13 := by
    rw [abs_le]
    constructor <;> norm_num
  linarith [abs_sub_le (Real.sin (17.9378847886314996) * Real.cos (27.674902160425154452))
    ((-(1 - (0.65912519) ^ 2 / 2 + (0.65912519) ^ 4 / 24 - (0.65912519) ^ 6 / 720 + (0.65912519) ^ 8 / 40320 - (0.65912519) ^ 10 / 3628800)) * (-(1 - (-0.59943172) ^ 2 / 2 + (-0.59943172) ^ 4 / 24 - (-0.59943172) ^ 6 / 720 + (-0.59943172) ^ 8 / 40320 - (-0.59943172) ^ 10 / 3628800)) : ℝ) ((0.65270470764757 : ℝ)), hp, hrnd]

/-- Certified product enclosure for the needle-point hash wave `bZ0b`. -/
theorem c7q_bZ0b : |Real.sin (-20.639492500345008) * Real.cos (-25.17610472547266096) - (-0.97516714385068)| ≤
    ((6e-9 + 13 / 5748019200) + 1.01 * (6e-9 + 13 / 5748019200)) + 1e-13 := by
  have hs : |Real.sin (-20.639492500345008) - -(1 - (-0.21914025) ^ 2 / 2 + (-0.21914025) ^ 4 / 24 - (-0.21914025) ^ 6 / 720 + (-0.21914025) ^ 8 / 40320 - (-0.21914025) ^ 10 / 3628800)| ≤ 6e-9 + 13 / 5748019200 :=
    sin_shift3 (-20.639492500345008) (-0.21914025) _ 6e-9 (13 / 5748019200) (-4)
      (by push_cast; rw [abs_le]; constructor <;>
        linarith [Real.pi_gt_d20, Real.pi_lt_d20])
      (cos_taylor12 (by rw [abs_le]; constructor <;> norm_num : |(-0.21914025 : ℝ)| ≤ 1))
  have hc : |Real.cos (-25.17610472547266096) - (1 - (-0.0433635) ^ 2 / 2 + (-0.0433635) ^ 4 / 24 - (-0.0433635) ^ 6 / 720 + (-0.0433635) ^ 8 / 40320 - (-0.0433635) ^ 10 / 3628800)| ≤ 6e-9 + 13 / 5748019200 :=
    cos_shift0 (-25.17610472547266096) (-0.0433635) _ 6e-9 (13 / 5748019200) (-4)
      (by push_cast; rw [abs_le]; constructor <;>
        linarith [Real.pi_gt_d20, Real.pi_lt_d20])
      (cos_taylor12 (by rw [abs_le]; constructor <;> norm_num : |(-0.0433635 : ℝ)| ≤ 1))
  have hp : |Real.sin (-20.639492500345008) * Real.cos (-25.17610472547266096) - (-(1 - (-0.21914025) ^ 2 / 2 + (-0.21914025) ^ 4 / 24 - (-0.21914025) ^ 6 / 720 + (-0.21914025) ^ 8 / 40320 - (-0.21914025) ^ 10 / 3628800)) * (1 - (-0.0433635) ^ 2 / 2 + (-0.0433635) ^ 4 / 24 - (-0.0433635) ^ 6 / 720 + (-0.0433635) ^ 8 / 40320 - (-0.0433635) ^ 10 / 3628800)| ≤
      (6e-9 + 13 / 5748019200) + 1.01 * (6e-9 + 13 / 5748019200) :=
    sin_cos_prod_approx (-20.639492500345008) (-25.17610472547266096) (-(1 - (-0.21914025) ^ 2 / 2 + (-0.21914025) ^ 4 / 24 - (-0.21914025) ^ 6 / 720 + (-0.21914025) ^ 8 / 40320 - (-0.21914025) ^ 10 / 3628800)) (1 - (-0.0433635) ^ 2 / 2 + (-0.0433635) ^ 4 / 24 - (-0.0433635) ^ 6 / 720 + (-0.0433635) ^ 8 / 40320 - (-0.0433635) ^ 10 / 3628800) (6e-9 + 13 / 5748019200) (6e-9 + 13 / 5748019200)
      hs hc (by rw [abs_le]; constructor <;> norm_num)
  have hrnd : |((-(1 - (-0.21914025) ^ 2 / 2 + (-0.21914025) ^ 4 / 24 - (-0.21914025) ^ 6 / 720 + (-0.21914025) ^ 8 / 40320 - (-0.21914025) ^ 10 / 3628800)) * (1 - (-0.0433635) ^ 2 / 2 + (-0.0433635) ^ 4 / 24 - (-0.0433635) ^ 6 / 720 + (-0.0433635) ^ 8 / 40320 - (-0.0433635) ^ 10 / 3628800) - (-0.97516714385068) : ℝ)| ≤ 1e-13 := by
    rw [abs_le]
    constructor <;> norm_num
  linarith [abs_sub_le (Real.sin (-20.639492500345008) * Real.cos (-25.17610472547266096))
    ((-(1 - (-0.21914025) ^ 2 / 2 + (-0.21914025) ^ 4 / 24 - (-0.21914025) ^ 6 / 720 + (-0.21914025) ^ 8 / 40320 - (-0.21914025) ^ 10 / 3628800)) * (1 - (-0.0433635) ^ 2 / 2 + (-0.0433635) ^ 4 / 24 - (-0.0433635) ^ 6 / 720 + (-0.0433635) ^ 8 / 40320 - (-0.0433635) ^ 10 / 3628800) : ℝ) ((-0.97516714385068 : ℝ)), hp, hrnd]

/-- Certified product enclosure for the needle-point hash wave `aZ1a`. -/
theorem c7q_aZ1a : |Real.sin (-18.9836942490090674) * Real.cos (-22.907661121142422338) - (0.08139080048225)| ≤
    ((6e-9 + 13 / 5748019200) + 1.01 * (6e-9 + 13 / 5748019200)) + 1e-13 := by
  have hs : |Real.sin (-18.9836942490090674) - (-0.13413833 - (-0.13413833) ^ 3 / 6 + (-0.13413833) ^ 5 / 120 - (-0.13413833) ^ 7 / 5040 + (-0.13413833) ^ 9 / 362880 - (-0.13413833) ^ 11 / 39916800)| ≤ 6e-9 + 13 / 5748019200 :=
    sin_shift0 (-18.9836942490090674) (-0.13413833) _ 6e-9 (13 / 5748019200) (-3)
      (by push_cast; rw [abs_le]; constructor <;>
        linarith [Real.pi_gt_d20, Real.pi_lt_d20])
      (sin_taylor12 (by rw [abs_le]; constructor <;> norm_num : |(-0.13413833 : ℝ)| ≤ 1))
  have hc : |Real.cos (-22.907661121142422338) - -(0.65428378 - (0.65428378) ^ 3 / 6 + (0.65428378) ^ 5 / 120 - (0.65428378) ^ 7 / 5040 + (0.65428378) ^ 9 / 362880 - (0.65428378) ^ 11 / 39916800)| ≤ 6e-9 + 13 / 5748019200 :=
    cos_shift1 (-22.907661121142422338) (0.65428378) _ 6e-9 (13 / 5748019200) (-4)
      (by push_cast; rw [abs_le]; constructor <;>
        linarith [Real.pi_gt_d20, Real.pi_lt_d20])
      (sin_taylor12 (by rw [abs_le]; constructor <;> norm_num : |(0.65428378 : ℝ)| ≤ 1))
  have hp : |Real.sin (-18.9836942490090674) * Real.cos (-22.907661121142422338) - (-0.13413833 - (-0.13413833) ^ 3 / 6 + (-0.13413833) ^ 5 / 120 - (-0.13413833) ^ 7 / 5040 + (-0.13413833) ^ 9 / 362880 - (-0.13413833) ^ 11 / 39916800) * (-(0.65428378 - (0.65428378) ^ 3 / 6 + (0.65428378) ^ 5 / 120 - (0.65428378) ^ 7 / 5040 + (0.65428378) ^ 9 / 362880 - (0.65428378) ^ 11 / 39916800))| ≤
      (6e-9 + 13 / 5748019200) + 1.01 * (6e-9 + 13 / 5748019200) :=
    sin_cos_prod_approx (-18.9836942490090674) (-22.907661121142422338) (-0.13413833 - (-0.13413833) ^ 3 / 6 + (-0.13413833) ^ 5 / 120 - (-0.13413833) ^ 7 / 5040 + (-0.13413833) ^ 9 / 362880 - (-0.13413833) ^ 11 / 39916800) (-(0.65428378 - (0.65428378) ^ 3 / 6 + (0.65428378) ^ 5 / 120 - (0.65428378) ^ 7 / 5040 + (0.65428378) ^ 9 / 362880 - (0.65428378) ^ 11 / 39916800)) (6e-9 + 13 / 5748019200) (6e-9 + 13 / 5748019200)
      hs hc (by rw [abs_le]; constructor <;> norm_num)
  have hrnd : |((-0.13413833 - (-0.13413833) ^ 3 / 6 + (-0.13413833) ^ 5 / 120 - (-0.13413833) ^ 7 / 5040 + (-0.13413833) ^ 9 / 362880 - (-0.13413833) ^ 11 / 39916800) * (-(0.65428378 - (0.65428378) ^ 3 / 6 + (0.65428378) ^ 5 / 120 - (0.65428378) ^ 7 / 5040 + (0.65428378) ^ 9 / 362880 - (0.65428378) ^ 11 / 39916800)) - (0.08139080048225) : ℝ)| ≤ 1e-13 := by
    rw [abs_le]
    constructor <;> norm_num
  linarith [abs_sub_le (Real.sin (-18.9836942490090674) * Real.cos (-22.907661121142422338))
    ((-0.13413833 - (-0.13413833) ^ 3 / 6 + (-0.13413833) ^ 5 / 120 - (-0.13413833) ^ 7 / 5040 + (-0.13413833) ^ 9 / 362880 - (-0.13413833) ^ 11 / 39916800) * (-(0.65428378 - (0.65428378) ^ 3 / 6 + (0.65428378) ^ 5 / 120 - (0.65428378) ^ 7 / 5040 + (0.65428378) ^ 9 / 362880 - (0.65428378) ^ 11 / 39916800)) : ℝ) ((0.08139080048225 : ℝ)), hp, hrnd]

/-- Certified product enclosure for the needle-point hash wave `aZ1b`. -/
theorem c7q_aZ1b : |Real.sin (24.6608847886314996) * Real.cos (36.885412160425154452) - (-0.3121849183992)| ≤
    ((6e-9 + 13 / 5748019200) + 1.01 * (6e-9 + 13 / 5748019200)) + 1e-13 := by
  have hs : |Real.sin (24.6608847886314996) - (-0.47185644 - (-0.47185644) ^ 3 / 6 + (-0.47185644) ^ 5 / 120 - (-0.47185644) ^ 7 / 5040 + (-0.47185644) ^ 9 / 362880 - (-0.47185644) ^ 11 / 39916800)| ≤ 6e-9 + 13 / 5748019200 :=
    sin_shift0 (24.6608847886314996) (-0.47185644) _ 6e-9 (13 / 5748019200) (4)
      (by push_cast; rw [abs_le]; constructor <;>
        linarith [Real.pi_gt_d20, Real.pi_lt_d20])
      (sin_taylor12 (by rw [abs_le]; constructor <;> norm_num : |(-0.47185644 : ℝ)| ≤ 1))
  have hc : |Real.cos (36.885412160425154452) - (0.75709664 - (0.75709664) ^ 3 / 6 + (0.75709664) ^ 5 / 120 - (0.75709664) ^ 7 / 5040 + (0.75709664) ^ 9 / 362880 - (0.75709664) ^ 11 / 39916800)| ≤ 6e-9 + 13 / 5748019200 :=
    cos_shift3 (36.885412160425154452) (0.75709664) _ 6e-9 (13 / 5748019200) (5)
      (by push_cast; rw [abs_le]; constructor <;>
        linarith [Real.pi_gt_d20, Real.pi_lt_d20])
      (sin_taylor12 (by rw [abs_le]; constructor <;> norm_num : |(0.75709664 : ℝ)| ≤ 1))
  have hp : |Real.sin (24.6608847886314996) * Real.cos (36.885412160425154452) - (-0.47185644 - (-0.47185644) ^ 3 / 6 + (-0.47185644) ^ 5 / 120 - (-0.47185644) ^ 7 / 5040 + (-0.47185644) ^ 9 / 362880 - (-0.47185644) ^ 11 / 39916800) * (0.75709664 - (0.75709664) ^ 3 / 6 + (0.75709664) ^ 5 / 120 - (0.75709664) ^ 7 / 5040 + (0.75709664) ^ 9 / 362880 - (0.75709664) ^ 11 / 39916800)| ≤
      (6e-9 + 13 / 5748019200) + 1.01 * (6e-9 + 13 / 5748019200) :=
    sin_cos_prod_approx (24.6608847886314996) (36.885412160425154452) (-0.47185644 - (-0.47185644) ^ 3 / 6 + (-0.47185644) ^ 5 / 120 - (-0.47185644) ^ 7 / 5040 + (-0.47185644) ^ 9 / 362880 - (-0.47185644) ^ 11 / 39916800) (0.75709664 - (0.75709664) ^ 3 / 6 + (0.75709664) ^ 5 / 120 - (0.75709664) ^ 7 / 5040 + (0.75709664) ^ 9 / 362880 - (0.75709664) ^ 11 / 39916800) (6e-9 + 13 / 5748019200) (6e-9 + 13 / 5748019200)
      hs hc (by rw [abs_le]; constructor <;> norm_num)
  have hrnd : |((-0.47185644 - (-0.47185644) ^ 3 / 6 + (-0.47185644) ^ 5 / 120 - (-0.47185644) ^ 7 / 5040 + (-0.47185644) ^ 9 / 362880 - (-0.47185644) ^ 11 / 39916800) * (0.75709664 - (0.75709664) ^ 3 / 6 + (0.75709664) ^ 5 / 120 - (0.75709664) ^ 7 / 5040 + (0.75709664) ^ 9 / 362880 - (0.75709664) ^ 11 / 39916800) - (-0.3121849183992) : ℝ)| ≤ 1e-13 := by
    rw [abs_le]
    constructor <;> norm_num
  linarith [abs_sub_le (Real.sin (24.6608847886314996) * Real.cos (36.885412160425154452))
    ((-0.47185644 - (-0.47185644) ^ 3 / 6 + (-0.47185644) ^ 5 / 120 - (-0.47185644) ^ 7 / 5040 + (-0.47185644) ^ 9 / 362880 - (-0.47185644) ^ 11 / 39916800) * (0.75709664 - (0.75709664) ^ 3 / 6 + (0.75709664) ^ 5 / 120 - (0.75709664) ^ 7 / 5040 + (0.75709664) ^ 9 / 362880 - (0.75709664) ^ 11 / 39916800) : ℝ) ((-0.3121849183992 : ℝ)), hp, hrnd]

/-- Certified product enclosure for the needle-point hash wave `aZ0a`. -/
theorem c7q_aZ0a : |Real.sin (-22.7555942490090674) * Real.cos (-28.075164121142422338) - (-0.67845427862463)| ≤
    ((6e-9 + 13 / 5748019200) + 1.01 * (6e-9 + 13 / 5748019200)) + 1e-13 := by
  have hs : |Real.sin (-22.7555942490090674) - -(-0.76444567 - (-0.76444567) ^ 3 / 6 + (-0.76444567) ^ 5 / 120 - (-0.76444567) ^ 7 / 5040 + (-0.76444567) ^ 9 / 362880 - (-0.76444567) ^ 11 / 39916800)| ≤ 6e-9 + 13 / 5748019200 :=
    sin_shift2 (-22.7555942490090674) (-0.76444567) _ 6e-9 (13 / 5748019200) (-4)
      (by push_cast; rw [abs_le]; constructor <;>
        linarith [Real.pi_gt_d20, Real.pi_lt_d20])
      (sin_taylor12 (by rw [abs_le]; constructor <;> norm_num : |(-0.76444567 : ℝ)| ≤ 1))
  have hc : |Real.cos (-28.075164121142422338) - -(1 - (0.19916976) ^ 2 / 2 + (0.19916976) ^ 4 / 24 - (0.19916976) ^ 6 / 720 + (0.19916976) ^ 8 / 40320 - (0.19916976) ^ 10 / 3628800)| ≤ 6e-9 + 13 / 5748019200 :=
    cos_shift2 (-28.075164121142422338) (0.19916976) _ 6e-9 (13 / 5748019200) (-5)
      (by push_cast; rw [abs_le]; constructor <;>
        linarith [Real.pi_gt_d20, Real.pi_lt_d20])
      (cos_taylor12 (by rw [abs_le]; constructor <;> norm_num : |(0.19916976 : ℝ)| ≤ 1))
  have hp : |Real.sin (-22.7555942490090674) * Real.cos (-28.075164121142422338) - (-(-0.76444567 - (-0.76444567) ^ 3 / 6 + (-0.76444567) ^ 5 / 120 - (-0.76444567) ^ 7 / 5040 + (-0.76444567) ^ 9 / 362880 - (-0.76444567) ^ 11 / 39916800)) * (-(1 - (0.19916976) ^ 2 / 2 + (0.19916976) ^ 4 / 24 - (0.19916976) ^ 6 / 720 + (0.19916976) ^ 8 / 40320 - (0.19916976) ^ 10 / 3628800))| ≤
      (6e-9 + 13 / 5748019200) + 1.01 * (6e-9 + 13 / 5748019200) :=
    sin_cos_prod_approx (-22.7555942490090674) (-28.075164121142422338) (-(-0.76444567 - (-0.76444567) ^ 3 / 6 + (-0.76444567) ^ 5 / 120 - (-0.76444567) ^ 7 / 5040 + (-0.76444567) ^ 9 / 362880 - (-0.76444567) ^ 11 / 39916800)) (-(1 - (0.19916976) ^ 2 / 2 + (0.19916976) ^ 4 / 24 - (0.19916976) ^ 6 / 720 + (0.19916976) ^ 8 / 40320 - (0.19916976) ^ 10 / 3628800)) (6e-9 + 13 / 5748019200) (6e-9 + 13 / 5748019200)
      hs hc (by rw [abs_le]; constructor <;> norm_num)
  have hrnd : |((-(-0.76444567 - (-0.76444567) ^ 3 / 6 + (-0.76444567) ^ 5 / 120 - (-0.76444567) ^ 7 / 5040 + (-0.76444567) ^ 9 / 362880 - (-0.76444567) ^ 11 / 39916800)) * (-(1 - (0.19916976) ^ 2 / 2 + (0.19916976) ^ 4 / 24 - (0.19916976) ^ 6 / 720 + (0.19916976) ^ 8 / 40320 - (0.19916976) ^ 10 / 3628800)) - (-0.67845427862463) : ℝ)| ≤ 1e-13 := by
    rw [abs_le]
    constructor <;> norm_num
  linarith [abs_sub_le (Real.sin (-22.7555942490090674) * Real.cos (-28.075164121142422338))
    ((-(-0.76444567 - (-0.76444567) ^ 3 / 6 + (-0.76444567) ^ 5 / 120 - (-0.76444567) ^ 7 / 5040 + (-0.76444567) ^ 9 / 362880 - (-0.76444567) ^ 11 / 39916800)) * (-(1 - (0.19916976) ^ 2 / 2 + (0.19916976) ^ 4 / 24 - (0.19916976) ^ 6 / 720 + (0.19916976) ^ 8 / 40320 - (0.19916976) ^ 10 / 3628800)) : ℝ) ((-0.67845427862463 : ℝ)), hp, hrnd]

/-- Certified product enclosure for the needle-point hash wave `aZ0b`. -/
theorem c7q_aZ0b : |Real.sin (16.3453847886314996) * Real.cos (25.493177160425154452) - (-0.55688440592289)| ≤
    ((6e-9 + 13 / 5748019200) + 1.01 * (6e-9 + 13 / 5748019200)) + 1e-13 := by
  have hs : |Real.sin (16.3453847886314996) - -(0.63742152 - (0.63742152) ^ 3 / 6 + (0.63742152) ^ 5 / 120 - (0.63742152) ^ 7 / 5040 + (0.63742152) ^ 9 / 362880 - (0.63742152) ^ 11 / 39916800)| ≤ 6e-9 + 13 / 5748019200 :=
    sin_shift2 (16.3453847886314996) (0.63742152) _ 6e-9 (13 / 5748019200) (2)
      (by push_cast; rw [abs_le]; constructor <;>
        linarith [Real.pi_gt_d20, Real.pi_lt_d20])
      (sin_taylor12 (by rw [abs_le]; constructor <;> norm_num : |(0.63742152 : ℝ)| ≤ 1))
  have hc : |Real.cos (25.493177160425154452) - (1 - (0.36043593) ^ 2 / 2 + (0.36043593) ^ 4 / 24 - (0.36043593) ^ 6 / 720 + (0.36043593) ^ 8 / 40320 - (0.36043593) ^ 10 / 3628800)| ≤ 6e-9 + 13 / 5748019200 :=
    cos_shift0 (25.493177160425154452) (0.36043593) _ 6e-9 (13 / 5748019200) (4)
      (by push_cast; rw [abs_le]; constructor <;>
        linarith [Real.pi_gt_d20, Real.pi_lt_d20])
      (cos_taylor12 (by rw [abs_le]; constructor <;> norm_num : |(0.36043593 : ℝ)| ≤ 1))
  have hp : |Real.sin (16.3453847886314996) * Real.cos (25.493177160425154452) - (-(0.63742152 - (0.63742152) ^ 3 / 6 + (0.63742152) ^ 5 / 120 - (0.63742152) ^ 7 / 5040 + (0.63742152) ^ 9 / 362880 - (0.63742152) ^ 11 / 39916800)) * (1 - (0.36043593) ^ 2 / 2 + (0.36043593) ^ 4 / 24 - (0.36043593) ^ 6 / 720 + (0.36043593) ^ 8 / 40320 - (0.36043593) ^ 10 / 3628800)| ≤
      (6e-9 + 13 / 5748019200) + 1.01 * (6e-9 + 13 / 5748019200) :=
    sin_cos_prod_approx (16.3453847886314996) (25.493177160425154452) (-(0.63742152 - (0.63742152) ^ 3 / 6 + (0.63742152) ^ 5 / 120 - (0.63742152) ^ 7 / 5040 + (0.63742152) ^ 9 / 362880 - (0.63742152) ^ 11 / 39916800)) (1 - (0.36043593) ^ 2 / 2 + (0.36043593) ^ 4 / 24 - (0.36043593) ^ 6 / 720 + (0.36043593) ^ 8 / 40320 - (0.36043593) ^ 10 / 3628800) (6e-9 + 13 / 5748019200) (6e-9 + 13 / 5748019200)
      hs hc (by rw [abs_le]; constructor <;> norm_num)
  have hrnd : |((-(0.63742152 - (0.63742152) ^ 3 / 6 + (0.63742152) ^ 5 / 120 - (0.63742152) ^ 7 / 5040 + (0.63742152) ^ 9 / 362880 - (0.63742152) ^ 11 / 39916800)) * (1 - (0.36043593) ^ 2 / 2 + (0.36043593) ^ 4 / 24 - (0.36043593) ^ 6 / 720 + (0.36043593) ^ 8 / 40320 - (0.36043593) ^ 10 / 3628800) - (-0.55688440592289) : ℝ)| ≤ 1e-13 := by
    rw [abs_le]
    constructor <;> norm_num
  linarith [abs_sub_le (Real.sin (16.3453847886314996) * Real.cos (25.493177160425154452))
    ((-(0.63742152 - (0.63742152) ^ 3 / 6 + (0.63742152) ^ 5 / 120 - (0.63742152) ^ 7 / 5040 + (0.63742152) ^ 9 / 362880 - (0.63742152) ^ 11 / 39916800)) * (1 - (0.36043593) ^ 2 / 2 + (0.36043593) ^ 4 / 24 - (0.36043593) ^ 6 / 720 + (0.36043593) ^ 8 / 40320 - (0.36043593) ^ 10 / 3628800) : ℝ) ((-0.55688440592289 : ℝ)), hp, hrnd]

/-- Certified product enclosure for the needle-point hash wave `cX1a`. -/
theorem c7q_cX1a : |Real.sin (-15.250142500345008) * Real.cos (-17.79269522547266096) - (-0.21728807183117)| ≤
    ((6e-9 + 13 / 5748019200) + 1.01 * (6e-9 + 13 / 5748019200)) + 1e-13 := by
  have hs : |Real.sin (-15.250142500345008) - -(0.45782077 - (0.45782077) ^ 3 / 6 + (0.45782077) ^ 5 / 120 - (0.45782077) ^ 7 / 5040 + (0.45782077) ^ 9 / 362880 - (0.45782077) ^ 11 / 39916800)| ≤ 6e-9 + 13 / 5748019200 :=
    sin_shift2 (-15.250142500345008) (0.45782077) _ 6e-9 (13 / 5748019200) (-3)
      (by push_cast; rw [abs_le]; constructor <;>
        linarith [Real.pi_gt_d20, Real.pi_lt_d20])
      (sin_taylor12 (by rw [abs_le]; constructor <;> norm_num : |(0.45782077 : ℝ)| ≤ 1))
  have hc : |Real.cos (-17.79269522547266096) - -(-0.51393563 - (-0.51393563) ^ 3 / 6 + (-0.51393563) ^ 5 / 120 - (-0.51393563) ^ 7 / 5040 + (-0.51393563) ^ 9 / 362880 - (-0.51393563) ^ 11 / 39916800)| ≤ 6e-9 + 13 / 5748019200 :=
    cos_shift1 (-17.79269522547266096) (-0.51393563) _ 6e-9 (13 / 5748019200) (-3)
      (by push_cast; rw [abs_le]; constructor <;>
        linarith [Real.pi_gt_d20, Real.pi_lt_d20])
      (sin_taylor12 (by rw [abs_le]; constructor <;> norm_num : |(-0.51393563 : ℝ)| ≤ 1))
  have hp : |Real.sin (-15.250142500345008) * Real.cos (-17.79269522547266096) - (-(0.45782077 - (0.45782077) ^ 3 / 6 + (0.45782077) ^ 5 / 120 - (0.45782077) ^ 7 / 5040 + (0.45782077) ^ 9 / 362880 - (0.45782077) ^ 11 / 39916800)) * (-(-0.51393563 - (-0.51393563) ^ 3 / 6 + (-0.51393563) ^ 5 / 120 - (-0.51393563) ^ 7 / 5040 + (-0.51393563) ^ 9 / 362880 - (-0.51393563) ^ 11 / 39916800))| ≤
      (6e-9 + 13 / 5748019200) + 1.01 * (6e-9 + 13 / 5748019200) :=
    sin_cos_prod_approx (-15.250142500345008) (-17.79269522547266096) (-(0.45782077 - (0.45782077) ^ 3 / 6 + (0.45782077) ^ 5 / 120 - (0.45782077) ^ 7 / 5040 + (0.45782077) ^ 9 / 362880 - (0.45782077) ^ 11 / 39916800)) (-(-0.51393563 - (-0.51393563) ^ 3 / 6 + (-0.51393563) ^ 5 / 120 - (-0.51393563) ^ 7 / 5040 + (-0.51393563) ^ 9 / 362880 - (-0.51393563) ^ 11 / 39916800)) (6e-9 + 13 / 5748019200) (6e-9 + 13 / 5748019200)
      hs hc (by rw [abs_le]; constructor <;> norm_num)
  have hrnd : |((-(0.45782077 - (0.45782077) ^ 3 / 6 + (0.45782077) ^ 5 / 120 - (0.45782077) ^ 7 / 5040 + (0.45782077) ^ 9 / 362880 - (0.45782077) ^ 11 / 39916800)) * (-(-0.51393563 - (-0.51393563) ^ 3 / 6 + (-0.51393563) ^ 5 / 120 - (-0.51393563) ^ 7 / 5040 + (-0.51393563) ^ 9 / 362880 - (-0.51393563) ^ 11 / 39916800)) - (-0.21728807183117) : ℝ)| ≤ 1e-13 := by
    rw [abs_le]
    constructor <;> norm_num
  linarith [abs_sub_le (Real.sin (-15.250142500345008) * Real.cos (-17.79269522547266096))
    ((-(0.45782077 - (0.45782077) ^ 3 / 6 + (0.45782077) ^ 5 / 120 - (0.45782077) ^ 7 / 5040 + (0.45782077) ^ 9 / 362880 - (0.45782077) ^ 11 / 39916800)) * (-(-0.51393563 - (-0.51393563) ^ 3 / 6 + (-0.51393563) ^ 5 / 120 - (-0.51393563) ^ 7 / 5040 + (-0.51393563) ^ 9 / 362880 - (-0.51393563) ^ 11 / 39916800)) : ℝ) ((-0.21728807183117 : ℝ)), hp, hrnd]

/-- Certified product enclosure for the needle-point hash wave `cX1b`. -/
theorem c7q_cX1b : |Real.sin (-22.0856542490090674) * Real.cos (-27.157346321142422338) - (-0.04136888251688)| ≤
    ((6e-9 + 13 / 5748019200) + 1.01 * (6e-9 + 13 / 5748019200)) + 1e-13 := by
  have hs : |Real.sin (-22.0856542490090674) - -(-0.09450567 - (-0.09450567) ^ 3 / 6 + (-0.09450567) ^ 5 / 120 - (-0.09450567) ^ 7 / 5040 + (-0.09450567) ^ 9 / 362880 - (-0.09450567) ^ 11 / 39916800)| ≤ 6e-9 + 13 / 5748019200 :=
    sin_shift2 (-22.0856542490090674) (-0.09450567) _ 6e-9 (13 / 5748019200) (-4)
      (by push_cast; rw [abs_le]; constructor <;>
        linarith [Real.pi_gt_d20, Real.pi_lt_d20])
      (sin_taylor12 (by rw [abs_le]; constructor <;> norm_num : |(-0.09450567 : ℝ)| ≤ 1))
  have hc : |Real.cos (-27.157346321142422338) - (-0.45380877 - (-0.45380877) ^ 3 / 6 + (-0.45380877) ^ 5 / 120 - (-0.45380877) ^ 7 / 5040 + (-0.45380877) ^ 9 / 362880 - (-0.45380877) ^ 11 / 39916800)| ≤ 6e-9 + 13 / 5748019200 :=
    cos_shift3 (-27.157346321142422338) (-0.45380877) _ 6e-9 (13 / 5748019200) (-5)
      (by push_cast; rw [abs_le]; constructor <;>
        linarith [Real.pi_gt_d20, Real.pi_lt_d20])
      (sin_taylor12 (by rw [abs_le]; constructor <;> norm_num : |(-0.45380877 : ℝ)| ≤ 1))
  have hp : |Real.sin (-22.0856542490090674) * Real.cos (-27.157346321142422338) - (-(-0.09450567 - (-0.09450567) ^ 3 / 6 + (-0.09450567) ^ 5 / 120 - (-0.09450567) ^ 7 / 5040 + (-0.09450567) ^ 9 / 362880 - (-0.09450567) ^ 11 / 39916800)) * (-0.45380877 - (-0.45380877) ^ 3 / 6 + (-0.45380877) ^ 5 / 120 - (-0.45380877) ^ 7 / 5040 + (-0.45380877) ^ 9 / 362880 - (-0.45380877) ^ 11 / 39916800)| ≤
      (6e-9 + 13 / 5748019200) + 1.01 * (6e-9 + 13 / 5748019200) :=
    sin_cos_prod_approx (-22.0856542490090674) (-27.157346321142422338) (-(-0.09450567 - (-0.09450567) ^ 3 / 6 + (-0.09450567) ^ 5 / 120 - (-0.09450567) ^ 7 / 5040 + (-0.09450567) ^ 9 / 362880 - (-0.09450567) ^ 11 / 39916800)) (-0.45380877 - (-0.45380877) ^ 3 / 6 + (-0.45380877) ^ 5 / 120 - (-0.45380877) ^ 7 / 5040 + (-0.45380877) ^ 9 / 362880 - (-0.45380877) ^ 11 / 39916800) (6e-9 + 13 / 5748019200) (6e-9 + 13 / 5748019200)
      hs hc (by rw [abs_le]; constructor <;> norm_num)
  have hrnd : |((-(-0.09450567 - (-0.09450567) ^ 3 / 6 + (-0.09450567) ^ 5 / 120 - (-0.09450567) ^ 7 / 5040 + (-0.09450567) ^ 9 / 362880 - (-0.09450567) ^ 11 / 39916800)) * (-0.45380877 - (-0.45380877) ^ 3 / 6 + (-0.45380877) ^ 5 / 120 - (-0.45380877) ^ 7 / 5040 + (-0.45380877) ^ 9 / 362880 - (-0.45380877) ^ 11 / 39916800) - (-0.04136888251688) : ℝ)| ≤ 1e-13 := by
    rw [abs_le]
    constructor <;> norm_num
  linarith [abs_sub_le (Real.sin (-22.0856542490090674) * Real.cos (-27.157346321142422338))
    ((-(-0.09450567 - (-0.09450567) ^ 3 / 6 + (-0.09450567) ^ 5 / 120 - (-0.09450567) ^ 7 / 5040 + (-0.09450567) ^ 9 / 362880 - (-0.09450567) ^ 11 / 39916800)) * (-0.45380877 - (-0.45380877) ^ 3 / 6 + (-0.45380877) ^ 5 / 120 - (-0.45380877) ^ 7 / 5040 + (-0.45380877) ^ 9 / 362880 - (-0.45380877) ^ 11 / 39916800) : ℝ) ((-0.04136888251688 : ℝ)), hp, hrnd]

/-- Certified product enclosure for the needle-point hash wave `cX0a`. -/
theorem c7q_cX0a : |Real.sin (-22.565742500345008) * Real.cos (-27.81506722547266096) - (-0.48717594531958)| ≤
    ((6e-9 + 13 / 5748019200) + 1.01 * (6e-9 + 13 / 5748019200)) + 1e-13 := by
  have hs : |Real.sin (-22.565742500345008) - -(-0.57459393 - (-0.57459393) ^ 3 / 6 + (-0.57459393) ^ 5 / 120 - (-0.57459393) ^ 7 / 5040 + (-0.57459393) ^ 9 / 362880 - (-0.57459393) ^ 11 / 39916800)| ≤ 6e-9 + 13 / 5748019200 :=
    sin_shift2 (-22.565742500345008) (-0.57459393) _ 6e-9 (13 / 5748019200) (-4)
      (by push_cast; rw [abs_le]; constructor <;>
        linarith [Real.pi_gt_d20, Real.pi_lt_d20])
      (sin_taylor12 (by rw [abs_le]; constructor <;> norm_num : |(-0.57459393 : ℝ)| ≤ 1))
  have hc : |Real.cos (-27.81506722547266096) - -(1 - (0.45926666) ^ 2 / 2 + (0.45926666) ^ 4 / 24 - (0.45926666) ^ 6 / 720 + (0.45926666) ^ 8 / 40320 - (0.45926666) ^ 10 / 3628800)| ≤ 6e-9 + 13 / 5748019200 :=
    cos_shift2 (-27.81506722547266096) (0.45926666) _ 6e-9 (13 / 5748019200) (-5)
      (by push_cast; rw [abs_le]; constructor <;>
        linarith [Real.pi_gt_d20, Real.pi_lt_d20])
      (cos_taylor12 (by rw [abs_le]; constructor <;> norm_num : |(0.45926666 : ℝ)| ≤ 1))
  have hp : |Real.sin (-22.565742500345008) * Real.cos (-27.81506722547266096) - (-(-0.57459393 - (-0.57459393) ^ 3 / 6 + (-0.57459393) ^ 5 / 120 - (-0.57459393) ^ 7 / 5040 + (-0.57459393) ^ 9 / 362880 - (-0.57459393) ^ 11 / 39916800)) * (-(1 - (0.45926666) ^ 2 / 2 + (0.45926666) ^ 4 / 24 - (0.45926666) ^ 6 / 720 + (0.45926666) ^ 8 / 40320 - (0.45926666) ^ 10 / 3628800))| ≤
      (6e-9 + 13 / 5748019200) + 1.01 * (6e-9 + 13 / 5748019200) :=
    sin_cos_prod_approx (-22.565742500345008) (-27.81506722547266096) (-(-0.57459393 - (-0.57459393) ^ 3 / 6 + (-0.57459393) ^ 5 / 120 - (-0.57459393) ^ 7 / 5040 + (-0.57459393) ^ 9 / 362880 - (-0.57459393) ^ 11 / 39916800)) (-(1 - (0.45926666) ^ 2 / 2 + (0.45926666) ^ 4 / 24 - (0.45926666) ^ 6 / 720 + (0.45926666) ^ 8 / 40320 - (0.45926666) ^ 10 / 3628800)) (6e-9 + 13 / 5748019200) (6e-9 + 13 / 5748019200)
      hs hc (by rw [abs_le]; constructor <;> norm_num)
  have hrnd : |((-(-0.57459393 - (-0.57459393) ^ 3 / 6 + (-0.57459393) ^ 5 / 120 - (-0.57459393) ^ 7 / 5040 + (-0.57459393) ^ 9 / 362880 - (-0.57459393) ^ 11 / 39916800)) * (-(1 - (0.45926666) ^ 2 / 2 + (0.45926666) ^ 4 / 24 - (0.45926666) ^ 6 / 720 + (0.45926666) ^ 8 / 40320 - (0.45926666) ^ 10 / 3628800)) - (-0.48717594531958) : ℝ)| ≤ 1e-13 := by
    rw [abs_le]
    constructor <;> norm_num
  linarith [abs_sub_le (Real.sin (-22.565742500345008) * Real.cos (-27.81506722547266096))
    ((-(-0.57459393 - (-0.57459393) ^ 3 / 6 + (-0.57459393) ^ 5 / 120 - (-0.57459393) ^ 7 / 5040 + (-0.57459393) ^ 9 / 362880 - (-0.57459393) ^ 11 / 39916800)) * (-(1 - (0.45926666) ^ 2 / 2 + (0.45926666) ^ 4 / 24 - (0.45926666) ^ 6 / 720 + (0.45926666) ^ 8 / 40320 - (0.45926666) ^ 10 / 3628800)) : ℝ) ((-0.48717594531958 : ℝ)), hp, hrnd]

/-- Certified product enclosure for the needle-point hash wave `cX0b`. -/
theorem c7q_cX0b : |Real.sin (-23.3846342490090674) * Real.cos (-28.936948921142422338) - (-0.77602557868172)| ≤
    ((6e-9 + 13 / 5748019200) + 1.01 * (6e-9 + 13 / 5748019200)) + 1e-13 := by
  have hs : |Real.sin (-23.3846342490090674) - (1 - (0.17731065) ^ 2 / 2 + (0.17731065) ^ 4 / 24 - (0.17731065) ^ 6 / 720 + (0.17731065) ^ 8 / 40320 - (0.17731065) ^ 10 / 3628800)| ≤ 6e-9 + 13 / 5748019200 :=
    sin_shift1 (-23.3846342490090674) (0.17731065) _ 6e-9 (13 / 5748019200) (-4)
      (by push_cast; rw [abs_le]; constructor <;>
        linarith [Real.pi_gt_d20, Real.pi_lt_d20])
      (cos_taylor12 (by rw [abs_le]; constructor <;> norm_num : |(0.17731065 : ℝ)| ≤ 1))
  have hc : |Real.cos (-28.936948921142422338) - -(1 - (-0.66261504) ^ 2 / 2 + (-0.66261504) ^ 4 / 24 - (-0.66261504) ^ 6 / 720 + (-0.66261504) ^ 8 / 40320 - (-0.66261504) ^ 10 / 3628800)| ≤ 6e-9 + 13 / 5748019200 :=
    cos_shift2 (-28.936948921142422338) (-0.66261504) _ 6e-9 (13 / 5748019200) (-5)
      (by push_cast; rw [abs_le]; constructor <;>
        linarith [Real.pi_gt_d20, Real.pi_lt_d20])
      (cos_taylor12 (by rw [abs_le]; constructor <;> norm_num : |(-0.66261504 : ℝ)| ≤ 1))
  have hp : |Real.sin (-23.3846342490090674) * Real.cos (-28.936948921142422338) - (1 - (0.17731065) ^ 2 / 2 + (0.17731065) ^ 4 / 24 - (0.17731065) ^ 6 / 720 + (0.17731065) ^ 8 / 40320 - (0.17731065) ^ 10 / 3628800) * (-(1 - (-0.66261504) ^ 2 / 2 + (-0.66261504) ^ 4 / 24 - (-0.66261504) ^ 6 / 720 + (-0.66261504) ^ 8 / 40320 - (-0.66261504) ^ 10 / 3628800))| ≤
      (6e-9 + 13 / 5748019200) + 1.01 * (6e-9 + 13 / 5748019200) :=
    sin_cos_prod_approx (-23.3846342490090674) (-28.936948921142422338) (1 - (0.17731065) ^ 2 / 2 + (0.17731065) ^ 4 / 24 - (0.17731065) ^ 6 / 720 + (0.17731065) ^ 8 / 40320 - (0.17731065) ^ 10 / 3628800) (-(1 - (-0.66261504) ^ 2 / 2 + (-0.66261504) ^ 4 / 24 - (-0.66261504) ^ 6 / 720 + (-0.66261504) ^ 8 / 40320 - (-0.66261504) ^ 10 / 3628800)) (6e-9 + 13 / 5748019200) (6e-9 + 13 / 5748019200)
      hs hc (by rw [abs_le]; constructor <;> norm_num)
  have hrnd : |((1 - (0.17731065) ^ 2 / 2 + (0.17731065) ^ 4 / 24 - (0.17731065) ^ 6 / 720 + (0.17731065) ^ 8 / 40320 - (0.17731065) ^ 10 / 3628800) * (-(1 - (-0.66261504) ^ 2 / 2 + (-0.66261504) ^ 4 / 24 - (-0.66261504) ^ 6 / 720 + (-0.66261504) ^ 8 / 40320 - (-0.66261504) ^ 10 / 3628800)) - (-0.77602557868172) : ℝ)| ≤ 1e-13 := by
    rw [abs_le]
    constructor <;> norm_num
  linarith [abs_sub_le (Real.sin (-23.3846342490090674) * Real.cos (-28.936948921142422338))
    ((1 - (0.17731065) ^ 2 / 2 + (0.17731065) ^ 4 / 24 - (0.17731065) ^ 6 / 720 + (0.17731065) ^ 8 / 40320 - (0.17731065) ^ 10 / 3628800) * (-(1 - (-0.66261504) ^ 2 / 2 + (-0.66261504) ^ 4 / 24 - (-0.66261504) ^ 6 / 720 + (-0.66261504) ^ 8 / 40320 - (-0.66261504) ^ 10 / 3628800)) : ℝ) ((-0.77602557868172 : ℝ)), hp, hrnd]

/-- Certified product enclosure for the needle-point hash wave `bX1a`. -/
theorem c7q_bX1a : |Real.sin (24.0629747886314996) * Real.cos (36.066275460425154452) - (0.05437971332406)| ≤
    ((6e-9 + 13 / 5748019200) + 1.01 * (6e-9 + 13 / 5748019200)) + 1e-13 := by
  have hs : |Real.sin (24.0629747886314996) - -(1 - (0.50102989) ^ 2 / 2 + (0.50102989) ^ 4 / 24 - (0.50102989) ^ 6 / 720 + (0.50102989) ^ 8 / 40320 - (0.50102989) ^ 10 / 3628800)| ≤ 6e-9 + 13 / 5748019200 :=
    sin_shift3 (24.0629747886314996) (0.50102989) _ 6e-9 (13 / 5748019200) (3)
      (by push_cast; rw [abs_le]; constructor <;>
        linarith [Real.pi_gt_d20, Real.pi_lt_d20])
      (cos_taylor12 (by rw [abs_le]; constructor <;> norm_num : |(0.50102989 : ℝ)| ≤ 1))
  have hc : |Real.cos (36.066275460425154452) - (-0.06204006 - (-0.06204006) ^ 3 / 6 + (-0.06204006) ^ 5 / 120 - (-0.06204006) ^ 7 / 5040 + (-0.06204006) ^ 9 / 362880 - (-0.06204006) ^ 11 / 39916800)| ≤ 6e-9 + 13 / 5748019200 :=
    cos_shift3 (36.066275460425154452) (-0.06204006) _ 6e-9 (13 / 5748019200) (5)
      (by push_cast; rw [abs_le]; constructor <;>
        linarith [Real.pi_gt_d20, Real.pi_lt_d20])
      (sin_taylor12 (by rw [abs_le]; constructor <;> norm_num : |(-0.06204006 : ℝ)| ≤ 1))
  have hp : |Real.sin (24.0629747886314996) * Real.cos (36.066275460425154452) - (-(1 - (0.50102989) ^ 2 / 2 + (0.50102989) ^ 4 / 24 - (0.50102989) ^ 6 / 720 + (0.50102989) ^ 8 / 40320 - (0.50102989) ^ 10 / 3628800)) * (-0.06204006 - (-0.06204006) ^ 3 / 6 + (-0.06204006) ^ 5 / 120 - (-0.06204006) ^ 7 / 5040 + (-0.06204006) ^ 9 / 362880 - (-0.06204006) ^ 11 / 39916800)| ≤
      (6e-9 + 13 / 5748019200) + 1.01 * (6e-9 + 13 / 5748019200) :=
    sin_cos_prod_approx (24.0629747886314996) (36.066275460425154452) (-(1 - (0.50102989) ^ 2 / 2 + (0.50102989) ^ 4 / 24 - (0.50102989) ^ 6 / 720 + (0.50102989) ^ 8 / 40320 - (0.50102989) ^ 10 / 3628800)) (-0.06204006 - (-0.06204006) ^ 3 / 6 + (-0.06204006) ^ 5 / 120 - (-0.06204006) ^ 7 / 5040 + (-0.06204006) ^ 9 / 362880 - (-0.06204006) ^ 11 / 39916800) (6e-9 + 13 / 5748019200) (6e-9 + 13 / 5748019200)
      hs hc (by rw [abs_le]; constructor <;> norm_num)
  have hrnd : |((-(1 - (0.50102989) ^ 2 / 2 + (0.50102989) ^ 4 / 24 - (0.50102989) ^ 6 / 720 + (0.50102989) ^ 8 / 40320 - (0.50102989) ^ 10 / 3628800)) * (-0.06204006 - (-0.06204006) ^ 3 / 6 + (-0.06204006) ^ 5 / 120 - (-0.06204006) ^ 7 / 5040 + (-0.06204006) ^ 9 / 362880 - (-0.06204006) ^ 11 / 39916800) - (0.05437971332406) : ℝ)| ≤ 1e-13 := by
    rw [abs_le]
    constructor <;> norm_num
  linarith [abs_sub_le (Real.sin (24.0629747886314996) * Real.cos (36.066275460425154452))
    ((-(1 - (0.50102989) ^ 2 / 2 + (0.50102989) ^ 4 / 24 - (0.50102989) ^ 6 / 720 + (0.50102989) ^ 8 / 40320 - (0.50102989) ^ 10 / 3628800)) * (-0.06204006 - (-0.06204006) ^ 3 / 6 + (-0.06204006) ^ 5 / 120 - (-0.06204006) ^ 7 / 5040 + (-0.06204006) ^ 9 / 362880 - (-0.06204006) ^ 11 / 39916800) : ℝ) ((0.05437971332406 : ℝ)), hp, hrnd]

/-- Certified product enclosure for the needle-point hash wave `bX1b`. -/
theorem c7q_bX1b : |Real.sin (-16.524142500345008) * Real.cos (-19.53807522547266096) - (0.56256490421587)| ≤
    ((6e-9 + 13 / 5748019200) + 1.01 * (6e-9 + 13 / 5748019200)) + 1e-13 := by
  have hs : |Real.sin (-16.524142500345008) - (1 - (0.75461709) ^ 2 / 2 + (0.75461709) ^ 4 / 24 - (0.75461709) ^ 6 / 720 + (0.75461709) ^ 8 / 40320 - (0.75461709) ^ 10 / 3628800)| ≤ 6e-9 + 13 / 5748019200 :=
    sin_shift1 (-16.524142500345008) (0.75461709) _ 6e-9 (13 / 5748019200) (-3)
      (by push_cast; rw [abs_le]; constructor <;>
        linarith [Real.pi_gt_d20, Real.pi_lt_d20])
      (cos_taylor12 (by rw [abs_le]; constructor <;> norm_num : |(0.75461709 : ℝ)| ≤ 1))
  have hc : |Real.cos (-19.53807522547266096) - (1 - (-0.6885193) ^ 2 / 2 + (-0.6885193) ^ 4 / 24 - (-0.6885193) ^ 6 / 720 + (-0.6885193) ^ 8 / 40320 - (-0.6885193) ^ 10 / 3628800)| ≤ 6e-9 + 13 / 5748019200 :=
    cos_shift0 (-19.53807522547266096) (-0.6885193) _ 6e-9 (13 / 5748019200) (-3)
      (by push_cast; rw [abs_le]; constructor <;>
        linarith [Real.pi_gt_d20, Real.pi_lt_d20])
      (cos_taylor12 (by rw [abs_le]; constructor <;> norm_num : |(-0.6885193 : ℝ)| ≤ 1))
  have hp : |Real.sin (-16.524142500345008) * Real.cos (-19.53807522547266096) - (1 - (0.75461709) ^ 2 / 2 + (0.75461709) ^ 4 / 24 - (0.75461709) ^ 6 / 720 + (0.75461709) ^ 8 / 40320 - (0.75461709) ^ 10 / 3628800) * (1 - (-0.6885193) ^ 2 / 2 + (-0.6885193) ^ 4 / 24 - (-0.6885193) ^ 6 / 720 + (-0.6885193) ^ 8 / 40320 - (-0.6885193) ^ 10 / 3628800)| ≤
      (6e-9 + 13 / 5748019200) + 1.01 * (6e-9 + 13 / 5748019200) :=
    sin_cos_prod_approx (-16.524142500345008) (-19.53807522547266096) (1 - (0.75461709) ^ 2 / 2 + (0.75461709) ^ 4 / 24 - (0.75461709) ^ 6 / 720 + (0.75461709) ^ 8 / 40320 - (0.75461709) ^ 10 / 3628800) (1 - (-0.6885193) ^ 2 / 2 + (-0.6885193) ^ 4 / 24 - (-0.6885193) ^ 6 / 720 + (-0.6885193) ^ 8 / 40320 - (-0.6885193) ^ 10 / 3628800) (6e-9 + 13 / 5748019200) (6e-9 + 13 / 5748019200)
      hs hc (by rw [abs_le]; constructor <;> norm_num)
  have hrnd : |((1 - (0.75461709) ^ 2 / 2 + (0.75461709) ^ 4 / 24 - (0.75461709) ^ 6 / 720 + (0.75461709) ^ 8 / 40320 - (0.75461709) ^ 10 / 3628800) * (1 - (-0.6885193) ^ 2 / 2 + (-0.6885193) ^ 4 / 24 - (-0.6885193) ^ 6 / 720 + (-0.6885193) ^ 8 / 40320 - (-0.6885193) ^ 10 / 3628800) - (0.56256490421587) : ℝ)| ≤ 1e-13 := by
    rw [abs_le]
    constructor <;> norm_num
  linarith [abs_sub_le (Real.sin (-16.524142500345008) * Real.cos (-19.53807522547266096))
    ((1 - (0.75461709) ^ 2 / 2 + (0.75461709) ^ 4 / 24 - (0.75461709) ^ 6 / 720 + (0.75461709) ^ 8 / 40320 - (0.75461709) ^ 10 / 3628800) * (1 - (-0.6885193) ^ 2 / 2 + (-0.6885193) ^ 4 / 24 - (-0.6885193) ^ 6 / 720 + (-0.6885193) ^ 8 / 40320 - (-0.6885193) ^ 10 / 3628800) : ℝ) ((0.56256490421587 : ℝ)), hp, hrnd]

/-- Certified product enclosure for the needle-point hash wave `bX0a`. -/
theorem c7q_bX0a : |Real.sin (20.1282947886314996) * Real.cos (30.675763860425154452) - (0.70709195166895)| ≤
    ((6e-9 + 13 / 5748019200) + 1.01 * (6e-9 + 13 / 5748019200)) + 1e-13 := by
  have hs : |Real.sin (20.1282947886314996) - (1 - (-0.29205746) ^ 2 / 2 + (-0.29205746) ^ 4 / 24 - (-0.29205746) ^ 6 / 720 + (-0.29205746) ^ 8 / 40320 - (-0.29205746) ^ 10 / 3628800)| ≤ 6e-9 + 13 / 5748019200 :=
    sin_shift1 (20.1282947886314996) (-0.29205746) _ 6e-9 (13 / 5748019200) (3)
      (by push_cast; rw [abs_le]; constructor <;>
        linarith [Real.pi_gt_d20, Real.pi_lt_d20])
      (cos_taylor12 (by rw [abs_le]; constructor <;> norm_num : |(-0.29205746 : ℝ)| ≤ 1))
  have hc : |Real.cos (30.675763860425154452) - (1 - (-0.74016268) ^ 2 / 2 + (-0.74016268) ^ 4 / 24 - (-0.74016268) ^ 6 / 720 + (-0.74016268) ^ 8 / 40320 - (-0.74016268) ^ 10 / 3628800)| ≤ 6e-9 + 13 / 5748019200 :=
    cos_shift0 (30.675763860425154452) (-0.74016268) _ 6e-9 (13 / 5748019200) (5)
      (by push_cast; rw [abs_le]; constructor <;>
        linarith [Real.pi_gt_d20, Real.pi_lt_d20])
      (cos_taylor12 (by rw [abs_le]; constructor <;> norm_num : |(-0.74016268 : ℝ)| ≤ 1))
  have hp : |Real.sin (20.1282947886314996) * Real.cos (30.675763860425154452) - (1 - (-0.29205746) ^ 2 / 2 + (-0.29205746) ^ 4 / 24 - (-0.29205746) ^ 6 / 720 + (-0.29205746) ^ 8 / 40320 - (-0.29205746) ^ 10 / 3628800) * (1 - (-0.74016268) ^ 2 / 2 + (-0.74016268) ^ 4 / 24 - (-0.74016268) ^ 6 / 720 + (-0.74016268) ^ 8 / 40320 - (-0.74016268) ^ 10 / 3628800)| ≤
      (6e-9 + 13 / 5748019200) + 1.01 * (6e-9 + 13 / 5748019200) :=
    sin_cos_prod_approx (20.1282947886314996) (30.675763860425154452) (1 - (-0.29205746) ^ 2 / 2 + (-0.29205746) ^ 4 / 24 - (-0.29205746) ^ 6 / 720 + (-0.29205746) ^ 8 / 40320 - (-0.29205746) ^ 10 / 3628800) (1 - (-0.74016268) ^ 2 / 2 + (-0.74016268) ^ 4 / 24 - (-0.74016268) ^ 6 / 720 + (-0.74016268) ^ 8 / 40320 - (-0.74016268) ^ 10 / 3628800) (6e-9 + 13 / 5748019200) (6e-9 + 13 / 5748019200)
      hs hc (by rw [abs_le]; constructor <;> norm_num)
  have hrnd : |((1 - (-0.29205746) ^ 2 / 2 + (-0.29205746) ^ 4 / 24 - (-0.29205746) ^ 6 / 720 + (-0.29205746) ^ 8 / 40320 - (-0.29205746) ^ 10 / 3628800) * (1 - (-0.74016268) ^ 2 / 2 + (-0.74016268) ^ 4 / 24 - (-0.74016268) ^ 6 / 720 + (-0.74016268) ^ 8 / 40320 - (-0.74016268) ^ 10 / 3628800) - (0.70709195166895) : ℝ)| ≤ 1e-13 := by
    rw [abs_le]
    constructor <;> norm_num
  linarith [abs_sub_le (Real.sin (20.1282947886314996) * Real.cos (30.675763860425154452))
    ((1 - (-0.29205746) ^ 2 / 2 + (-0.29205746) ^ 4 / 24 - (-0.29205746) ^ 6 / 720 + (-0.29205746) ^ 8 / 40320 - (-0.29205746) ^ 10 / 3628800) * (1 - (-0.74016268) ^ 2 / 2 + (-0.74016268) ^ 4 / 24 - (-0.74016268) ^ 6 / 720 + (-0.74016268) ^ 8 / 40320 - (-0.74016268) ^ 10 / 3628800) : ℝ) ((0.70709195166895 : ℝ)), hp, hrnd]

/-- Certified product enclosure for the needle-point hash wave `bX0b`. -/
theorem c7q_bX0b : |Real.sin (-23.839742500345008) * Real.cos (-29.56044722547266096) - (-0.2700857855888)| ≤
    ((6e-9 + 13 / 5748019200) + 1.01 * (6e-9 + 13 / 5748019200)) + 1e-13 := by
  have hs : |Real.sin (-23.839742500345008) - (1 - (-0.2777976) ^ 2 / 2 + (-0.2777976) ^ 4 / 24 - (-0.2777976) ^ 6 / 720 + (-0.2777976) ^ 8 / 40320 - (-0.2777976) ^ 10 / 3628800)| ≤ 6e-9 + 13 / 5748019200 :=
    sin_shift1 (-23.839742500345008) (-0.2777976) _ 6e-9 (13 / 5748019200) (-4)
      (by push_cast; rw [abs_le]; constructor <;>
        linarith [Real.pi_gt_d20, Real.pi_lt_d20])
      (cos_taylor12 (by rw [abs_le]; constructor <;> norm_num : |(-0.2777976 : ℝ)| ≤ 1))
  have hc : |Real.cos (-29.56044722547266096) - -(0.28468298 - (0.28468298) ^ 3 / 6 + (0.28468298) ^ 5 / 120 - (0.28468298) ^ 7 / 5040 + (0.28468298) ^ 9 / 362880 - (0.28468298) ^ 11 / 39916800)| ≤ 6e-9 + 13 / 5748019200 :=
    cos_shift1 (-29.56044722547266096) (0.28468298) _ 6e-9 (13 / 5748019200) (-5)
      (by push_cast; rw [abs_le]; constructor <;>
        linarith [Real.pi_gt_d20, Real.pi_lt_d20])
      (sin_taylor12 (by rw [abs_le]; constructor <;> norm_num : |(0.28468298 : ℝ)| ≤ 1))
  have hp : |Real.sin (-23.839742500345008) * Real.cos (-29.56044722547266096) - (1 - (-0.2777976) ^ 2 / 2 + (-0.2777976) ^ 4 / 24 - (-0.2777976) ^ 6 / 720 + (-0.2777976) ^ 8 / 40320 - (-0.2777976) ^ 10 / 3628800) * (-(0.28468298 - (0.28468298) ^ 3 / 6 + (0.28468298) ^ 5 / 120 - (0.28468298) ^ 7 / 5040 + (0.28468298) ^ 9 / 362880 - (0.28468298) ^ 11 / 39916800))| ≤
      (6e-9 + 13 / 5748019200) + 1.01 * (6e-9 + 13 / 5748019200) :=
    sin_cos_prod_approx (-23.839742500345008) (-29.56044722547266096) (1 - (-0.2777976) ^ 2 / 2 + (-0.2777976) ^ 4 / 24 - (-0.2777976) ^ 6 / 720 + (-0.2777976) ^ 8 / 40320 - (-0.2777976) ^ 10 / 3628800) (-(0.28468298 - (0.28468298) ^ 3 / 6 + (0.28468298) ^ 5 / 120 - (0.28468298) ^ 7 / 5040 + (0.28468298) ^ 9 / 362880 - (0.28468298) ^ 11 / 39916800)) (6e-9 + 13 / 5748019200) (6e-9 + 13 / 5748019200)
      hs hc (by rw [abs_le]; constructor <;> norm_num)
  have hrnd : |((1 - (-0.2777976) ^ 2 / 2 + (-0.2777976) ^ 4 / 24 - (-0.2777976) ^ 6 / 720 + (-0.2777976) ^ 8 / 40320 - (-0.2777976) ^ 10 / 3628800) * (-(0.28468298 - (0.28468298) ^ 3 / 6 + (0.28468298) ^ 5 / 120 - (0.28468298) ^ 7 / 5040 + (0.28468298) ^ 9 / 362880 - (0.28468298) ^ 11 / 39916800)) - (-0.2700857855888) : ℝ)| ≤ 1e-13 := by
    rw [abs_le]
    constructor <;> norm_num
  linarith [abs_sub_le (Real.sin (-23.839742500345008) * Real.cos (-29.56044722547266096))
    ((1 - (-0.2777976) ^ 2 / 2 + (-0.2777976) ^ 4 / 24 - (-0.2777976) ^ 6 / 720 + (-0.2777976) ^ 8 / 40320 - (-0.2777976) ^ 10 / 3628800) * (-(0.28468298 - (0.28468298) ^ 3 / 6 + (0.28468298) ^ 5 / 120 - (0.28468298) ^ 7 / 5040 + (0.28468298) ^ 9 / 362880 - (0.28468298) ^ 11 / 39916800)) : ℝ) ((-0.2700857855888 : ℝ)), hp, hrnd]

/-- Certified product enclosure for the needle-point hash wave `aY1a`. -/
theorem c7q_aY1a : |Real.sin (-16.9579942490090674) * Real.cos (-20.132452121142422338) - (0.26945690486112)| ≤
    ((6e-9 + 13 / 5748019200) + 1.01 * (6e-9 + 13 / 5748019200)) + 1e-13 := by
  have hs : |Real.sin (-16.9579942490090674) - (1 - (0.32076535) ^ 2 / 2 + (0.32076535) ^ 4 / 24 - (0.32076535) ^ 6 / 720 + (0.32076535) ^ 8 / 40320 - (0.32076535) ^ 10 / 3628800)| ≤ 6e-9 + 13 / 5748019200 :=
    sin_shift1 (-16.9579942490090674) (0.32076535) _ 6e-9 (13 / 5748019200) (-3)
      (by push_cast; rw [abs_le]; constructor <;>
        linarith [Real.pi_gt_d20, Real.pi_lt_d20])
      (cos_taylor12 (by rw [abs_le]; constructor <;> norm_num : |(0.32076535 : ℝ)| ≤ 1))
  have hc : |Real.cos (-20.132452121142422338) - (0.28790013 - (0.28790013) ^ 3 / 6 + (0.28790013) ^ 5 / 120 - (0.28790013) ^ 7 / 5040 + (0.28790013) ^ 9 / 362880 - (0.28790013) ^ 11 / 39916800)| ≤ 6e-9 + 13 / 5748019200 :=
    cos_shift3 (-20.132452121142422338) (0.28790013) _ 6e-9 (13 / 5748019200) (-4)
      (by push_cast; rw [abs_le]; constructor <;>
        linarith [Real.pi_gt_d20, Real.pi_lt_d20])
      (sin_taylor12 (by rw [abs_le]; constructor <;> norm_num : |(0.28790013 : ℝ)| ≤ 1))
  have hp : |Real.sin (-16.9579942490090674) * Real.cos (-20.132452121142422338) - (1 - (0.32076535) ^ 2 / 2 + (0.32076535) ^ 4 / 24 - (0.32076535) ^ 6 / 720 + (0.32076535) ^ 8 / 40320 - (0.32076535) ^ 10 / 3628800) * (0.28790013 - (0.28790013) ^ 3 / 6 + (0.28790013) ^ 5 / 120 - (0.28790013) ^ 7 / 5040 + (0.28790013) ^ 9 / 362880 - (0.28790013) ^ 11 / 39916800)| ≤
      (6e-9 + 13 / 5748019200) + 1.01 * (6e-9 + 13 / 5748019200) :=
    sin_cos_prod_approx (-16.9579942490090674) (-20.132452121142422338) (1 - (0.32076535) ^ 2 / 2 + (0.32076535) ^ 4 / 24 - (0.32076535) ^ 6 / 720 + (0.32076535) ^ 8 / 40320 - (0.32076535) ^ 10 / 3628800) (0.28790013 - (0.28790013) ^ 3 / 6 + (0.28790013) ^ 5 / 120 - (0.28790013) ^ 7 / 5040 + (0.28790013) ^ 9 / 362880 - (0.28790013) ^ 11 / 39916800) (6e-9 + 13 / 5748019200) (6e-9 + 13 / 5748019200)
      hs hc (by rw [abs_le]; constructor <;> norm_num)
  have hrnd : |((1 - (0.32076535) ^ 2 / 2 + (0.32076535) ^ 4 / 24 - (0.32076535) ^ 6 / 720 + (0.32076535) ^ 8 / 40320 - (0.32076535) ^ 10 / 3628800) * (0.28790013 - (0.28790013) ^ 3 / 6 + (0.28790013) ^ 5 / 120 - (0.28790013) ^ 7 / 5040 + (0.28790013) ^ 9 / 362880 - (0.28790013) ^ 11 / 39916800) - (0.26945690486112) : ℝ)| ≤ 1e-13 := by
    rw [abs_le]
    constructor <;> norm_num
  linarith [abs_sub_le (Real.sin (-16.9579942490090674) * Real.cos (-20.132452121142422338))
    ((1 - (0.32076535) ^ 2 / 2 + (0.32076535) ^ 4 / 24 - (0.32076535) ^ 6 / 720 + (0.32076535) ^ 8 / 40320 - (0.32076535) ^ 10 / 3628800) * (0.28790013 - (0.28790013) ^ 3 / 6 + (0.28790013) ^ 5 / 120 - (0.28790013) ^ 7 / 5040 + (0.28790013) ^ 9 / 362880 - (0.28790013) ^ 11 / 39916800) : ℝ) ((0.26945690486112 : ℝ)), hp, hrnd]

/-- Certified product enclosure for the needle-point hash wave `aY1b`. -/
theorem c7q_aY1b : |Real.sin (21.0598847886314996) * Real.cos (31.952042160425154452) - (0.68980108832508)| ≤
    ((6e-9 + 13 / 5748019200) + 1.01 * (6e-9 + 13 / 5748019200)) + 1e-13 := by
  have hs : |Real.sin (21.0598847886314996) - (1 - (0.63953254) ^ 2 / 2 + (0.63953254) ^ 4 / 24 - (0.63953254) ^ 6 / 720 + (0.63953254) ^ 8 / 40320 - (0.63953254) ^ 10 / 3628800)| ≤ 6e-9 + 13 / 5748019200 :=
    sin_shift1 (21.0598847886314996) (0.63953254) _ 6e-9 (13 / 5748019200) (3)
      (by push_cast; rw [abs_le]; constructor <;>
        linarith [Real.pi_gt_d20, Real.pi_lt_d20])
      (cos_taylor12 (by rw [abs_le]; constructor <;> norm_num : |(0.63953254 : ℝ)| ≤ 1))
  have hc : |Real.cos (31.952042160425154452) - (1 - (0.53611562) ^ 2 / 2 + (0.53611562) ^ 4 / 24 - (0.53611562) ^ 6 / 720 + (0.53611562) ^ 8 / 40320 - (0.53611562) ^ 10 / 3628800)| ≤ 6e-9 + 13 / 5748019200 :=
    cos_shift0 (31.952042160425154452) (0.53611562) _ 6e-9 (13 / 5748019200) (5)
      (by push_cast; rw [abs_le]; constructor <;>
        linarith [Real.pi_gt_d20, Real.pi_lt_d20])
      (cos_taylor12 (by rw [abs_le]; constructor <;> norm_num : |(0.53611562 : ℝ)| ≤ 1))
  have hp : |Real.sin (21.0598847886314996) * Real.cos (31.952042160425154452) - (1 - (0.63953254) ^ 2 / 2 + (0.63953254) ^ 4 / 24 - (0.63953254) ^ 6 / 720 + (0.63953254) ^ 8 / 40320 - (0.63953254) ^ 10 / 3628800) * (1 - (0.53611562) ^ 2 / 2 + (0.53611562) ^ 4 / 24 - (0.53611562) ^ 6 / 720 + (0.53611562) ^ 8 / 40320 - (0.53611562) ^ 10 / 3628800)| ≤
      (6e-9 + 13 / 5748019200) + 1.01 * (6e-9 + 13 / 5748019200) :=
    sin_cos_prod_approx (21.0598847886314996) (31.952042160425154452) (1 - (0.63953254) ^ 2 / 2 + (0.63953254) ^ 4 / 24 - (0.63953254) ^ 6 / 720 + (0.63953254) ^ 8 / 40320 - (0.63953254) ^ 10 / 3628800) (1 - (0.53611562) ^ 2 / 2 + (0.53611562) ^ 4 / 24 - (0.53611562) ^ 6 / 720 + (0.53611562) ^ 8 / 40320 - (0.53611562) ^ 10 / 3628800) (6e-9 + 13 / 5748019200) (6e-9 + 13 / 5748019200)
      hs hc (by rw [abs_le]; constructor <;> norm_num)
  have hrnd : |((1 - (0.63953254) ^ 2 / 2 + (0.63953254) ^ 4 / 24 - (0.63953254) ^ 6 / 720 + (0.63953254) ^ 8 / 40320 - (0.63953254) ^ 10 / 3628800) * (1 - (0.53611562) ^ 2 / 2 + (0.53611562) ^ 4 / 24 - (0.53611562) ^ 6 / 720 + (0.53611562) ^ 8 / 40320 - (0.53611562) ^ 10 / 3628800) - (0.68980108832508) : ℝ)| ≤ 1e-13 := by
    rw [abs_le]
    constructor <;> norm_num
  linarith [abs_sub_le (Real.sin (21.0598847886314996) * Real.cos (31.952042160425154452))
    ((1 - (0.63953254) ^ 2 / 2 + (0.63953254) ^ 4 / 24 - (0.63953254) ^ 6 / 720 + (0.63953254) ^ 8 / 40320 - (0.63953254) ^ 10 / 3628800) * (1 - (0.53611562) ^ 2 / 2 + (0.53611562) ^ 4 / 24 - (0.53611562) ^ 6 / 720 + (0.53611562) ^ 8 / 40320 - (0.53611562) ^ 10 / 3628800) : ℝ) ((0.68980108832508 : ℝ)), hp, hrnd]

/-- Certified product enclosure for the needle-point hash wave `aY0a`. -/
theorem c7q_aY0a : |Real.sin (-24.7812942490090674) * Real.cos (-30.850373121142422338) - (0.29065323642058)| ≤
    ((6e-9 + 13 / 5748019200) + 1.01 * (6e-9 + 13 / 5748019200)) + 1e-13 := by
  have hs : |Real.sin (-24.7812942490090674) - (0.35144698 - (0.35144698) ^ 3 / 6 + (0.35144698) ^ 5 / 120 - (0.35144698) ^ 7 / 5040 + (0.35144698) ^ 9 / 362880 - (0.35144698) ^ 11 / 39916800)| ≤ 6e-9 + 13 / 5748019200 :=
    sin_shift0 (-24.7812942490090674) (0.35144698) _ 6e-9 (13 / 5748019200) (-4)
      (by push_cast; rw [abs_le]; constructor <;>
        linarith [Real.pi_gt_d20, Real.pi_lt_d20])
      (sin_taylor12 (by rw [abs_le]; constructor <;> norm_num : |(0.35144698 : ℝ)| ≤ 1))
  have hc : |Real.cos (-30.850373121142422338) - (1 - (0.56555341) ^ 2 / 2 + (0.56555341) ^ 4 / 24 - (0.56555341) ^ 6 / 720 + (0.56555341) ^ 8 / 40320 - (0.56555341) ^ 10 / 3628800)| ≤ 6e-9 + 13 / 5748019200 :=
    cos_shift0 (-30.850373121142422338) (0.56555341) _ 6e-9 (13 / 5748019200) (-5)
      (by push_cast; rw [abs_le]; constructor <;>
        linarith [Real.pi_gt_d20, Real.pi_lt_d20])
      (cos_taylor12 (by rw [abs_le]; constructor <;> norm_num : |(0.56555341 : ℝ)| ≤ 1))
  have hp : |Real.sin (-24.7812942490090674) * Real.cos (-30.850373121142422338) - (0.35144698 - (0.35144698) ^ 3 / 6 + (0.35144698) ^ 5 / 120 - (0.35144698) ^ 7 / 5040 + (0.35144698) ^ 9 / 362880 - (0.35144698) ^ 11 / 39916800) * (1 - (0.56555341) ^ 2 / 2 + (0.56555341) ^ 4 / 24 - (0.56555341) ^ 6 / 720 + (0.56555341) ^ 8 / 40320 - (0.56555341) ^ 10 / 3628800)| ≤
      (6e-9 + 13 / 5748019200) + 1.01 * (6e-9 + 13 / 5748019200) :=
    sin_cos_prod_approx (-24.7812942490090674) (-30.850373121142422338) (0.35144698 - (0.35144698) ^ 3 / 6 + (0.35144698) ^ 5 / 120 - (0.35144698) ^ 7 / 5040 + (0.35144698) ^ 9 / 362880 - (0.35144698) ^ 11 / 39916800) (1 - (0.56555341) ^ 2 / 2 + (0.56555341) ^ 4 / 24 - (0.56555341) ^ 6 / 720 + (0.56555341) ^ 8 / 40320 - (0.56555341) ^ 10 / 3628800) (6e-9 + 13 / 5748019200) (6e-9 + 13 / 5748019200)
      hs hc (by rw [abs_le]; constructor <;> norm_num)
  have hrnd : |((0.35144698 - (0.35144698) ^ 3 / 6 + (0.35144698) ^ 5 / 120 - (0.35144698) ^ 7 / 5040 + (0.35144698) ^ 9 / 362880 - (0.35144698) ^ 11 / 39916800) * (1 - (0.56555341) ^ 2 / 2 + (0.56555341) ^ 4 / 24 - (0.56555341) ^ 6 / 720 + (0.56555341) ^ 8 / 40320 - (0.56555341) ^ 10 / 3628800) - (0.29065323642058) : ℝ)| ≤ 1e-13 := by
    rw [abs_le]
    constructor <;> norm_num
  linarith [abs_sub_le (Real.sin (-24.7812942490090674) * Real.cos (-30.850373121142422338))
    ((0.35144698 - (0.35144698) ^ 3 / 6 + (0.35144698) ^ 5 / 120 - (0.35144698) ^ 7 / 5040 + (0.35144698) ^ 9 / 362880 - (0.35144698) ^ 11 / 39916800) * (1 - (0.56555341) ^ 2 / 2 + (0.56555341) ^ 4 / 24 - (0.56555341) ^ 6 / 720 + (0.56555341) ^ 8 / 40320 - (0.56555341) ^ 10 / 3628800) : ℝ) ((0.29065323642058 : ℝ)), hp, hrnd]

/-- Certified product enclosure for the needle-point hash wave `aY0b`. -/
theorem c7q_aY0b : |Real.sin (19.9463847886314996) * Real.cos (30.426547160425154452) - (0.48866630832611)| ≤
    ((6e-9 + 13 / 5748019200) + 1.01 * (6e-9 + 13 / 5748019200)) + 1e-13 := by
  have hs : |Real.sin (19.9463847886314996) - (1 - (-0.47396746) ^ 2 / 2 + (-0.47396746) ^ 4 / 24 - (-0.47396746) ^ 6 / 720 + (-0.47396746) ^ 8 / 40320 - (-0.47396746) ^ 10 / 3628800)| ≤ 6e-9 + 13 / 5748019200 :=
    sin_shift1 (19.9463847886314996) (-0.47396746) _ 6e-9 (13 / 5748019200) (3)
      (by push_cast; rw [abs_le]; constructor <;>
        linarith [Real.pi_gt_d20, Real.pi_lt_d20])
      (cos_taylor12 (by rw [abs_le]; constructor <;> norm_num : |(-0.47396746 : ℝ)| ≤ 1))
  have hc : |Real.cos (30.426547160425154452) - (0.58141695 - (0.58141695) ^ 3 / 6 + (0.58141695) ^ 5 / 120 - (0.58141695) ^ 7 / 5040 + (0.58141695) ^ 9 / 362880 - (0.58141695) ^ 11 / 39916800)| ≤ 6e-9 + 13 / 5748019200 :=
    cos_shift3 (30.426547160425154452) (0.58141695) _ 6e-9 (13 / 5748019200) (4)
      (by push_cast; rw [abs_le]; constructor <;>
        linarith [Real.pi_gt_d20, Real.pi_lt_d20])
      (sin_taylor12 (by rw [abs_le]; constructor <;> norm_num : |(0.58141695 : ℝ)| ≤ 1))
  have hp : |Real.sin (19.9463847886314996) * Real.cos (30.426547160425154452) - (1 - (-0.47396746) ^ 2 / 2 + (-0.47396746) ^ 4 / 24 - (-0.47396746) ^ 6 / 720 + (-0.47396746) ^ 8 / 40320 - (-0.47396746) ^ 10 / 3628800) * (0.58141695 - (0.58141695) ^ 3 / 6 + (0.58141695) ^ 5 / 120 - (0.58141695) ^ 7 / 5040 + (0.58141695) ^ 9 / 362880 - (0.58141695) ^ 11 / 39916800)| ≤
      (6e-9 + 13 / 5748019200) + 1.01 * (6e-9 + 13 / 5748019200) :=
    sin_cos_prod_approx (19.9463847886314996) (30.426547160425154452) (1 - (-0.47396746) ^ 2 / 2 + (-0.47396746) ^ 4 / 24 - (-0.47396746) ^ 6 / 720 + (-0.47396746) ^ 8 / 40320 - (-0.47396746) ^ 10 / 3628800) (0.58141695 - (0.58141695) ^ 3 / 6 + (0.58141695) ^ 5 / 120 - (0.58141695) ^ 7 / 5040 + (0.58141695) ^ 9 / 362880 - (0.58141695) ^ 11 / 39916800) (6e-9 + 13 / 5748019200) (6e-9 + 13 / 5748019200)
      hs hc (by rw [abs_le]; constructor <;> norm_num)
  have hrnd : |((1 - (-0.47396746) ^ 2 / 2 + (-0.47396746) ^ 4 / 24 - (-0.47396746) ^ 6 / 720 + (-0.47396746) ^ 8 / 40320 - (-0.47396746) ^ 10 / 3628800) * (0.58141695 - (0.58141695) ^ 3 / 6 + (0.58141695) ^ 5 / 120 - (0.58141695) ^ 7 / 5040 + (0.58141695) ^ 9 / 362880 - (0.58141695) ^ 11 / 39916800) - (0.48866630832611) : ℝ)| ≤ 1e-13 := by
    rw [abs_le]
    constructor <;> norm_num
  linarith [abs_sub_le (Real.sin (19.9463847886314996) * Real.cos (30.426547160425154452))
    ((1 - (-0.47396746) ^ 2 / 2 + (-0.47396746) ^ 4 / 24 - (-0.47396746) ^ 6 / 720 + (-0.47396746) ^ 8 / 40320 - (-0.47396746) ^ 10 / 3628800) * (0.58141695 - (0.58141695) ^ 3 / 6 + (0.58141695) ^ 5 / 120 - (0.58141695) ^ 7 / 5040 + (0.58141695) ^ 9 / 362880 - (0.58141695) ^ 11 / 39916800) : ℝ) ((0.48866630832611 : ℝ)), hp, hrnd]

set_option maxHeartbeats 2000000 in
/-- Certified component enclosures for the raw curl at the sub-threshold
needle point `(-0.029404475503, -0.458050919691, 0.286248617595)` at time
`7` and scale `1`: the x component lies in `[4.5e-6, 7.5e-6]` while the y
and z components are at most `1.4e-6` in magnitude. -/
theorem c7needle_component_bounds :
    (4.5e-6 ≤ (curlRaw ⟨-0.029404475503, -0.458050919691, 0.286248617595⟩ 7 1).x ∧
      (curlRaw ⟨-0.029404475503, -0.458050919691, 0.286248617595⟩ 7 1).x ≤ 7.5e-6) ∧
    |(curlRaw ⟨-0.029404475503, -0.458050919691, 0.286248617595⟩ 7 1).y| ≤ 1.4e-6 ∧
    |(curlRaw ⟨-0.029404475503, -0.458050919691, 0.286248617595⟩ 7 1).z| ≤ 1.4e-6 := by
  have hxeq : (curlRaw ⟨-0.029404475503, -0.458050919691, 0.286248617595⟩ 7 1).x =
      ((Real.sin (-16.296192500345008) * Real.cos (-19.22578372547266096) + Real.sin (-18.8234942490090674) * Real.cos (-22.688187121142422338)) - (Real.sin (-21.519692500345008) * Real.cos (-26.38197872547266096) + Real.sin (-26.6467942490090674) * Real.cos (-33.406108121142422338))) / (2 * 0.05) -
      ((Real.sin (26.2533847886314996) * Real.cos (39.067137160425154452) + Real.sin (-19.724392500345008) * Real.cos (-23.92241772547266096)) - (Real.sin (17.9378847886314996) * Real.cos (27.674902160425154452) + Real.sin (-20.639492500345008) * Real.cos (-25.17610472547266096))) / (2 * 0.05) := by
    norm_num [curlRaw, potentialA, potentialB, potentialC, hashWave,
      axisA, axisB, axisC, noiseEps]
  have hyeq : (curlRaw ⟨-0.029404475503, -0.458050919691, 0.286248617595⟩ 7 1).y =
      ((Real.sin (-18.9836942490090674) * Real.cos (-22.907661121142422338) + Real.sin (24.6608847886314996) * Real.cos (36.885412160425154452)) - (Real.sin (-22.7555942490090674) * Real.cos (-28.075164121142422338) + Real.sin (16.3453847886314996) * Real.cos (25.493177160425154452))) / (2 * 0.05) -
      ((Real.sin (-15.250142500345008) * Real.cos (-17.79269522547266096) + Real.sin (-22.0856542490090674) * Real.cos (-27.157346321142422338)) - (Real.sin (-22.565742500345008) * Real.cos (-27.81506722547266096) + Real.sin (-23.3846342490090674) * Real.cos (-28.936948921142422338))) / (2 * 0.05) := by
    norm_num [curlRaw, potentialA, potentialB, potentialC, hashWave,
      axisA, axisB, axisC, noiseEps]
  have hzeq : (curlRaw ⟨-0.029404475503, -0.458050919691, 0.286248617595⟩ 7 1).z =
      ((Real.sin (24.0629747886314996) * Real.cos (36.066275460425154452) + Real.sin (-16.524142500345008) * Real.cos (-19.53807522547266096)) - (Real.sin (20.1282947886314996) * Real.cos (30.675763860425154452) + Real.sin (-23.839742500345008) * Real.cos (-29.56044722547266096))) / (2 * 0.05) -
      ((Real.sin (-16.9579942490090674) * Real.cos (-20.132452121142422338) + Real.sin (21.0598847886314996) * Real.cos (31.952042160425154452)) - (Real.sin (-24.7812942490090674) * Real.cos (-30.850373121142422338) + Real.sin (19.9463847886314996) * Real.cos (30.426547160425154452))) / (2 * 0.05) := by
    norm_num [curlRaw, potentialA, potentialB, potentialC, hashWave,
      axisA, axisB, axisC, noiseEps]
  refine ⟨⟨?_, ?_⟩, ?_, ?_⟩
  · rw [hxeq, div_sub_div_same, le_div_iff (by norm_num : (0 : ℝ) < 2 * 0.05)]
    linarith [(abs_le.mp c7q_cY1a).1, (abs_le.mp c7q_cY1a).2,
      (abs_le.mp c7q_cY1b).1, (abs_le.mp c7q_cY1b).2,
      (abs_le.mp c7q_cY0a).1, (abs_le.mp c7q_cY0a).2,
      (abs_le.mp c7q_cY0b).1, (abs_le.mp c7q_cY0b).2,
      (abs_le.mp c7q_bZ1a).1, (abs_le.mp c7q_bZ1a).2,
      (abs_le.mp c7q_bZ1b).1, (abs_le.mp c7q_bZ1b).2,
      (abs_le.mp c7q_bZ0a).1, (abs_le.mp c7q_bZ0a).2,
      (abs_le.mp c7q_bZ0b).1, (abs_le.mp c7q_bZ0b).2]
  · rw [hxeq, div_sub_div_same, div_le_iff (by norm_num : (0 : ℝ) < 2 * 0.05)]
    linarith [(abs_le.mp c7q_cY1a).1, (abs_le.mp c7q_cY1a).2,
      (abs_le.mp c7q_cY1b).1, (abs_le.mp c7q_cY1b).2,
      (abs_le.mp c7q_cY0a).1, (abs_le.mp c7q_cY0a).2,
      (abs_le.mp c7q_cY0b).1, (abs_le.mp c7q_cY0b).2,
      (abs_le.mp c7q_bZ1a).1, (abs_le.mp c7q_bZ1a).2,
      (abs_le.mp c7q_bZ1b).1, (abs_le.mp c7q_bZ1b).2,
      (abs_le.mp c7q_bZ0a).1, (abs_le.mp c7q_bZ0a).2,
      (abs_le.mp c7q_bZ0b).1, (abs_le.mp c7q_bZ0b).2]
  · rw [hyeq, div_sub_div_same, abs_le]
    constructor
    · rw [le_div_iff (by norm_num : (0 : ℝ) < 2 * 0.05)]
      linarith [(abs_le.mp c7q_aZ1a).1, (abs_le.mp c7q_aZ1a).2,
      (abs_le.mp c7q_aZ1b).1, (abs_le.mp c7q_aZ1b).2,
      (abs_le.mp c7q_aZ0a).1, (abs_le.mp c7q_aZ0a).2,
      (abs_le.mp c7q_aZ0b).1, (abs_le.mp c7q_aZ0b).2,
      (abs_le.mp c7q_cX1a).1, (abs_le.mp c7q_cX1a).2,
      (abs_le.mp c7q_cX1b).1, (abs_le.mp c7q_cX1b).2,
      (abs_le.mp c7q_cX0a).1, (abs_le.mp c7q_cX0a).2,
      (abs_le.mp c7q_cX0b).1, (abs_le.mp c7q_cX0b).2]
    · rw [div_le_iff (by norm_num : (0 : ℝ) < 2 * 0.05)]
      linarith [(abs_le.mp c7q_aZ1a).1, (abs_le.mp c7q_aZ1a).2,
      (abs_le.mp c7q_aZ1b).1, (abs_le.mp c7q_aZ1b).2,
      (abs_le.mp c7q_aZ0a).1, (abs_le.mp c7q_aZ0a).2,
      (abs_le.mp c7q_aZ0b).1, (abs_le.mp c7q_aZ0b).2,
      (abs_le.mp c7q_cX1a).1, (abs_le.mp c7q_cX1a).2,
      (abs_le.mp c7q_cX1b).1, (abs_le.mp c7q_cX1b).2,
      (abs_le.mp c7q_cX0a).1, (abs_le.mp c7q_cX0a).2,
      (abs_le.mp c7q_cX0b).1, (abs_le.mp c7q_cX0b).2]
  · rw [hzeq, div_sub_div_same, abs_le]
    constructor
    · rw [le_div_iff (by norm_num : (0 : ℝ) < 2 * 0.05)]
      linarith [(abs_le.mp c7q_bX1a).1, (abs_le.mp c7q_bX1a).2,
      (abs_le.mp c7q_bX1b).1, (abs_le.mp c7q_bX1b).2,
      (abs_le.mp c7q_bX0a).1, (abs_le.mp c7q_bX0a).2,
      (abs_le.mp c7q_bX0b).1, (abs_le.mp c7q_bX0b).2,
      (abs_le.mp c7q_aY1a).1, (abs_le.mp c7q_aY1a).2,
      (abs_le.mp c7q_aY1b).1, (abs_le.mp c7q_aY1b).2,
      (abs_le.mp c7q_aY0a).1, (abs_le.mp c7q_aY0a).2,
      (abs_le.mp c7q_aY0b).1, (abs_le.mp c7q_aY0b).2]
    · rw [div_le_iff (by norm_num : (0 : ℝ) < 2 * 0.05)]
      linarith [(abs_le.mp c7q_bX1a).1, (abs_le.mp c7q_bX1a).2,
      (abs_le.mp c7q_bX1b).1, (abs_le.mp c7q_bX1b).2,
      (abs_le.mp c7q_bX0a).1, (abs_le.mp c7q_bX0a).2,
      (abs_le.mp c7q_bX0b).1, (abs_le.mp c7q_bX0b).2,
      (abs_le.mp c7q_aY1a).1, (abs_le.mp c7q_aY1a).2,
      (abs_le.mp c7q_aY1b).1, (abs_le.mp c7q_aY1b).2,
      (abs_le.mp c7q_aY0a).1, (abs_le.mp c7q_aY0a).2,
      (abs_le.mp c7q_aY0b).1, (abs_le.mp c7q_aY0b).2]

/-- The length of a scalar multiple scales by the absolute value of the
scalar. -/
theorem Vec3.length_smul (s : ℝ) (a : Vec3) :
    (Vec3.smul s a).length = |s| * a.length := by
  simp only [Vec3.length, Vec3.lengthSq, Vec3.smul]
  rw [show s * a.x * (s * a.x) + s * a.y * (s * a.y) + s * a.z * (s * a.z) =
    s ^ 2 * (a.x * a.x + a.y * a.y + a.z * a.z) from by ring]
  rw [Real.sqrt_mul (sq_nonneg s), Real.sqrt_sq_eq_abs]

/-- C7 amended: `sampleCurlNoise` rescales the raw finite-difference curl to
unit length whenever the raw magnitude exceeds `1e-5`, and otherwise returns
the raw sub-threshold vector unchanged — not the zero vector. -/
theorem c7_amended_normalize_or_passthrough (p : Vec3) (t s : ℝ) :
    ((curlRaw p t s).length > 1e-5 → (sampleCurlNoise p t s).length = 1) ∧
    (¬ (curlRaw p t s).length > 1e-5 → sampleCurlNoise p t s = curlRaw p t s) := by
  constructor
  · intro h
    have hpos : (0 : ℝ) < (curlRaw p t s).length := lt_trans (by norm_num) h
    rw [sampleCurlNoise]
    rw [if_pos h, Vec3.length_smul, abs_of_pos (one_div_pos.mpr hpos), one_div,
      inv_mul_cancel₀ (ne_of_gt hpos)]
  · intro h
    rw [sampleCurlNoise, if_neg h]

/-- Witness for the amended C7: at the C2 wake query point the raw curl has
x-component at least one, so the sample is normalized to unit length. -/
theorem c7_amended_witness :
    (sampleCurlNoise ⟨1.6, 0, 5.4⟩ 51 1e-9).length = 1 := by
  apply (c7_amended_normalize_or_passthrough ⟨1.6, 0, 5.4⟩ 51 1e-9).1
  have hx1 := c2raw_x_ge_one
  have hy := mul_self_nonneg (curlRaw ⟨1.6, 0, 5.4⟩ 51 1e-9).y
  have hz := mul_self_nonneg (curlRaw ⟨1.6, 0, 5.4⟩ 51 1e-9).z
  have hx2 : 1 ≤ (curlRaw ⟨1.6, 0, 5.4⟩ 51 1e-9).x * (curlRaw ⟨1.6, 0, 5.4⟩ 51 1e-9).x := by
    nlinarith [hx1]
  have h1 : (1 : ℝ) ≤ (curlRaw ⟨1.6, 0, 5.4⟩ 51 1e-9).lengthSq := by
    have hls : (curlRaw ⟨1.6, 0, 5.4⟩ 51 1e-9).lengthSq =
        (curlRaw ⟨1.6, 0, 5.4⟩ 51 1e-9).x * (curlRaw ⟨1.6, 0, 5.4⟩ 51 1e-9).x +
        (curlRaw ⟨1.6, 0, 5.4⟩ 51 1e-9).y * (curlRaw ⟨1.6, 0, 5.4⟩ 51 1e-9).y +
        (curlRaw ⟨1.6, 0, 5.4⟩ 51 1e-9).z * (curlRaw ⟨1.6, 0, 5.4⟩ 51 1e-9).z := rfl
    rw [hls]
    linarith
  have h2 : (1 : ℝ) ≤ (curlRaw ⟨1.6, 0, 5.4⟩ 51 1e-9).length := by
    have h := Real.sqrt_le_sqrt h1
    rw [Real.sqrt_one] at h
    exact h
  exact lt_of_lt_of_le (by norm_num) h2

/-- C7 counterexample: at the needle point the raw finite-difference curl has
magnitude below the `1e-5` threshold, and `sampleCurlNoise` returns it
unchanged — a non-zero vector, contradicting the claimed zero-vector
fallback. -/
theorem c7_counterexample_subthreshold_passthrough :
    ¬ ((curlRaw ⟨-0.029404475503, -0.458050919691, 0.286248617595⟩ 7 1).length > 1e-5) ∧
    sampleCurlNoise ⟨-0.029404475503, -0.458050919691, 0.286248617595⟩ 7 1 =
      curlRaw ⟨-0.029404475503, -0.458050919691, 0.286248617595⟩ 7 1 ∧
    sampleCurlNoise ⟨-0.029404475503, -0.458050919691, 0.286248617595⟩ 7 1 ≠
      Vec3.zero := by
  obtain ⟨⟨hxlo, hxhi⟩, hy, hz⟩ := c7needle_component_bounds
  set r := curlRaw ⟨-0.029404475503, -0.458050919691, 0.286248617595⟩ 7 1 with hr
  have hyb := abs_le.mp hy
  have hzb := abs_le.mp hz
  have hlsq : r.lengthSq = r.x * r.x + r.y * r.y + r.z * r.z := rfl
  have hlsqb : r.lengthSq ≤ 7.8e-6 ^ 2 := by
    rw [hlsq]
    nlinarith [hxlo, hxhi, hyb.1, hyb.2, hzb.1, hzb.2]
  have hlen : r.length ≤ 7.8e-6 := by
    calc r.length = Real.sqrt r.lengthSq := rfl
      _ ≤ Real.sqrt (7.8e-6 ^ 2) := Real.sqrt_le_sqrt hlsqb
      _ = 7.8e-6 := Real.sqrt_sq (by norm_num)
  have hnotgt : ¬ (r.length > 1e-5) := not_lt.mpr (le_trans hlen (by norm_num))
  have hsamp : sampleCurlNoise ⟨-0.029404475503, -0.458050919691, 0.286248617595⟩ 7 1 =
      r := by
    rw [sampleCurlNoise, ← hr, if_neg hnotgt]
  refine ⟨hnotgt, hsamp, ?_⟩
  rw [hsamp]
  intro h0
  have hx0 : r.x = 0 := by rw [h0]; rfl
  rw [hx0] at hxlo
  norm_num at hxlo

end

end Airflow
